import Mathlib

/-!
# Desktop duplication: screen-capture session controller

A shallow embedding of the orchestration layer of the screen recorder:

* `TimedMediaGrabber` (src/TimedMediaGrabber.hpp): the periodic scheduler,
  its constructor, `start`, `callbackRoutine`, `deleteTimer` and the
  sleep-based loop `runSleepBasedCallback`;
* `ScreenCapture::Impl` (src/ScreenCaptureImpl.cpp / .hpp): the recording
  state, the frame queue `screenDataList`, the command watcher
  `startCommandProcessing` with its two helper lambdas, the consumer and
  producer callbacks, `stop` and the tail of `start`, the configuration
  functions `parseConfigFile` and `init`, and the producer routine
  `startScreenRecording`;
* the four threads of a session (watcher, caller of `start`, producer,
  consumer) as a transition system over atomic steps.

C++ `int` values are integers wrapped to 32 bits by `wrapInt32` wherever the
source computes with them; `time_t` and the millisecond counts of
`std::chrono` are 64-bit and modelled as unbounded integers.
-/

namespace CapUtils

/-! ## Machine integers -/

/-- Two's-complement wrap of an integer to the range of a 32-bit `int`. -/
def wrapInt32 (x : Int) : Int :=
  (x + 2147483648) % 4294967296 - 2147483648

/-- Largest value of a 32-bit `int`. -/
def INT_MAX : Int := 2147483647

/-- Smallest value of a 32-bit `int`. -/
def INT_MIN : Int := -2147483648

/-! ## TimedMediaGrabber (src/TimedMediaGrabber.hpp) -/

/-- Default to 30 frames per second. -/
def DEFAULT_MEDIA_FPS : Int := 30

/-- Callback scheme of a timed media grabbing session. -/
inductive MediaCallbackType where
  | UNKNOWN_CALLBACK
  | MULTIMEDIA_TIMER
  | SYSTEM_SLEEP
  deriving DecidableEq, Repr

/-- Data members of `TimedMediaGrabber` that the scheduling logic reads or
writes.  Handles are modelled by whether they are set: `newTimer` is `true`
while the timer-queue timer handle is non-null, `doneEvent` is `true` once the
event has been signalled with `SetEvent`. -/
structure TimedMediaGrabber where
  frequency : Int
  mediaCaptureDurationInSeconds : Int
  mediaCallbackType : MediaCallbackType
  newTimer : Bool
  timerRunState : Bool
  doneEvent : Bool
  deriving DecidableEq, Repr

namespace TimedMediaGrabber

/-- The value of the local `factoredFps` after line 54 of the constructor:
the `int` product `grabFactor * fps`, replaced by the default when it is not
in `(0, 1000]`. -/
def factoredFps (fps grabFactor : Int) : Int :=
  let factoredFps := wrapInt32 (grabFactor * fps)
  if factoredFps > 0 ∧ factoredFps ≤ 1000 then factoredFps else DEFAULT_MEDIA_FPS

/-- Constructor `TimedMediaGrabber(fps, callback, timeDuration = 0, grabFactor = 1)`.
The remaining members take their in-class initialisers. -/
def new (fps : Int) (timeDuration : Int) (grabFactor : Int) : TimedMediaGrabber :=
  { frequency := Int.tdiv 1000 (factoredFps fps grabFactor)
    mediaCaptureDurationInSeconds := timeDuration
    mediaCallbackType := MediaCallbackType.MULTIMEDIA_TIMER
    newTimer := false
    timerRunState := false
    doneEvent := false }

/-- Accessor `getFrequency()`: the period of timed callbacks in milliseconds. -/
def getFrequency (g : TimedMediaGrabber) : Int := g.frequency

/-- Member `setMediaCallbackType(callbackType)`. -/
def setMediaCallbackType (callbackType : MediaCallbackType) (g : TimedMediaGrabber) :
    TimedMediaGrabber :=
  { g with mediaCallbackType := callbackType }

/-- Member `deleteTimer()`: clears the timer handle when one is set. -/
def deleteTimer (g : TimedMediaGrabber) : TimedMediaGrabber :=
  if g.newTimer then { g with newTimer := false } else g

/-- Helper `setupMultimediaTimer()`.  `createTimerQueueOk` and `createTimerOk`
are the outcomes of `CreateTimerQueue` and `CreateTimerQueueTimer`; the timer
handle is set only when the timer is created. -/
def setupMultimediaTimer (createTimerQueueOk createTimerOk : Bool) (g : TimedMediaGrabber) :
    TimedMediaGrabber × Bool :=
  if !createTimerQueueOk then (g, false)
  else if !createTimerOk then (g, false)
  else ({ g with newTimer := true }, true)

/-- Member `start()`.  `createEventOk` is the outcome of `CreateEvent`, which
yields a fresh non-signalled event. -/
def start (createEventOk createTimerQueueOk createTimerOk : Bool) (g : TimedMediaGrabber) :
    TimedMediaGrabber × Bool :=
  if !createEventOk then (g, false)
  else
    let g1 := { g with doneEvent := false }
    if g1.mediaCallbackType = MediaCallbackType.MULTIMEDIA_TIMER then
      g1.setupMultimediaTimer createTimerQueueOk createTimerOk
    else if g1.mediaCallbackType = MediaCallbackType.SYSTEM_SLEEP then
      ({ g1 with timerRunState := true }, true)
    else
      (g1, true)

/-- The stop sequence shared by both branches of `callbackRoutine`:
delete the timer when the multimedia timer drives the callbacks, clear the
run flag, signal the done event. -/
def signalCompletion (g : TimedMediaGrabber) : TimedMediaGrabber :=
  let g1 := if g.mediaCallbackType = MediaCallbackType.MULTIMEDIA_TIMER then g.deleteTimer else g
  { g1 with timerRunState := false, doneEvent := true }

/-- Static member `callbackRoutine`: one periodic invocation.  `timerCallback`
is the client callback acting on the client state `σ`; `timeDifference` is the
number of milliseconds on the steady clock since `start()`, read only on the
bounded-duration branch. -/
def callbackRoutine {σ : Type} (timerCallback : σ → σ × Bool) (timeDifference : Int)
    (g : TimedMediaGrabber) (s : σ) : TimedMediaGrabber × σ :=
  let r := timerCallback s
  if !r.2 then
    (g.signalCompletion, r.1)
  else if g.mediaCaptureDurationInSeconds > 0 then
    if timeDifference ≥ wrapInt32 (g.mediaCaptureDurationInSeconds * 1000) then
      (g.signalCompletion, r.1)
    else
      (g, r.1)
  else
    (g, r.1)

/-- Static member `runSleepBasedCallback`, the loop of the sleep-based
backend, over the steady-clock readings of its successive iterations: while
the run flag is set, sleep for `getFrequency()` milliseconds, then invoke
`callbackRoutine`.  The result lists the durations slept, in milliseconds,
with the grabber and the client state when the loop ends or the readings are
used up. -/
def runSleepBasedCallback {σ : Type} (timerCallback : σ → σ × Bool) :
    List Int → TimedMediaGrabber → σ → List Int × TimedMediaGrabber × σ
  | [], g, s => ([], g, s)
  | timeDifference :: rest, g, s =>
    if g.timerRunState then
      let r := callbackRoutine timerCallback timeDifference g s
      let t := runSleepBasedCallback timerCallback rest r.1 r.2
      (g.getFrequency :: t.1, t.2)
    else
      ([], g, s)

end TimedMediaGrabber

/-! ## ScreenCapture::Impl (src/ScreenCaptureImpl.hpp, src/ScreenCaptureImpl.cpp) -/

/-- State values for screen recording. -/
inductive ScreenRecordingState where
  | ScreenRecordingNotStarted
  | ScreenRecordingStarted
  | ScreenRecordingAboutToStop
  | ScreenRecordingTerminated
  deriving DecidableEq, Repr

/-- Extra time duration of screen capture, in seconds, to continue upon
receiving the StopRec command. -/
def kExtraCaptureDuration : Int := 2

/-- The three scalar members of `FFScreenSessionInfo` set from the
configuration. -/
structure FFScreenSessionInfo where
  fps : Int
  crf : Int
  outputBitrateInMB : Int
  deriving DecidableEq, Repr

/-- Screen coordinate positions for screen capture. -/
structure ScreenCaptureParams where
  resoutionWidth : Int
  resoutionHeight : Int
  topLeftX1 : Int
  topLeftY1 : Int
  bottomRightX2 : Int
  bottomRightY2 : Int
  deriving DecidableEq, Repr

/-- Data members of `ScreenCapture::Impl`.  `Frame` stands for `cv::Mat`,
which the controller never inspects; `screenDataList` is the `std::deque` used
as frame queue, front first. -/
structure Impl (Frame : Type) where
  configFile : String
  playListFileName : String
  commandFileName : String
  outputFilePath : String
  keepaliveFrequencyInSeconds : Int
  segmentDuration : Int
  recordingState : ScreenRecordingState
  srcheight : Int
  srcwidth : Int
  ffScreenSessionInfo : FFScreenSessionInfo
  screenCaptureParams : ScreenCaptureParams
  screenDataList : List Frame

namespace Impl

variable {Frame : Type}

/-- Constructor `Impl(configFileName)`: every member takes its in-class
initialiser and the recording state is initialised to not started. -/
def new (configFileName : String) : Impl Frame :=
  { configFile := configFileName
    playListFileName := ""
    commandFileName := ""
    outputFilePath := ""
    keepaliveFrequencyInSeconds := 0
    segmentDuration := 10
    recordingState := ScreenRecordingState.ScreenRecordingNotStarted
    srcheight := 0
    srcwidth := 0
    ffScreenSessionInfo := { fps := 30, crf := 23, outputBitrateInMB := 0 }
    screenCaptureParams :=
      { resoutionWidth := 3240, resoutionHeight := 2160, topLeftX1 := 0, topLeftY1 := 0,
        bottomRightX2 := 0, bottomRightY2 := 0 }
    screenDataList := [] }

/-- Member `isCaptureSessionRunning()`. -/
def isCaptureSessionRunning (s : Impl Frame) : Bool :=
  decide (s.recordingState ≠ ScreenRecordingState.ScreenRecordingTerminated)

/-- Member `stop()`. -/
def stop (s : Impl Frame) : Impl Frame :=
  { s with recordingState := ScreenRecordingState.ScreenRecordingAboutToStop }

/-! ### Consumer and producer callbacks -/

/-- The callback lambda of `produceSegmentedVideosFromScreenCapture`
(lines 517-530), the consumer tick.  The middle component of the result is the
frame handed to `addFrame` on this tick, if any. -/
def consumerCallback (s : Impl Frame) : Impl Frame × Option Frame × Bool :=
  if s.isCaptureSessionRunning || !s.screenDataList.isEmpty then
    match s.screenDataList with
    | src :: rest => ({ s with screenDataList := rest }, some src, true)
    | [] => (s, none, true)
  else
    (s, none, false)

/-- The lambda `screenGrabAndEncodeFrame` of `startScreenRecording`
(lines 545-556), the producer tick.  `state` is the captured local snapshot,
`src` the frame that `windowAsMatrix()` returns when it is called. -/
def screenGrabAndEncodeFrame (state : ScreenRecordingState) (src : Frame) (s : Impl Frame) :
    Impl Frame × Bool :=
  if s.recordingState = state then
    ({ s with screenDataList := s.screenDataList ++ [src] }, true)
  else
    (s, false)

/-- The last statement of `startScreenRecording` (line 586). -/
def startScreenRecordingFinish (s : Impl Frame) : Impl Frame :=
  { s with recordingState := ScreenRecordingState.ScreenRecordingTerminated }

/-! ### Command watcher -/

/-- Locals of `startCommandProcessing`.  `pr` is the value held by the promise;
the `std::once_flag promiseSet` is set exactly when the promise holds a value,
because both live for one call and are written only by the body passed to
`std::call_once`. -/
structure CommandProcessing where
  stLocal : Int
  pr : Option Bool
  maxWaitTime : Int
  deriving DecidableEq, Repr

/-- What one iteration of the watcher loop observes from outside the process:
`stCurrLocal` is the result of `getLastWriteTime(commandFileName)` (0 when the
file cannot be stat-ed), `now` the reading of `system_clock::now()` in
milliseconds since the epoch, `line` the first line returned by `getline`, or
`none` when the file cannot be opened. -/
structure CommandFileObservation where
  stCurrLocal : Int
  now : Int
  line : Option String
  deriving DecidableEq, Repr

/-- The path one iteration of the watcher loop takes. -/
inductive TickBranch where
  | watchdog
  | sleepAndRetry
  | openFailed
  | startRec
  | stopRec
  | ignoredLine
  deriving DecidableEq, Repr

/-- Whether a path leaves the `while (true)` loop through `break`. -/
def TickBranch.breaks : TickBranch → Bool
  | TickBranch.watchdog => true
  | TickBranch.stopRec => true
  | _ => false

/-- Locals at loop entry (lines 590-594): `maxWaitTime` is the `int` product
of the keep-alive frequency and `keepaliveFactor = 3`. -/
def CommandProcessing.entry (s : Impl Frame) : CommandProcessing :=
  { stLocal := 0
    pr := none
    maxWaitTime := wrapInt32 (s.keepaliveFrequencyInSeconds * 3) }

/-- Helper lambda `setScreenSessionState` (lines 598-613). -/
def setScreenSessionState (state : Bool) (w : CommandProcessing) (s : Impl Frame) :
    CommandProcessing × Impl Frame :=
  match w.pr with
  | some _ => (w, s)
  | none =>
    let s1 :=
      if state then
        { s with recordingState := ScreenRecordingState.ScreenRecordingStarted }
      else if s.recordingState = ScreenRecordingState.ScreenRecordingNotStarted then
        { s with recordingState := ScreenRecordingState.ScreenRecordingTerminated }
      else s
    ({ w with pr := some state }, s1)

/-- The millisecond count `timeDifference` of `shouldCaptureSessionContinue`:
the duration from the modification time of the file (a `time_t`, in whole
seconds) to now, cast to milliseconds.  `now` is the clock reading in whole
milliseconds. -/
def timeDifference (now stCurrLocal : Int) : Int :=
  now - stCurrLocal * 1000

/-- Helper lambda `shouldCaptureSessionContinue` (lines 616-626). -/
def shouldCaptureSessionContinue (maxWaitTime : Int) (now stCurrLocal : Int) : Bool :=
  if timeDifference now stCurrLocal > wrapInt32 (maxWaitTime * 1000) then false else true

/-- Lines 644-662 of `startCommandProcessing`: open the command file, read
its first line and act on it. -/
def commandRead (o : CommandFileObservation) (w : CommandProcessing) (s : Impl Frame) :
    TickBranch × CommandProcessing × Impl Frame :=
  match o.line with
  | none => (TickBranch.openFailed, w, s)
  | some line =>
    if line = "StartRec" then
      let r := setScreenSessionState true w s
      (TickBranch.startRec, r.1, r.2)
    else if line = "StopRec" then
      (TickBranch.stopRec, w,
        { s with recordingState := ScreenRecordingState.ScreenRecordingAboutToStop })
    else
      (TickBranch.ignoredLine, w, s)

/-- One iteration of the `while (true)` loop of `startCommandProcessing`
(lines 629-663), with the path taken. -/
def commandTick (o : CommandFileObservation) (w : CommandProcessing) (s : Impl Frame) :
    TickBranch × CommandProcessing × Impl Frame :=
  if w.maxWaitTime > 0 ∧ ¬ shouldCaptureSessionContinue w.maxWaitTime o.now o.stCurrLocal then
    (TickBranch.watchdog, w,
      { s with recordingState := ScreenRecordingState.ScreenRecordingTerminated })
  else if o.stCurrLocal ≠ 0 ∧ w.stLocal = 0 then
    commandRead o { w with stLocal := o.stCurrLocal } s
  else if o.stCurrLocal = w.stLocal then
    (TickBranch.sleepAndRetry, w, s)
  else
    commandRead o w s

/-- The `while (true)` loop over the successive observations. `none` means the
loop is still running when the observations are used up. -/
def commandLoop : List CommandFileObservation → CommandProcessing → Impl Frame →
    Option (CommandProcessing × Impl Frame)
  | [], _, _ => none
  | o :: os, w, s =>
    let r := commandTick o w s
    if r.1.breaks then some r.2 else commandLoop os r.2.1 r.2.2

/-- The paths taken by the successive iterations of the loop, up to and
including the one that breaks. -/
def commandBranches : List CommandFileObservation → CommandProcessing → Impl Frame →
    List TickBranch
  | [], _, _ => []
  | o :: os, w, s =>
    let r := commandTick o w s
    if r.1.breaks then [r.1] else r.1 :: commandBranches os r.2.1 r.2.2

/-- Member `startCommandProcessing`: the loop followed by the closing
`setScreenSessionState(false)` (line 665). -/
def startCommandProcessing (obs : List CommandFileObservation) (s : Impl Frame) :
    Option (CommandProcessing × Impl Frame) :=
  (commandLoop obs (CommandProcessing.entry s) s).map
    (fun r => setScreenSessionState false r.1 r.2)

/-- What `start()` does once `fut.get()` has delivered `recordingSet`
(lines 678-694): `returned` is the return value, `launched` tells whether the
consumer and producer threads are created.  `setupOk` is the result of
`setupFFSessionInfo()`, consulted only on the start path. -/
structure StartOutcome where
  returned : Bool
  launched : Bool
  deriving DecidableEq, Repr

/-- Tail of member `start()` after the future is read. -/
def start (recordingSet : Bool) (setupOk : Bool) : StartOutcome :=
  if recordingSet then
    if !setupOk then { returned := false, launched := false }
    else { returned := recordingSet, launched := true }
  else
    { returned := recordingSet, launched := false }

end Impl

/-! ## Configuration: parseConfigFile and init (src/ScreenCaptureImpl.cpp, lines 126-245, 503-514) -/

/-- A JSON value as the `rapidjson::Document` presents it after `Parse`. -/
inductive JsonValue where
  | null
  | bool (b : Bool)
  | number (n : Int)
  | string (s : String)
  | array (elems : List JsonValue)
  | object (members : List (String × JsonValue))

namespace JsonValue

/-- Query `HasMember(name)`.  The library asserts that the value is an object:
`none` stands for the failed assertion. -/
def HasMember (name : String) : JsonValue → Option Bool
  | object members => some (members.any (fun m => m.1 == name))
  | _ => none

/-- Lookup `operator[](name)`, the first member of that name.  The library
asserts that the value is an object and that the member exists: `none` stands
for the failed assertion. -/
def member (name : String) : JsonValue → Option JsonValue
  | object members => (members.find? (fun m => m.1 == name)).map (fun m => m.2)
  | _ => none

/-- Accessor `GetString()`.  The library asserts that the value is a string:
`none` stands for the failed assertion. -/
def GetString : JsonValue → Option String
  | string s => some s
  | _ => none

/-- Chained lookup `doc[k1][k2]...`. -/
def memberAt : List String → JsonValue → Option JsonValue
  | [], v => some v
  | k :: ks, v => (v.member k).bind (memberAt ks)

/-- The query `doc[k1][k2]... .HasMember(name)`. -/
def hasMemberAt (path : List String) (name : String) (v : JsonValue) : Option Bool :=
  (v.memberAt path).bind (HasMember name)

/-- The expression `doc[k1][k2]... .GetString()`. -/
def stringAt (path : List String) (v : JsonValue) : Option String :=
  (v.memberAt path).bind GetString

end JsonValue

/-- Short-circuit conjunction `a && b` of two queries that may fail: `b` is
evaluated only when `a` yields true. -/
def andThen (a b : Option Bool) : Option Bool :=
  match a with
  | some true => b
  | some false => some false
  | none => none

/-- A chain `a1 && a2 && ...` of such queries. -/
def andAll : List (Option Bool) → Option Bool
  | [] => some true
  | a :: rest => andThen a (andAll rest)

/-- What `parseConfigFile` finds when it reads the configuration file: the
file cannot be opened, or its text has been handed to `doc.Parse` and `doc` is
the resulting document. -/
inductive ConfigFileRead where
  | cannotOpen
  | parsed (doc : JsonValue)

namespace Impl

variable {Frame : Type}

/-- The validation section of `parseConfigFile` (lines 147-194): `some true`
when control reaches the parsing section, `some false` when the function
returns false, `none` when a library assertion fails. -/
def validateConfig (doc : JsonValue) : Option Bool :=
  match doc.HasMember "ScreenRecord" with
  | none => none
  | some false => some false
  | some true =>
    match andAll
      [ doc.hasMemberAt ["ScreenRecord"] "ScreenDimensions",
        doc.hasMemberAt ["ScreenRecord"] "Resolution",
        doc.hasMemberAt ["ScreenRecord"] "fps",
        doc.hasMemberAt ["ScreenRecord"] "outputBitrateInMB",
        doc.hasMemberAt ["ScreenRecord"] "Recording" ] with
    | none => none
    | some false => some false
    | some true =>
      match andAll
        [ doc.hasMemberAt ["ScreenRecord", "ScreenDimensions"] "topX1",
          doc.hasMemberAt ["ScreenRecord", "ScreenDimensions"] "topY1",
          doc.hasMemberAt ["ScreenRecord", "ScreenDimensions"] "bottomX2",
          doc.hasMemberAt ["ScreenRecord", "ScreenDimensions"] "bottomY2",
          doc.hasMemberAt ["ScreenRecord", "Resolution"] "resWidth",
          doc.hasMemberAt ["ScreenRecord", "Resolution"] "resHeight" ] with
      | none => none
      | some false => some false
      | some true =>
        andAll
          [ doc.hasMemberAt ["ScreenRecord", "Recording"] "segmentDuration",
            doc.hasMemberAt ["ScreenRecord", "Recording"] "fileName" ]

/-- Lines 222-224: limit the output bitrate to the range 1 - 100, else 0. -/
def limitOutputBitrate (outputBitrateInMB : Int) : Int :=
  if outputBitrateInMB ≤ 0 ∨ outputBitrateInMB > 100 then 0 else outputBitrateInMB

/-- Lines 226-227: keep a crf between 0 and 51, else 23. -/
def validateCrf (crf : Int) : Int :=
  if crf ≤ 51 ∧ crf ≥ 0 then crf else 23

/-- The `bit_rate` that `setupFFSessionInfo` assigns to the codec parameters
(lines 336-339): the `int` product `outputBitrateInMB * 1000 * 1000` when the
stored bitrate is not 0, nothing otherwise. -/
def setupBitRate (outputBitrateInMB : Int) : Option Int :=
  if outputBitrateInMB ≠ 0 then
    some (wrapInt32 (wrapInt32 (outputBitrateInMB * 1000) * 1000))
  else
    none

/-- The parsing section of `parseConfigFile` (lines 198-231).  `atoi` is the C
library function `std::atoi`; `none` when a library assertion fails on one of
the lookups.  The GDI bitmap members are not part of the model. -/
def parseConfigValues (atoi : String → Int) (doc : JsonValue) (s : Impl Frame) :
    Option (Impl Frame) := do
  let topX1 ← doc.stringAt ["ScreenRecord", "ScreenDimensions", "topX1"]
  let topY1 ← doc.stringAt ["ScreenRecord", "ScreenDimensions", "topY1"]
  let bottomX2 ← doc.stringAt ["ScreenRecord", "ScreenDimensions", "bottomX2"]
  let bottomY2 ← doc.stringAt ["ScreenRecord", "ScreenDimensions", "bottomY2"]
  let resWidth ← doc.stringAt ["ScreenRecord", "Resolution", "resWidth"]
  let resHeight ← doc.stringAt ["ScreenRecord", "Resolution", "resHeight"]
  let fps ← doc.stringAt ["ScreenRecord", "fps"]
  let crf ← doc.stringAt ["ScreenRecord", "crf"]
  let outputBitrateInMB ← doc.stringAt ["ScreenRecord", "outputBitrateInMB"]
  let segmentDuration ← doc.stringAt ["ScreenRecord", "Recording", "segmentDuration"]
  let fileName ← doc.stringAt ["ScreenRecord", "Recording", "fileName"]
  pure
    { s with
      screenCaptureParams :=
        { resoutionWidth := atoi resWidth
          resoutionHeight := atoi resHeight
          topLeftX1 := atoi topX1
          topLeftY1 := atoi topY1
          bottomRightX2 := atoi bottomX2
          bottomRightY2 := atoi bottomY2 }
      srcwidth := wrapInt32 (atoi bottomX2 - atoi topX1)
      srcheight := wrapInt32 (atoi bottomY2 - atoi topY1)
      ffScreenSessionInfo :=
        { fps := atoi fps
          crf := validateCrf (atoi crf)
          outputBitrateInMB := limitOutputBitrate (atoi outputBitrateInMB) }
      segmentDuration := atoi segmentDuration
      playListFileName := fileName }

/-- Member `parseConfigFile()`: the controller after the call and the value
returned, or `none` when a library assertion fails. -/
def parseConfigFile (atoi : String → Int) (cfg : ConfigFileRead) (s : Impl Frame) :
    Option (Impl Frame × Bool) :=
  match cfg with
  | ConfigFileRead.cannotOpen => some (s, false)
  | ConfigFileRead.parsed doc =>
    match validateConfig doc with
    | none => none
    | some false => some (s, false)
    | some true => (parseConfigValues atoi doc s).map (fun s1 => (s1, true))

/-- Member `init(outFilePath, commandFile, keepAliveFrequency)`. -/
def init (atoi : String → Int) (cfg : ConfigFileRead) (outFilePath commandFile : String)
    (keepAliveFrequency : Int) (s : Impl Frame) : Option (Impl Frame × Bool) :=
  match parseConfigFile atoi cfg s with
  | none => none
  | some (s1, false) => some (s1, false)
  | some (s1, true) =>
    some ({ s1 with
            commandFileName := commandFile
            outputFilePath := outFilePath
            keepaliveFrequencyInSeconds := keepAliveFrequency }, true)

end Impl

/-- The value of a string of decimal digits, the way `std::atoi` reads it;
used to run the configuration functions on concrete documents. -/
def atoiDigits (str : String) : Int :=
  Int.ofNat (str.data.foldl (fun acc ch => acc * 10 + (ch.toNat - 48)) 0)

/-- A well-formed configuration document, for running the configuration
functions. -/
def sampleConfig : JsonValue :=
  JsonValue.object
    [("ScreenRecord", JsonValue.object
      [("ScreenDimensions", JsonValue.object
          [("topX1", JsonValue.string "0"), ("topY1", JsonValue.string "0"),
           ("bottomX2", JsonValue.string "1920"), ("bottomY2", JsonValue.string "1080")]),
       ("Resolution", JsonValue.object
          [("resWidth", JsonValue.string "1280"), ("resHeight", JsonValue.string "720")]),
       ("fps", JsonValue.string "25"),
       ("crf", JsonValue.string "28"),
       ("outputBitrateInMB", JsonValue.string "8"),
       ("Recording", JsonValue.object
          [("segmentDuration", JsonValue.string "10"),
           ("fileName", JsonValue.string "playlist.m3u8")])])]

/-- The document `sampleConfig` without the member `crf`. -/
def sampleConfigWithoutCrf : JsonValue :=
  JsonValue.object
    [("ScreenRecord", JsonValue.object
      [("ScreenDimensions", JsonValue.object
          [("topX1", JsonValue.string "0"), ("topY1", JsonValue.string "0"),
           ("bottomX2", JsonValue.string "1920"), ("bottomY2", JsonValue.string "1080")]),
       ("Resolution", JsonValue.object
          [("resWidth", JsonValue.string "1280"), ("resHeight", JsonValue.string "720")]),
       ("fps", JsonValue.string "25"),
       ("outputBitrateInMB", JsonValue.string "8"),
       ("Recording", JsonValue.object
          [("segmentDuration", JsonValue.string "10"),
           ("fileName", JsonValue.string "playlist.m3u8")])])]

/-! ## ScreenCapture, the public class (src/ScreenCapture.cpp) -/

/-- The public class holds the implementation object and forwards to it. -/
structure ScreenCapture (Frame : Type) where
  impl : Impl Frame

/-- Member `ScreenCapture::isCaptureSessionRunning()`. -/
def ScreenCapture.isCaptureSessionRunning {Frame : Type} (sc : ScreenCapture Frame) : Bool :=
  sc.impl.isCaptureSessionRunning

/-- Member `ScreenCapture::stop()`. -/
def ScreenCapture.stop {Frame : Type} (sc : ScreenCapture Frame) : ScreenCapture Frame :=
  { sc with impl := sc.impl.stop }

/-! ## Operations that assign the recording state -/

/-- The operations of a session that assign `recordingState`: one iteration of
the watcher loop, the closing `setScreenSessionState(false)` of the watcher,
the public `stop()`, and the last statement of `startScreenRecording`. -/
inductive StateWriter where
  | commandTick (o : Impl.CommandFileObservation)
  | commandExit
  | stop
  | startScreenRecordingFinish
  deriving DecidableEq, Repr

/-- Effect of an operation on the watcher locals and the controller. -/
def StateWriter.apply {Frame : Type} :
    StateWriter → Impl.CommandProcessing → Impl Frame → Impl.CommandProcessing × Impl Frame
  | StateWriter.commandTick o, w, s => (Impl.commandTick o w s).2
  | StateWriter.commandExit, w, s => Impl.setScreenSessionState false w s
  | StateWriter.stop, w, s => (w, s.stop)
  | StateWriter.startScreenRecordingFinish, w, s => (w, s.startScreenRecordingFinish)

/-! ## The frame pipeline as a transition system -/

/-- The controller together with two logs kept for verification: `captured`
lists the frames the producer obtained from `windowAsMatrix()`, `forwarded`
the frames the consumer handed to `addFrame`, both oldest first. -/
structure Pipeline (Frame : Type) where
  impl : Impl Frame
  captured : List Frame
  forwarded : List Frame

/-- The atomic actions of the threads that touch the frame queue or the
recording state while a session runs: a producer tick with its snapshot and
the frame the source would deliver, a consumer tick, and a write of the
recording state by any other operation. -/
inductive PipelineEvent (Frame : Type) where
  | producerTick (state : ScreenRecordingState) (src : Frame)
  | consumerTick
  | stateWrite (st : ScreenRecordingState)

namespace Pipeline

variable {Frame : Type}

/-- A pipeline around a controller, with empty logs. -/
def init (s : Impl Frame) : Pipeline Frame :=
  { impl := s, captured := [], forwarded := [] }

/-- Producer tick on the pipeline: `screenGrabAndEncodeFrame`, logging the
captured frame when the tick captures. -/
def producerTick (state : ScreenRecordingState) (src : Frame) (p : Pipeline Frame) :
    Pipeline Frame × Bool :=
  let r := p.impl.screenGrabAndEncodeFrame state src
  ({ p with impl := r.1, captured := if r.2 then p.captured ++ [src] else p.captured }, r.2)

/-- Consumer tick on the pipeline: `consumerCallback`, logging the frame handed
to `addFrame`. -/
def consumerTick (p : Pipeline Frame) : Pipeline Frame × Bool :=
  let r := p.impl.consumerCallback
  ({ p with impl := r.1, forwarded := p.forwarded ++ r.2.1.toList }, r.2.2)

/-- Effect of one event. -/
def step (p : Pipeline Frame) : PipelineEvent Frame → Pipeline Frame
  | PipelineEvent.producerTick state src => (p.producerTick state src).1
  | PipelineEvent.consumerTick => p.consumerTick.1
  | PipelineEvent.stateWrite st => { p with impl := { p.impl with recordingState := st } }

/-- Effect of a sequence of events, an interleaving of the threads. -/
def run (p : Pipeline Frame) (evs : List (PipelineEvent Frame)) : Pipeline Frame :=
  evs.foldl step p

/-- The queue invariant: what was forwarded followed by what is queued is what
was captured. -/
def Fifo (p : Pipeline Frame) : Prop :=
  p.forwarded ++ p.impl.screenDataList = p.captured

/-- The frames offered by the producer ticks of an event sequence, in order. -/
def offeredFrames : List (PipelineEvent Frame) → List Frame
  | [] => []
  | PipelineEvent.producerTick _ src :: evs => src :: offeredFrames evs
  | _ :: evs => offeredFrames evs

end Pipeline

/-! ## The threads of a session as a transition system

The Win32 calls of `TimedMediaGrabber::start` are taken to succeed, and a wait
on a grabber's event returns exactly when `callbackRoutine` has signalled it. -/

/-- Control point of the producer thread in `startScreenRecording`: thread not
created; created, line 543 not yet run; inside the primary scheduler run with
the snapshot of line 543; primary wait returned, line 574 not yet run; inside
the extra scheduler run with the snapshot of line 574; extra wait returned,
line 586 not yet run; returned. -/
inductive ProducerPhase where
  | notLaunched
  | entry
  | primary (state : ScreenRecordingState)
  | primaryDone
  | extra (state : ScreenRecordingState)
  | extraDone
  | finished
  deriving DecidableEq, Repr

/-- Control point of the consumer thread in
`produceSegmentedVideosFromScreenCapture`. -/
inductive ConsumerPhase where
  | notLaunched
  | running
  | finished
  deriving DecidableEq, Repr

/-- Control point of the watcher thread in `startCommandProcessing`: inside the
loop; left the loop, line 665 not yet run; returned. -/
inductive WatcherPhase where
  | looping
  | exiting
  | returned
  deriving DecidableEq, Repr

/-- Control point of the thread that called `start()`: blocked in `fut.get()`;
blocked in the two `join` calls; returned with a value. -/
inductive MainPhase where
  | waiting
  | joining
  | returned (value : Bool)
  deriving DecidableEq, Repr

namespace Impl

variable {Frame : Type}

/-- The grabber of the primary producer run (lines 558-563): default duration
and grab factor, started with the default callback type. -/
def primaryGrabber (s : Impl Frame) : TimedMediaGrabber :=
  ((TimedMediaGrabber.new s.ffScreenSessionInfo.fps 0 1).start true true true).1

/-- The grabber of the extra producer run (lines 575-580), bounded by
`kExtraCaptureDuration`. -/
def extraGrabber (s : Impl Frame) : TimedMediaGrabber :=
  ((TimedMediaGrabber.new s.ffScreenSessionInfo.fps kExtraCaptureDuration 1).start
    true true true).1

/-- The grabber of the consumer (lines 517-533): started with the default
callback type, then switched to the sleep-based type. -/
def consumerGrabber (s : Impl Frame) : TimedMediaGrabber :=
  (((TimedMediaGrabber.new s.ffScreenSessionInfo.fps 0 1).start true true true).1).setMediaCallbackType
    MediaCallbackType.SYSTEM_SLEEP

/-- One step of the producer thread through `startScreenRecording`
(lines 542-587).  Inside a scheduler run the step is one invocation of
`callbackRoutine`; `src` is the frame the source would deliver and
`timeDifference` the steady-clock milliseconds since the run started. -/
def startScreenRecordingStep (src : Frame) (timeDifference : Int) (ph : ProducerPhase)
    (p : Pipeline Frame) : ProducerPhase × Pipeline Frame :=
  match ph with
  | ProducerPhase.notLaunched => (ph, p)
  | ProducerPhase.entry => (ProducerPhase.primary p.impl.recordingState, p)
  | ProducerPhase.primary state =>
    let r := TimedMediaGrabber.callbackRoutine (Pipeline.producerTick state src) timeDifference
      (primaryGrabber p.impl) p
    (if r.1.doneEvent then ProducerPhase.primaryDone else ProducerPhase.primary state, r.2)
  | ProducerPhase.primaryDone => (ProducerPhase.extra p.impl.recordingState, p)
  | ProducerPhase.extra state =>
    let r := TimedMediaGrabber.callbackRoutine (Pipeline.producerTick state src) timeDifference
      (extraGrabber p.impl) p
    (if r.1.doneEvent then ProducerPhase.extraDone else ProducerPhase.extra state, r.2)
  | ProducerPhase.extraDone =>
    (ProducerPhase.finished, { p with impl := p.impl.startScreenRecordingFinish })
  | ProducerPhase.finished => (ph, p)

/-- Member `startScreenRecording` run against a schedule.  Each item of the
schedule belongs to one step of the producer thread: a write of the recording
state by another thread that lands before the step, if any, the frame the
source would deliver, and the steady-clock reading.  The result is the
pipeline at return, or `none` when the schedule ends before the routine
returns. -/
def startScreenRecording :
    List (Option ScreenRecordingState × Frame × Int) → ProducerPhase → Pipeline Frame →
      Option (Pipeline Frame)
  | [], ph, p => if ph = ProducerPhase.finished then some p else none
  | item :: rest, ph, p =>
    if ph = ProducerPhase.finished then some p
    else
      let p1 : Pipeline Frame :=
        match item.1 with
        | some st => { p with impl := { p.impl with recordingState := st } }
        | none => p
      let r := startScreenRecordingStep item.2.1 item.2.2 ph p1
      startScreenRecording rest r.1 r.2

/-- One step of the consumer thread through
`produceSegmentedVideosFromScreenCapture` (lines 516-540): one invocation of
`callbackRoutine` with the consumer callback. -/
def produceSegmentedVideosStep (timeDifference : Int) (ph : ConsumerPhase)
    (p : Pipeline Frame) : ConsumerPhase × Pipeline Frame :=
  match ph with
  | ConsumerPhase.running =>
    let r := TimedMediaGrabber.callbackRoutine Pipeline.consumerTick timeDifference
      (consumerGrabber p.impl) p
    (if r.1.doneEvent then ConsumerPhase.finished else ConsumerPhase.running, r.2)
  | _ => (ph, p)

end Impl

/-- The state of one session: the controller with the frame logs, the locals of
the watcher, and the control points of the four threads. -/
structure Session (Frame : Type) where
  pipeline : Pipeline Frame
  locals : Impl.CommandProcessing
  watcher : WatcherPhase
  main : MainPhase
  producer : ProducerPhase
  consumer : ConsumerPhase

/-- The atomic actions of a session: a step of the watcher with what it
observes, a call of the public `stop()`, a step of the thread inside
`start()` with the outcome `setupFFSessionInfo()` would have, a step of the
producer, a step of the consumer. -/
inductive SessionEvent (Frame : Type) where
  | watcherStep (o : Impl.CommandFileObservation)
  | stop
  | mainStep (setupOk : Bool)
  | producerStep (src : Frame) (timeDifference : Int)
  | consumerStep (timeDifference : Int)

namespace Session

variable {Frame : Type}

/-- The session right after `start()` has created the watcher thread. -/
def init (s : Impl Frame) : Session Frame :=
  { pipeline := Pipeline.init s
    locals := Impl.CommandProcessing.entry s
    watcher := WatcherPhase.looping
    main := MainPhase.waiting
    producer := ProducerPhase.notLaunched
    consumer := ConsumerPhase.notLaunched }

/-- A step of the watcher thread: an iteration of the loop, or the closing
`setScreenSessionState(false)`. -/
def watcherStep (o : Impl.CommandFileObservation) (c : Session Frame) : Session Frame :=
  match c.watcher with
  | WatcherPhase.looping =>
    let r := Impl.commandTick o c.locals c.pipeline.impl
    { c with
      pipeline := { c.pipeline with impl := r.2.2 }
      locals := r.2.1
      watcher := if r.1.breaks then WatcherPhase.exiting else WatcherPhase.looping }
  | WatcherPhase.exiting =>
    let r := Impl.setScreenSessionState false c.locals c.pipeline.impl
    { c with
      pipeline := { c.pipeline with impl := r.2 }
      locals := r.1
      watcher := WatcherPhase.returned }
  | WatcherPhase.returned => c

/-- A step of the thread inside `start()` (lines 678-694): `fut.get()`
delivers the promise value once there is one, the threads are created when
`Impl.start` says so, and the joins return when both threads have returned. -/
def mainStep (setupOk : Bool) (c : Session Frame) : Session Frame :=
  match c.main with
  | MainPhase.waiting =>
    match c.locals.pr with
    | none => c
    | some recordingSet =>
      if (Impl.start recordingSet setupOk).launched then
        { c with
          main := MainPhase.joining
          producer := ProducerPhase.entry
          consumer := ConsumerPhase.running }
      else
        { c with main := MainPhase.returned (Impl.start recordingSet setupOk).returned }
  | MainPhase.joining =>
    if c.producer = ProducerPhase.finished ∧ c.consumer = ConsumerPhase.finished then
      { c with main := MainPhase.returned (Impl.start true true).returned }
    else c
  | MainPhase.returned _ => c

/-- Effect of one event. -/
def step (c : Session Frame) : SessionEvent Frame → Session Frame
  | SessionEvent.watcherStep o => c.watcherStep o
  | SessionEvent.stop => { c with pipeline := { c.pipeline with impl := c.pipeline.impl.stop } }
  | SessionEvent.mainStep setupOk => c.mainStep setupOk
  | SessionEvent.producerStep src timeDifference =>
    let r := Impl.startScreenRecordingStep src timeDifference c.producer c.pipeline
    { c with producer := r.1, pipeline := r.2 }
  | SessionEvent.consumerStep timeDifference =>
    let r := Impl.produceSegmentedVideosStep timeDifference c.consumer c.pipeline
    { c with consumer := r.1, pipeline := r.2 }

/-- Effect of a sequence of events, an interleaving of the threads. -/
def run (c : Session Frame) (evs : List (SessionEvent Frame)) : Session Frame :=
  evs.foldl step c

/-- The invariant of a session in which the watchdog does not fire, for the
value `maxWaitTime` of the watcher: the queue holds the captured frames not
yet forwarded; the watcher has left its loop only with the state no longer
not-started; the state is terminated only when the producer has returned; the
consumer has returned only when the producer has returned and the queue is
empty; no thread is created while `start()` waits for the decision; and
`start()` has returned true only when the consumer has returned. -/
def Safe (maxWaitTime : Int) (c : Session Frame) : Prop :=
  c.pipeline.Fifo ∧
  c.locals.maxWaitTime = maxWaitTime ∧
  (c.watcher ≠ WatcherPhase.looping →
    c.pipeline.impl.recordingState ≠ ScreenRecordingState.ScreenRecordingNotStarted) ∧
  (c.pipeline.impl.recordingState = ScreenRecordingState.ScreenRecordingTerminated →
    c.producer = ProducerPhase.finished) ∧
  (c.consumer = ConsumerPhase.finished →
    c.producer = ProducerPhase.finished ∧ c.pipeline.impl.screenDataList = []) ∧
  (c.main = MainPhase.waiting →
    c.producer = ProducerPhase.notLaunched ∧ c.consumer = ConsumerPhase.notLaunched) ∧
  (c.main = MainPhase.returned true → c.consumer = ConsumerPhase.finished)

/-- An event on which the watchdog test of line 632 does not succeed, for the
given `maxWaitTime`. -/
def NoWatchdog (maxWaitTime : Int) : SessionEvent Frame → Prop
  | SessionEvent.watcherStep o =>
    ¬ (maxWaitTime > 0 ∧
        Impl.shouldCaptureSessionContinue maxWaitTime o.now o.stCurrLocal = false)
  | _ => True

end Session

end CapUtils

namespace CapUtils

/-- Claim C1. The constructor of `TimedMediaGrabber` computes
`factoredFps = grabFactor * fps` (in `int` arithmetic, which is the exact
product whenever that product fits in 32 bits) and sets the period returned by
`getFrequency` to `1000 / factoredFps` (integer division) when
`0 < factoredFps ≤ 1000` and to 33 (the period of the 30 fps default)
otherwise; with `fps = 0` the period is 33 ms for every multiplier and
duration. -/
theorem TimedMediaGrabber.period_of_constructor (fps timeDuration grabFactor : Int) :
    (INT_MIN ≤ grabFactor * fps ∧ grabFactor * fps ≤ INT_MAX →
        wrapInt32 (grabFactor * fps) = grabFactor * fps) ∧
    (0 < wrapInt32 (grabFactor * fps) ∧ wrapInt32 (grabFactor * fps) ≤ 1000 →
        (TimedMediaGrabber.new fps timeDuration grabFactor).getFrequency
          = 1000 / wrapInt32 (grabFactor * fps)) ∧
    (¬ (0 < wrapInt32 (grabFactor * fps) ∧ wrapInt32 (grabFactor * fps) ≤ 1000) →
        (TimedMediaGrabber.new fps timeDuration grabFactor).getFrequency = 33) ∧
    (TimedMediaGrabber.new 0 timeDuration grabFactor).getFrequency = 33 := by
  refine ⟨?_, ?_, ?_, ?_⟩
  · rintro ⟨h1, h2⟩
    unfold wrapInt32
    unfold INT_MIN at h1
    unfold INT_MAX at h2
    omega
  · intro h
    have hpos : (0 : Int) ≤ wrapInt32 (grabFactor * fps) := le_of_lt h.1
    simp only [TimedMediaGrabber.getFrequency, TimedMediaGrabber.new,
      TimedMediaGrabber.factoredFps, gt_iff_lt, h, and_self, if_true]
    exact Int.tdiv_eq_ediv (by norm_num) hpos
  · intro h
    simp only [TimedMediaGrabber.getFrequency, TimedMediaGrabber.new,
      TimedMediaGrabber.factoredFps, gt_iff_lt, h, if_false]
    decide
  · simp only [TimedMediaGrabber.getFrequency, TimedMediaGrabber.new,
      TimedMediaGrabber.factoredFps, mul_zero]
    decide

/-- Instance of the constructor's period computation: 25 fps doubled by the
multiplier gives 1000 / 50 = 20 ms, and 2000 fps falls back to 33 ms. -/
theorem TimedMediaGrabber.period_of_constructor_witness :
    (TimedMediaGrabber.new 25 0 2).getFrequency = 1000 / wrapInt32 (2 * 25) ∧
    (TimedMediaGrabber.new 2000 0 1).getFrequency = 33 :=
  ⟨(TimedMediaGrabber.period_of_constructor 25 0 2).2.1 (by decide),
   (TimedMediaGrabber.period_of_constructor 2000 0 1).2.2.1 (by decide)⟩

/-! ## Helper lemmas on the scheduler -/

/-- An invocation of `callbackRoutine` leaves the client state as the client
callback left it. -/
theorem TimedMediaGrabber.callbackRoutine_snd {σ : Type} (timerCallback : σ → σ × Bool)
    (timeDifference : Int) (g : TimedMediaGrabber) (s : σ) :
    (TimedMediaGrabber.callbackRoutine timerCallback timeDifference g s).2
      = (timerCallback s).1 := by
  simp only [TimedMediaGrabber.callbackRoutine]
  by_cases h1 : (!(timerCallback s).2) = true
  · rw [if_pos h1]
  · rw [if_neg h1]
    by_cases h2 : g.mediaCaptureDurationInSeconds > 0
    · rw [if_pos h2]
      by_cases h3 : timeDifference ≥ wrapInt32 (g.mediaCaptureDurationInSeconds * 1000)
      · rw [if_pos h3]
      · rw [if_neg h3]
    · rw [if_neg h2]

/-! ## Helper lemmas on the command watcher -/

namespace Impl

variable {Frame : Type}

theorem setScreenSessionState_of_resolved (state v : Bool) (w : CommandProcessing)
    (s : Impl Frame) (h : w.pr = some v) : setScreenSessionState state w s = (w, s) := by
  simp [setScreenSessionState, h]

theorem setScreenSessionState_pr_of_unresolved (state : Bool) (w : CommandProcessing)
    (s : Impl Frame) (h : w.pr = none) : (setScreenSessionState state w s).1.pr = some state := by
  simp [setScreenSessionState, h]

theorem setScreenSessionState_true_of_unresolved (w : CommandProcessing) (s : Impl Frame)
    (h : w.pr = none) :
    (setScreenSessionState true w s).2.recordingState
      = ScreenRecordingState.ScreenRecordingStarted := by
  simp [setScreenSessionState, h]

theorem setScreenSessionState_false_state (w : CommandProcessing) (s : Impl Frame) :
    (setScreenSessionState false w s).2.recordingState
      = if w.pr = none ∧ s.recordingState = ScreenRecordingState.ScreenRecordingNotStarted
        then ScreenRecordingState.ScreenRecordingTerminated else s.recordingState := by
  unfold setScreenSessionState
  cases hpr : w.pr with
  | some v => simp
  | none =>
    by_cases hs : s.recordingState = ScreenRecordingState.ScreenRecordingNotStarted
    · simp [hs]
    · simp [hs]

/-- The path and the effect of the reading part of a watcher iteration. -/
theorem commandRead_cases (o : CommandFileObservation) (w : CommandProcessing)
    (s : Impl Frame) :
    (o.line = none ∧ commandRead o w s = (TickBranch.openFailed, w, s)) ∨
    (o.line = some "StartRec" ∧
      commandRead o w s = (TickBranch.startRec, setScreenSessionState true w s)) ∨
    (o.line = some "StopRec" ∧
      commandRead o w s = (TickBranch.stopRec, w,
        { s with recordingState := ScreenRecordingState.ScreenRecordingAboutToStop })) ∨
    ((∃ line, o.line = some line ∧ line ≠ "StartRec" ∧ line ≠ "StopRec") ∧
      commandRead o w s = (TickBranch.ignoredLine, w, s)) := by
  unfold commandRead
  cases hl : o.line with
  | none => simp
  | some line =>
    by_cases h1 : line = "StartRec"
    · subst h1
      simp
    · by_cases h2 : line = "StopRec"
      · subst h2
        simp
      · simp [h1, h2]

/-- The recording state after the reading part, by path. -/
theorem commandRead_recordingState (o : CommandFileObservation) (w : CommandProcessing)
    (s : Impl Frame) :
    (commandRead o w s).2.2.recordingState =
      match (commandRead o w s).1 with
      | TickBranch.watchdog => ScreenRecordingState.ScreenRecordingTerminated
      | TickBranch.stopRec => ScreenRecordingState.ScreenRecordingAboutToStop
      | TickBranch.startRec =>
        if w.pr = none then ScreenRecordingState.ScreenRecordingStarted else s.recordingState
      | _ => s.recordingState := by
  rcases commandRead_cases o w s with h | h | h | h
  · rw [h.2]
  · rw [h.2]
    cases hpr : w.pr with
    | none => simp [setScreenSessionState, hpr]
    | some v => simp [setScreenSessionState, hpr]
  · rw [h.2]
  · rw [h.2]

/-- The promise after the reading part, by path. -/
theorem commandRead_pr (o : CommandFileObservation) (w : CommandProcessing)
    (s : Impl Frame) :
    (commandRead o w s).2.1.pr =
      if (commandRead o w s).1 = TickBranch.startRec then some (w.pr.getD true) else w.pr := by
  rcases commandRead_cases o w s with h | h | h | h
  · rw [h.2]; simp
  · rw [h.2]
    cases hpr : w.pr with
    | none => simp [setScreenSessionState, hpr]
    | some v => simp [setScreenSessionState, hpr]
  · rw [h.2]; simp
  · rw [h.2]; simp

/-- The reading part never takes the watchdog or the sleep path. -/
theorem commandRead_branch (o : CommandFileObservation) (w : CommandProcessing)
    (s : Impl Frame) :
    (commandRead o w s).1 ≠ TickBranch.watchdog ∧
    (commandRead o w s).1 ≠ TickBranch.sleepAndRetry := by
  rcases commandRead_cases o w s with h | h | h | h <;> rw [h.2] <;> simp

/-- A watcher iteration takes the watchdog path exactly when the watchdog test
of line 632 succeeds. -/
theorem commandTick_watchdog_iff (o : CommandFileObservation) (w : CommandProcessing)
    (s : Impl Frame) :
    (commandTick o w s).1 = TickBranch.watchdog ↔
      (w.maxWaitTime > 0 ∧ shouldCaptureSessionContinue w.maxWaitTime o.now o.stCurrLocal = false) := by
  unfold commandTick
  by_cases hw : w.maxWaitTime > 0 ∧
      ¬ shouldCaptureSessionContinue w.maxWaitTime o.now o.stCurrLocal = true
  · rw [if_pos hw]
    simpa using hw
  · rw [if_neg hw]
    have hw2 : ¬ (w.maxWaitTime > 0 ∧
        shouldCaptureSessionContinue w.maxWaitTime o.now o.stCurrLocal = false) := by
      simpa using hw
    constructor
    · intro h
      exfalso
      split at h
      · exact (commandRead_branch o _ s).1 h
      · split at h
        · simp at h
        · exact (commandRead_branch o _ s).1 h
    · intro h
      exact absurd h hw2

/-- The recording state after a watcher iteration, by path. -/
theorem commandTick_recordingState (o : CommandFileObservation) (w : CommandProcessing)
    (s : Impl Frame) :
    (commandTick o w s).2.2.recordingState =
      match (commandTick o w s).1 with
      | TickBranch.watchdog => ScreenRecordingState.ScreenRecordingTerminated
      | TickBranch.stopRec => ScreenRecordingState.ScreenRecordingAboutToStop
      | TickBranch.startRec =>
        if w.pr = none then ScreenRecordingState.ScreenRecordingStarted else s.recordingState
      | _ => s.recordingState := by
  unfold commandTick
  split
  · rfl
  · split
    · exact commandRead_recordingState o _ s
    · split
      · rfl
      · exact commandRead_recordingState o w s

/-- The promise after a watcher iteration, by path. -/
theorem commandTick_pr (o : CommandFileObservation) (w : CommandProcessing)
    (s : Impl Frame) :
    (commandTick o w s).2.1.pr =
      if (commandTick o w s).1 = TickBranch.startRec then some (w.pr.getD true) else w.pr := by
  unfold commandTick
  split
  · simp
  · split
    · exact commandRead_pr o _ s
    · split
      · simp
      · exact commandRead_pr o w s

/-- Setting the session state never changes `maxWaitTime`. -/
theorem setScreenSessionState_maxWaitTime (state : Bool) (w : CommandProcessing)
    (s : Impl Frame) : (setScreenSessionState state w s).1.maxWaitTime = w.maxWaitTime := by
  unfold setScreenSessionState
  cases w.pr <;> rfl

/-- The reading part never changes `maxWaitTime`. -/
theorem commandRead_maxWaitTime (o : CommandFileObservation) (w : CommandProcessing)
    (s : Impl Frame) : (commandRead o w s).2.1.maxWaitTime = w.maxWaitTime := by
  rcases commandRead_cases o w s with h | h | h | h
  · rw [h.2]
  · rw [h.2]
    exact setScreenSessionState_maxWaitTime true w s
  · rw [h.2]
  · rw [h.2]

/-- A watcher iteration never changes `maxWaitTime`. -/
theorem commandTick_maxWaitTime (o : CommandFileObservation) (w : CommandProcessing)
    (s : Impl Frame) : (commandTick o w s).2.1.maxWaitTime = w.maxWaitTime := by
  unfold commandTick
  split
  · rfl
  · split
    · exact commandRead_maxWaitTime o _ s
    · split
      · rfl
      · exact commandRead_maxWaitTime o w s

/-- The three shapes of a watcher iteration: watchdog, sleep, or the reading
part run on locals that differ from the given ones at most in `stLocal`. -/
theorem commandTick_cases (o : CommandFileObservation) (w : CommandProcessing)
    (s : Impl Frame) :
    commandTick o w s = (TickBranch.watchdog, w,
        { s with recordingState := ScreenRecordingState.ScreenRecordingTerminated }) ∨
    commandTick o w s = (TickBranch.sleepAndRetry, w, s) ∨
    ∃ w2 : CommandProcessing, w2.pr = w.pr ∧ w2.maxWaitTime = w.maxWaitTime ∧
      commandTick o w s = commandRead o w2 s := by
  unfold commandTick
  split
  · exact Or.inl rfl
  · split
    · exact Or.inr (Or.inr ⟨{ w with stLocal := o.stCurrLocal }, rfl, rfl, rfl⟩)
    · split
      · exact Or.inr (Or.inl rfl)
      · exact Or.inr (Or.inr ⟨w, rfl, rfl, rfl⟩)

/-- An iteration that reads StartRec when the decision is resolved leaves the
controller and the promise as they were. -/
theorem commandTick_startRec_resolved (o : CommandFileObservation) (w : CommandProcessing)
    (s : Impl Frame) (v : Bool) (hpr : w.pr = some v)
    (hb : (commandTick o w s).1 = TickBranch.startRec) :
    (commandTick o w s).2.2 = s ∧ (commandTick o w s).2.1.pr = w.pr := by
  rcases commandTick_cases o w s with h | h | ⟨w2, hw2, _, h⟩
  · rw [h] at hb
    simp at hb
  · rw [h] at hb
    simp at hb
  · rw [h] at hb ⊢
    rcases commandRead_cases o w2 s with c | c | c | c
    · rw [c.2] at hb
      simp at hb
    · rw [c.2, setScreenSessionState_of_resolved true v w2 s (hw2.trans hpr)]
      exact ⟨rfl, hw2⟩
    · rw [c.2] at hb
      simp at hb
    · rw [c.2] at hb
      simp at hb

/-- Once the promise holds a value, no iteration changes it. -/
theorem commandTick_pr_stable (o : CommandFileObservation) (w : CommandProcessing)
    (s : Impl Frame) (v : Bool) (hpr : w.pr = some v) :
    (commandTick o w s).2.1.pr = some v := by
  rw [commandTick_pr, hpr]
  split <;> rfl

/-- Once the promise holds a value, it holds the same value when the loop
ends. -/
theorem commandLoop_pr_stable (obs : List CommandFileObservation) (w : CommandProcessing)
    (s : Impl Frame) (v : Bool) (hpr : w.pr = some v) (r : CommandProcessing × Impl Frame)
    (hr : commandLoop obs w s = some r) : r.1.pr = some v := by
  induction obs generalizing w s with
  | nil => simp [commandLoop] at hr
  | cons o os ih =>
    have hstep := commandTick_pr_stable o w s v hpr
    simp only [commandLoop] at hr
    split at hr
    · cases hr
      exact hstep
    · exact ih _ _ hstep hr

/-- With `maxWaitTime = 0` the loop ends only on an iteration that reads
StopRec, in state about-to-stop. -/
theorem commandLoop_of_disabled (obs : List CommandFileObservation) (w : CommandProcessing)
    (s : Impl Frame) (hw : w.maxWaitTime = 0) (r : CommandProcessing × Impl Frame)
    (hr : commandLoop obs w s = some r) :
    r.2.recordingState = ScreenRecordingState.ScreenRecordingAboutToStop := by
  induction obs generalizing w s with
  | nil => simp [commandLoop] at hr
  | cons o os ih =>
    simp only [commandLoop] at hr
    split at hr
    · rename_i hbr
      cases hr
      have hnw : (commandTick o w s).1 ≠ TickBranch.watchdog := by
        intro h
        have := ((commandTick_watchdog_iff o w s).1 h).1
        omega
      rw [commandTick_recordingState]
      cases hb : (commandTick o w s).1 with
      | watchdog => exact absurd hb hnw
      | stopRec => rfl
      | sleepAndRetry => rw [hb] at hbr; simp [TickBranch.breaks] at hbr
      | openFailed => rw [hb] at hbr; simp [TickBranch.breaks] at hbr
      | startRec => rw [hb] at hbr; simp [TickBranch.breaks] at hbr
      | ignoredLine => rw [hb] at hbr; simp [TickBranch.breaks] at hbr
    · exact ih _ _ ((commandTick_maxWaitTime o w s).trans hw) hr

/-- With `maxWaitTime = 0` no iteration of a run takes the watchdog path. -/
theorem commandBranches_of_disabled (obs : List CommandFileObservation)
    (w : CommandProcessing) (s : Impl Frame) (hw : w.maxWaitTime = 0) :
    TickBranch.watchdog ∉ commandBranches obs w s := by
  induction obs generalizing w s with
  | nil => simp [commandBranches]
  | cons o os ih =>
    have hnw : (commandTick o w s).1 ≠ TickBranch.watchdog := by
      intro h
      have := ((commandTick_watchdog_iff o w s).1 h).1
      omega
    simp only [commandBranches]
    split
    · simpa using hnw.symm
    · simp only [List.mem_cons, not_or]
      exact ⟨hnw.symm, ih _ _ ((commandTick_maxWaitTime o w s).trans hw)⟩

end Impl

/-- Claim C2 (evaluation of the code). A watcher run that starts from a freshly
constructed controller (state not started, keep-alive 0) and whose first
iteration reads the line StopRec returns with the one-shot decision resolved to
false, so that `start()` returns false without launching the loops, but with
the recording state about-to-stop, not terminated: the StopRec branch writes
about-to-stop before the closing `setScreenSessionState(false)` tests for
not-started. -/
theorem Impl.stopRec_before_startRec_ends_about_to_stop :
    (Impl.startCommandProcessing
        [{ stCurrLocal := 1700000000, now := 1700000000250, line := some "StopRec" }]
        (Impl.new "config.json" : Impl Nat)).map
      (fun r => (r.1.pr, r.2.recordingState, Impl.isCaptureSessionRunning r.2,
        Impl.start (r.1.pr.getD true) true))
      = some (some false, ScreenRecordingState.ScreenRecordingAboutToStop, true,
          { returned := false, launched := false }) := by
  decide

/-- Claim C3 (as stated, refuted). Terminated is not preserved by every
operation that assigns the recording state: from a terminated controller the
public `stop()` yields about-to-stop, and so does a watcher iteration that
reads the line StopRec. -/
theorem StateWriter.terminated_not_absorbing :
    ¬ ∀ (op : StateWriter) (w : Impl.CommandProcessing) (s : Impl Nat),
        s.recordingState = ScreenRecordingState.ScreenRecordingTerminated →
        (op.apply w s).2.recordingState = ScreenRecordingState.ScreenRecordingTerminated := by
  intro h
  have h1 := h StateWriter.stop
    (Impl.CommandProcessing.entry (Impl.new "config.json" : Impl Nat))
    (Impl.new "config.json" : Impl Nat).startScreenRecordingFinish rfl
  revert h1
  decide

/-- Claim C3 (amended). If the recording state is terminated before, it is
terminated after: a watcher iteration that fires the watchdog, sleeps, cannot
open the file, reads an unrecognised line, or reads StartRec when the one-shot
decision is already resolved; the closing `setScreenSessionState(false)`; and
the final write of the producer routine.  The operations left out are the
public `stop()`, an iteration that reads StopRec, and an iteration that reads
StartRec while the decision is unresolved. -/
theorem StateWriter.terminated_preserved {Frame : Type} (op : StateWriter)
    (w : Impl.CommandProcessing) (s : Impl Frame)
    (h : s.recordingState = ScreenRecordingState.ScreenRecordingTerminated)
    (hstop : op ≠ StateWriter.stop)
    (htick : ∀ o, op = StateWriter.commandTick o →
      (Impl.commandTick o w s).1 ≠ Impl.TickBranch.stopRec ∧
      ((Impl.commandTick o w s).1 = Impl.TickBranch.startRec → w.pr ≠ none)) :
    (op.apply w s).2.recordingState = ScreenRecordingState.ScreenRecordingTerminated := by
  cases op with
  | commandTick o =>
    obtain ⟨h1, h2⟩ := htick o rfl
    show (Impl.commandTick o w s).2.2.recordingState = _
    rw [Impl.commandTick_recordingState]
    cases hb : (Impl.commandTick o w s).1 with
    | watchdog => rfl
    | sleepAndRetry => exact h
    | openFailed => exact h
    | startRec => simp [h2 hb, h]
    | stopRec => exact absurd hb h1
    | ignoredLine => exact h
  | commandExit =>
    show (Impl.setScreenSessionState false w s).2.recordingState = _
    rw [Impl.setScreenSessionState_false_state]
    simp [h]
  | stop => exact absurd rfl hstop
  | startScreenRecordingFinish => rfl

/-- Instance of the amended claim C3: on a terminated controller whose
decision is resolved to start, an iteration that reads StartRec again leaves
the state terminated. -/
theorem StateWriter.terminated_preserved_witness :
    ((StateWriter.commandTick
        { stCurrLocal := 1700000000, now := 1700000000250, line := some "StartRec" }).apply
      { stLocal := 1600000000, pr := some true, maxWaitTime := 0 }
      (Impl.new "config.json" : Impl Nat).startScreenRecordingFinish).2.recordingState
      = ScreenRecordingState.ScreenRecordingTerminated :=
  StateWriter.terminated_preserved _ _ _ rfl (by decide)
    (by
      intro o ho
      cases ho
      constructor
      · decide
      · intro _
        decide)

/-! ## Helper lemmas on the frame pipeline -/

namespace Pipeline

variable {Frame : Type}

theorem fifo_step (p : Pipeline Frame) (e : PipelineEvent Frame) (h : p.Fifo) :
    (p.step e).Fifo := by
  unfold Fifo at h ⊢
  cases e with
  | producerTick state src =>
    simp only [step, producerTick, Impl.screenGrabAndEncodeFrame]
    by_cases hs : p.impl.recordingState = state
    · simp [hs, ← h]
    · simp [hs, h]
  | consumerTick =>
    simp only [step, consumerTick, Impl.consumerCallback]
    cases hq : p.impl.screenDataList with
    | nil =>
      rw [hq] at h
      by_cases hr : p.impl.isCaptureSessionRunning = true
      · simp [hr, hq, ← h]
      · simp [hr, hq, ← h]
    | cons src rest =>
      rw [hq] at h
      simp [← h]
  | stateWrite st =>
    simpa [step] using h

theorem fifo_run (evs : List (PipelineEvent Frame)) (p : Pipeline Frame) (h : p.Fifo) :
    (p.run evs).Fifo := by
  induction evs generalizing p with
  | nil => exact h
  | cons e evs ih => exact ih (p.step e) (fifo_step p e h)

/-- While every producer tick carries the live state as snapshot and nothing
writes the state, the captured log grows by exactly the offered frames. -/
theorem captured_run (st : ScreenRecordingState) (evs : List (PipelineEvent Frame))
    (p : Pipeline Frame) (hst : p.impl.recordingState = st)
    (hev : ∀ e ∈ evs, e = PipelineEvent.consumerTick ∨ ∃ src, e = PipelineEvent.producerTick st src) :
    (p.run evs).captured = p.captured ++ offeredFrames evs ∧
    (p.run evs).impl.recordingState = st := by
  induction evs generalizing p with
  | nil => simp [run, offeredFrames, hst]
  | cons e evs ih =>
    have ht : ∀ e ∈ evs, e = PipelineEvent.consumerTick ∨
        ∃ src, e = PipelineEvent.producerTick st src :=
      fun e he => hev e (List.mem_cons_of_mem _ he)
    rcases hev e (List.mem_cons_self _ _) with he | ⟨src, he⟩
    · subst he
      have hs1 : (p.step PipelineEvent.consumerTick).impl.recordingState = st := by
        simp only [step, consumerTick, Impl.consumerCallback]
        split
        · split <;> simpa using hst
        · simpa using hst
      have hc1 : (p.step PipelineEvent.consumerTick).captured = p.captured := by
        simp [step, consumerTick]
      have := ih (p.step PipelineEvent.consumerTick) hs1 ht
      simpa [run, offeredFrames, hc1] using this
    · subst he
      have hs1 : (p.step (PipelineEvent.producerTick st src)).impl.recordingState = st := by
        simp [step, producerTick, Impl.screenGrabAndEncodeFrame, hst]
      have hc1 : (p.step (PipelineEvent.producerTick st src)).captured = p.captured ++ [src] := by
        simp [step, producerTick, Impl.screenGrabAndEncodeFrame, hst]
      have := ih (p.step (PipelineEvent.producerTick st src)) hs1 ht
      simpa [run, offeredFrames, hc1] using this

end Pipeline

/-- Claim C4. FIFO order of the frame queue: starting from an empty queue, after
every interleaving of producer ticks, consumer ticks and writes of the
recording state, the frames forwarded to the sink followed by the frames still
queued are exactly the captured frames in capture order; and when every
producer tick qualifies (its snapshot is the live state, which nothing
changes), these are the frames F1..Fn offered by the producer ticks. -/
theorem Pipeline.fifo_order {Frame : Type} (s : Impl Frame)
    (evs : List (PipelineEvent Frame)) (h : s.screenDataList = []) :
    ((Pipeline.init s).run evs).forwarded ++ ((Pipeline.init s).run evs).impl.screenDataList
        = ((Pipeline.init s).run evs).captured ∧
    ((∀ e ∈ evs, e = PipelineEvent.consumerTick ∨
          ∃ src, e = PipelineEvent.producerTick s.recordingState src) →
      ((Pipeline.init s).run evs).forwarded ++ ((Pipeline.init s).run evs).impl.screenDataList
        = Pipeline.offeredFrames evs) := by
  have h0 : (Pipeline.init s).Fifo := by
    simp [Pipeline.Fifo, Pipeline.init, h]
  have h1 := Pipeline.fifo_run evs (Pipeline.init s) h0
  refine ⟨h1, fun hev => ?_⟩
  have h2 := (Pipeline.captured_run s.recordingState evs (Pipeline.init s) rfl hev).1
  rw [h1, h2]
  simp [Pipeline.init]

/-- Instance of claim C4: three frames produced, with consumer ticks
interleaved, on a controller in state about-to-stop. -/
theorem Pipeline.fifo_order_witness :
    ((Pipeline.init (Impl.new "config.json" : Impl Nat).stop).run
        [PipelineEvent.producerTick ScreenRecordingState.ScreenRecordingAboutToStop 11,
         PipelineEvent.producerTick ScreenRecordingState.ScreenRecordingAboutToStop 12,
         PipelineEvent.consumerTick,
         PipelineEvent.producerTick ScreenRecordingState.ScreenRecordingAboutToStop 13,
         PipelineEvent.consumerTick]).forwarded ++
      ((Pipeline.init (Impl.new "config.json" : Impl Nat).stop).run
        [PipelineEvent.producerTick ScreenRecordingState.ScreenRecordingAboutToStop 11,
         PipelineEvent.producerTick ScreenRecordingState.ScreenRecordingAboutToStop 12,
         PipelineEvent.consumerTick,
         PipelineEvent.producerTick ScreenRecordingState.ScreenRecordingAboutToStop 13,
         PipelineEvent.consumerTick]).impl.screenDataList
      = [11, 12, 13] :=
  (Pipeline.fifo_order (Impl.new "config.json" : Impl Nat).stop _ rfl).2
    (by
      intro e he
      simp only [List.mem_cons, List.mem_singleton, List.not_mem_nil, or_false] at he
      rcases he with he | he | he | he | he
      · exact Or.inr ⟨11, he⟩
      · exact Or.inr ⟨12, he⟩
      · exact Or.inl he
      · exact Or.inr ⟨13, he⟩
      · exact Or.inl he)

/-- Claim C5. Consumer tick: the tick returns true exactly when
`isCaptureSessionRunning()` holds or the queue is non-empty; on a non-empty
queue it removes exactly the front frame and hands it to the sink, changing
nothing else; on an empty queue it changes nothing; it returns false only when
the state is terminated and the queue is empty.  The consumer scheduler is
constructed with duration 0, so an invocation of `callbackRoutine` on it
signals completion only if the tick returned false: a tick on which completion
is newly signalled finds the queue empty and leaves it empty. -/
theorem Impl.consumerCallback_spec {Frame : Type} (s : Impl Frame) :
    ((s.consumerCallback).2.2 = true ↔
        (s.isCaptureSessionRunning = true ∨ s.screenDataList ≠ [])) ∧
    (∀ src rest, s.screenDataList = src :: rest →
        s.consumerCallback = ({ s with screenDataList := rest }, some src, true)) ∧
    (s.screenDataList = [] → (s.consumerCallback).1 = s ∧ (s.consumerCallback).2.1 = none) ∧
    ((s.consumerCallback).2.2 = false →
        s.recordingState = ScreenRecordingState.ScreenRecordingTerminated ∧
        s.screenDataList = []) ∧
    (∀ (fps timeDifference : Int) (g : TimedMediaGrabber) (captured forwarded : List Frame),
        g.mediaCaptureDurationInSeconds
            = (TimedMediaGrabber.new fps 0 1).mediaCaptureDurationInSeconds →
        g.doneEvent = false →
        (TimedMediaGrabber.callbackRoutine Pipeline.consumerTick timeDifference g
            { impl := s, captured := captured, forwarded := forwarded }).1.doneEvent = true →
        s.screenDataList = [] ∧
        (TimedMediaGrabber.callbackRoutine Pipeline.consumerTick timeDifference g
            { impl := s, captured := captured, forwarded := forwarded }).2.impl.screenDataList
          = []) := by
  have hfalse : (s.consumerCallback).2.2 = false →
      s.recordingState = ScreenRecordingState.ScreenRecordingTerminated ∧
      s.screenDataList = [] := by
    unfold Impl.consumerCallback Impl.isCaptureSessionRunning
    cases hq : s.screenDataList with
    | nil =>
      by_cases hr : s.recordingState = ScreenRecordingState.ScreenRecordingTerminated
      · simp [hr]
      · simp [hr]
    | cons src rest => simp
  have hempty : s.screenDataList = [] →
      (s.consumerCallback).1 = s ∧ (s.consumerCallback).2.1 = none := by
    intro hq
    unfold Impl.consumerCallback
    by_cases hr : s.isCaptureSessionRunning = true
    · simp [hr, hq]
    · simp [hr, hq]
  refine ⟨?_, ?_, hempty, hfalse, ?_⟩
  · unfold Impl.consumerCallback
    cases hq : s.screenDataList with
    | nil =>
      by_cases hr : s.isCaptureSessionRunning = true
      · simp [hr]
      · simp [hr]
    | cons src rest => simp
  · intro src rest hq
    simp [Impl.consumerCallback, hq]
  · intro fps timeDifference g captured forwarded hd hdone
    have hd0 : g.mediaCaptureDurationInSeconds = 0 := by
      simpa [TimedMediaGrabber.new] using hd
    by_cases hr : (s.consumerCallback).2.2 = true
    · intro h
      exfalso
      simp [TimedMediaGrabber.callbackRoutine, Pipeline.consumerTick, hr, hd0, hdone] at h
    · have hr2 : (s.consumerCallback).2.2 = false := by simpa using hr
      obtain ⟨_, hq⟩ := hfalse hr2
      intro _
      refine ⟨hq, ?_⟩
      rw [TimedMediaGrabber.callbackRoutine_snd]
      show (s.consumerCallback).1.screenDataList = []
      rw [(hempty hq).1]
      exact hq

/-- Instance of claim C5: on a terminated controller that still queues the
frames 7 and 8, the tick forwards 7, keeps 8 and returns true. -/
theorem Impl.consumerCallback_spec_witness :
    ({ (Impl.new "config.json" : Impl Nat).startScreenRecordingFinish with
        screenDataList := [7, 8] } : Impl Nat).consumerCallback
      = ({ (Impl.new "config.json" : Impl Nat).startScreenRecordingFinish with
            screenDataList := [8] }, some 7, true) :=
  (Impl.consumerCallback_spec
    ({ (Impl.new "config.json" : Impl Nat).startScreenRecordingFinish with
        screenDataList := [7, 8] } : Impl Nat)).2.1 7 [8] rfl

/-- Claim C6. The one-shot decision is single-assignment: a call of
`setScreenSessionState` on an unresolved decision sets the promise to its
argument; any call that follows another call, with either argument, changes
neither the promise nor the controller; on a resolved decision every call is a
no-op, an iteration of the watcher that reads StartRec changes neither the
controller nor the promise, and the promise keeps its value through every
iteration up to the end of the loop and through the closing call. -/
theorem Impl.setScreenSessionState_single_assignment {Frame : Type} (state1 state2 : Bool)
    (w : Impl.CommandProcessing) (s : Impl Frame) :
    (w.pr = none → (Impl.setScreenSessionState state1 w s).1.pr = some state1) ∧
    Impl.setScreenSessionState state2 (Impl.setScreenSessionState state1 w s).1
        (Impl.setScreenSessionState state1 w s).2
      = Impl.setScreenSessionState state1 w s ∧
    (∀ v, w.pr = some v →
      Impl.setScreenSessionState state2 w s = (w, s) ∧
      (∀ o, (Impl.commandTick o w s).1 = Impl.TickBranch.startRec →
        (Impl.commandTick o w s).2.2 = s ∧ (Impl.commandTick o w s).2.1.pr = some v) ∧
      (∀ o, (Impl.commandTick o w s).2.1.pr = some v) ∧
      (∀ obs r, Impl.commandLoop obs w s = some r →
        r.1.pr = some v ∧ Impl.setScreenSessionState false r.1 r.2 = r)) := by
  refine ⟨Impl.setScreenSessionState_pr_of_unresolved state1 w s, ?_, ?_⟩
  · cases hpr : w.pr with
    | some v =>
      rw [Impl.setScreenSessionState_of_resolved state1 v w s hpr]
      exact Impl.setScreenSessionState_of_resolved state2 v w s hpr
    | none =>
      exact Impl.setScreenSessionState_of_resolved state2 state1 _ _
        (Impl.setScreenSessionState_pr_of_unresolved state1 w s hpr)
  · intro v hpr
    refine ⟨Impl.setScreenSessionState_of_resolved state2 v w s hpr, ?_, ?_, ?_⟩
    · intro o hb
      have h := Impl.commandTick_startRec_resolved o w s v hpr hb
      exact ⟨h.1, h.2.trans hpr⟩
    · intro o
      exact Impl.commandTick_pr_stable o w s v hpr
    · intro obs r hr
      have h := Impl.commandLoop_pr_stable obs w s v hpr r hr
      exact ⟨h, Impl.setScreenSessionState_of_resolved false v r.1 r.2 h⟩

/-- Instance of claim C6: after a first StartRec resolved the decision to
start on a started controller, a second StartRec is a no-op. -/
theorem Impl.setScreenSessionState_single_assignment_witness :
    (Impl.commandTick
        { stCurrLocal := 1700000001, now := 1700000001250, line := some "StartRec" }
        { stLocal := 1700000000, pr := some true, maxWaitTime := 0 }
        (Impl.setScreenSessionState true
          { stLocal := 1700000000, pr := none, maxWaitTime := 0 }
          (Impl.new "config.json" : Impl Nat)).2).2.1.pr = some true ∧
    (Impl.setScreenSessionState true
        { stLocal := 1700000000, pr := none, maxWaitTime := 0 }
        (Impl.new "config.json" : Impl Nat)).1.pr = some true :=
  ⟨((Impl.setScreenSessionState_single_assignment true true
      { stLocal := 1700000000, pr := some true, maxWaitTime := 0 }
      (Impl.setScreenSessionState true
          { stLocal := 1700000000, pr := none, maxWaitTime := 0 }
          (Impl.new "config.json" : Impl Nat)).2).2.2 true rfl).2.1
      { stCurrLocal := 1700000001, now := 1700000001250, line := some "StartRec" }
      (by decide) |>.2,
   (Impl.setScreenSessionState_single_assignment true true
      { stLocal := 1700000000, pr := none, maxWaitTime := 0 }
      (Impl.new "config.json" : Impl Nat)).1 rfl⟩

/-- Claim C7. With `keepAliveFrequency == 0` the watcher computes
`maxWaitTime = 0`; then, whatever the modification time of the command file
(0 for a missing file included) and whatever the current time, no iteration
takes the watchdog path, no iteration writes terminated, an iteration leaves
the loop only by reading StopRec, no iteration of a whole run takes the
watchdog path, and a run that returns does so in state about-to-stop. -/
theorem Impl.watchdog_disabled {Frame : Type} (s : Impl Frame)
    (hk : s.keepaliveFrequencyInSeconds = 0) :
    (Impl.CommandProcessing.entry s).maxWaitTime = 0 ∧
    (∀ (o : Impl.CommandFileObservation) (w : Impl.CommandProcessing) (s1 : Impl Frame),
      w.maxWaitTime = (Impl.CommandProcessing.entry s).maxWaitTime →
      (Impl.commandTick o w s1).1 ≠ Impl.TickBranch.watchdog ∧
      ((Impl.commandTick o w s1).2.2.recordingState
          = ScreenRecordingState.ScreenRecordingTerminated →
        s1.recordingState = ScreenRecordingState.ScreenRecordingTerminated) ∧
      ((Impl.commandTick o w s1).1.breaks = true →
        (Impl.commandTick o w s1).1 = Impl.TickBranch.stopRec)) ∧
    (∀ obs, Impl.TickBranch.watchdog ∉
      Impl.commandBranches obs (Impl.CommandProcessing.entry s) s) ∧
    (∀ obs r, Impl.startCommandProcessing obs s = some r →
      r.2.recordingState = ScreenRecordingState.ScreenRecordingAboutToStop) := by
  have h0 : (Impl.CommandProcessing.entry s).maxWaitTime = 0 := by
    simp [Impl.CommandProcessing.entry, hk, wrapInt32]
  refine ⟨h0, ?_, ?_, ?_⟩
  · intro o w s1 hw
    rw [h0] at hw
    have hnw : (Impl.commandTick o w s1).1 ≠ Impl.TickBranch.watchdog := by
      intro h
      have := ((Impl.commandTick_watchdog_iff o w s1).1 h).1
      omega
    refine ⟨hnw, ?_, ?_⟩
    · rw [Impl.commandTick_recordingState]
      cases hb : (Impl.commandTick o w s1).1 with
      | watchdog => exact absurd hb hnw
      | stopRec => simp
      | sleepAndRetry => simp
      | openFailed => simp
      | startRec =>
        cases hpr : w.pr with
        | none => simp
        | some v => simp
      | ignoredLine => simp
    · cases hb : (Impl.commandTick o w s1).1 with
      | watchdog => exact absurd hb hnw
      | stopRec => simp
      | sleepAndRetry => simp [Impl.TickBranch.breaks]
      | openFailed => simp [Impl.TickBranch.breaks]
      | startRec => simp [Impl.TickBranch.breaks]
      | ignoredLine => simp [Impl.TickBranch.breaks]
  · intro obs
    exact Impl.commandBranches_of_disabled obs _ s h0
  · intro obs r hr
    unfold Impl.startCommandProcessing at hr
    cases hl : Impl.commandLoop obs (Impl.CommandProcessing.entry s) s with
    | none => simp [hl] at hr
    | some r1 =>
      simp only [hl, Option.map_some] at hr
      cases hr
      have h1 := Impl.commandLoop_of_disabled obs _ s h0 r1 hl
      rw [Impl.setScreenSessionState_false_state]
      simp [h1]

/-- Instance of claim C7: a fresh controller has keep-alive 0; an iteration
that finds the command file missing, half a century after the epoch, does not
take the watchdog path. -/
theorem Impl.watchdog_disabled_witness :
    (Impl.commandTick { stCurrLocal := 0, now := 1700000000250, line := none }
        (Impl.CommandProcessing.entry (Impl.new "config.json" : Impl Nat))
        (Impl.new "config.json" : Impl Nat)).1 ≠ Impl.TickBranch.watchdog :=
  ((Impl.watchdog_disabled (Impl.new "config.json" : Impl Nat) rfl).2.1
    { stCurrLocal := 0, now := 1700000000250, line := none }
    (Impl.CommandProcessing.entry (Impl.new "config.json" : Impl Nat))
    (Impl.new "config.json" : Impl Nat) rfl).1

/-- Claim C8 (as stated, refuted). With keep-alive frequency 715828 > 0 the
`int` product `maxWaitTime * 1000` = 2147484000 exceeds the largest `int` and
wraps to a negative number: an iteration fires the watchdog although no time
at all has elapsed since the modification of the command file, that is,
although the elapsed milliseconds do not exceed 3 * 715828 * 1000.  With
keep-alive frequency 715827883 > 0 the `int` product `maxWaitTime = k * 3`
itself wraps to a negative number, which disables the watchdog: an iteration
that finds the command file missing does not fire it although the elapsed
milliseconds exceed 3 * 715827883 * 1000. -/
theorem Impl.watchdog_limit_overflow :
    ((0 : Int) < 715828 ∧
      (Impl.commandTick { stCurrLocal := 1700000000, now := 1700000000000, line := none }
          (Impl.CommandProcessing.entry
            ({ (Impl.new "config.json" : Impl Nat) with keepaliveFrequencyInSeconds := 715828 }))
          ({ (Impl.new "config.json" : Impl Nat) with keepaliveFrequencyInSeconds := 715828 })).1
        = Impl.TickBranch.watchdog ∧
      ¬ (Impl.timeDifference 1700000000000 1700000000 > 3 * 715828 * 1000)) ∧
    ((0 : Int) < 715827883 ∧
      (Impl.commandTick { stCurrLocal := 0, now := 2200000000000, line := none }
          (Impl.CommandProcessing.entry
            ({ (Impl.new "config.json" : Impl Nat) with
                keepaliveFrequencyInSeconds := 715827883 }))
          ({ (Impl.new "config.json" : Impl Nat) with
              keepaliveFrequencyInSeconds := 715827883 })).1
        ≠ Impl.TickBranch.watchdog ∧
      Impl.timeDifference 2200000000000 0 > 3 * 715827883 * 1000) := by
  decide

/-- Claim C8 (amended). For every keep-alive frequency `k` with
`0 < k ≤ 715827`, the range in which `3 * k * 1000` fits an `int`,
`maxWaitTime = 3 * k` seconds and an iteration of the watcher fires the
watchdog if and only if the milliseconds elapsed since the modification time
of the command file exceed `3 * k * 1000`. -/
theorem Impl.watchdog_limit {Frame : Type} (s : Impl Frame) (k : Int)
    (hk : s.keepaliveFrequencyInSeconds = k) (hpos : 0 < k) (hmax : k ≤ 715827)
    (o : Impl.CommandFileObservation) (w : Impl.CommandProcessing)
    (hw : w.maxWaitTime = (Impl.CommandProcessing.entry s).maxWaitTime) :
    (Impl.CommandProcessing.entry s).maxWaitTime = 3 * k ∧
    ((Impl.commandTick o w s).1 = Impl.TickBranch.watchdog ↔
      Impl.timeDifference o.now o.stCurrLocal > 3 * k * 1000) := by
  have h0 : (Impl.CommandProcessing.entry s).maxWaitTime = 3 * k := by
    simp only [Impl.CommandProcessing.entry, hk, wrapInt32]
    omega
  refine ⟨h0, ?_⟩
  rw [h0] at hw
  have h1 : wrapInt32 (w.maxWaitTime * 1000) = 3 * k * 1000 := by
    rw [hw]
    unfold wrapInt32
    omega
  rw [Impl.commandTick_watchdog_iff]
  unfold Impl.shouldCaptureSessionContinue
  rw [h1]
  constructor
  · rintro ⟨_, h⟩
    by_contra hc
    simp [hc] at h
  · intro h
    refine ⟨by omega, ?_⟩
    simp [h]

/-- Instance of the amended claim C8: keep-alive 2 s gives a 6 s limit; 6001 ms
after the modification the watchdog fires. -/
theorem Impl.watchdog_limit_witness :
    (Impl.CommandProcessing.entry
        ({ (Impl.new "config.json" : Impl Nat) with keepaliveFrequencyInSeconds := 2 })).maxWaitTime
      = 3 * 2 ∧
    ((Impl.commandTick { stCurrLocal := 1700000000, now := 1700000006001, line := none }
        (Impl.CommandProcessing.entry
          ({ (Impl.new "config.json" : Impl Nat) with keepaliveFrequencyInSeconds := 2 }))
        ({ (Impl.new "config.json" : Impl Nat) with keepaliveFrequencyInSeconds := 2 })).1
        = Impl.TickBranch.watchdog ↔
      Impl.timeDifference 1700000006001 1700000000 > 3 * 2 * 1000) :=
  Impl.watchdog_limit
    ({ (Impl.new "config.json" : Impl Nat) with keepaliveFrequencyInSeconds := 2 }) 2 rfl
    (by decide) (by decide)
    { stCurrLocal := 1700000000, now := 1700000006001, line := none }
    (Impl.CommandProcessing.entry
      ({ (Impl.new "config.json" : Impl Nat) with keepaliveFrequencyInSeconds := 2 })) rfl

/-- Claim C9. Effect of a watchdog timeout: from every recording state, the
iteration on which the watchdog test succeeds sets the state to terminated and
ends the loop, whatever observations would follow; after the closing
`setScreenSessionState(false)` the state is still terminated; if the one-shot
decision was unresolved it is resolved to false, with which `start()` returns
false and launches no producer or consumer loop; if it was resolved to start
it stays resolved to start. -/
theorem Impl.watchdog_timeout_effect {Frame : Type} (o : Impl.CommandFileObservation)
    (w : Impl.CommandProcessing) (s : Impl Frame)
    (hfire : w.maxWaitTime > 0 ∧
      Impl.shouldCaptureSessionContinue w.maxWaitTime o.now o.stCurrLocal = false) :
    Impl.commandTick o w s = (Impl.TickBranch.watchdog, w,
        { s with recordingState := ScreenRecordingState.ScreenRecordingTerminated }) ∧
    (∀ os, Impl.commandLoop (o :: os) w s = some (w,
        { s with recordingState := ScreenRecordingState.ScreenRecordingTerminated })) ∧
    (Impl.setScreenSessionState false w
        { s with recordingState := ScreenRecordingState.ScreenRecordingTerminated }).2.recordingState
      = ScreenRecordingState.ScreenRecordingTerminated ∧
    (w.pr = none →
      (Impl.setScreenSessionState false w
        { s with recordingState := ScreenRecordingState.ScreenRecordingTerminated }).1.pr
        = some false ∧
      ∀ setupOk, Impl.start false setupOk = { returned := false, launched := false }) ∧
    (w.pr = some true →
      (Impl.setScreenSessionState false w
        { s with recordingState := ScreenRecordingState.ScreenRecordingTerminated }).1.pr
        = some true) := by
  have htick : Impl.commandTick o w s = (Impl.TickBranch.watchdog, w,
      { s with recordingState := ScreenRecordingState.ScreenRecordingTerminated }) := by
    unfold Impl.commandTick
    rw [if_pos]
    exact ⟨hfire.1, by simp [hfire.2]⟩
  refine ⟨htick, ?_, ?_, ?_, ?_⟩
  · intro os
    simp [Impl.commandLoop, htick, Impl.TickBranch.breaks]
  · rw [Impl.setScreenSessionState_false_state]
    simp
  · intro hpr
    refine ⟨Impl.setScreenSessionState_pr_of_unresolved false w _ hpr, ?_⟩
    intro setupOk
    rfl
  · intro hpr
    rw [Impl.setScreenSessionState_of_resolved false true w _ hpr]
    exact hpr

/-- Instance of claim C9: keep-alive 2 s, command file untouched for 6001 ms,
no StartRec seen: the run ends terminated with the decision false. -/
theorem Impl.watchdog_timeout_effect_witness :
    Impl.commandLoop
        [{ stCurrLocal := 1700000000, now := 1700000006001, line := none }]
        { stLocal := 1700000000, pr := none, maxWaitTime := 6 }
        (Impl.new "config.json" : Impl Nat)
      = some ({ stLocal := 1700000000, pr := none, maxWaitTime := 6 },
          { (Impl.new "config.json" : Impl Nat) with
            recordingState := ScreenRecordingState.ScreenRecordingTerminated }) :=
  (Impl.watchdog_timeout_effect
    { stCurrLocal := 1700000000, now := 1700000006001, line := none }
    { stLocal := 1700000000, pr := none, maxWaitTime := 6 }
    (Impl.new "config.json" : Impl Nat) (by decide)).2.1 []

/-- Claim C10. Command classification is verbatim and case-sensitive: on an
iteration of the watcher that reads the first line of the command file, the
line is treated as Start if and only if it equals the exact string StartRec
and as Stop if and only if it equals StopRec; for every other line the
iteration changes neither the controller (so not the recording state) nor the
one-shot decision and does not leave the loop.  Lines that differ in case,
carry extra whitespace or a trailing carriage return, or are empty are such
other lines. -/
theorem Impl.command_classification {Frame : Type} (o : Impl.CommandFileObservation)
    (w : Impl.CommandProcessing) (s : Impl Frame) (line : String)
    (hline : o.line = some line)
    (hread : (Impl.commandTick o w s).1 ≠ Impl.TickBranch.watchdog ∧
      (Impl.commandTick o w s).1 ≠ Impl.TickBranch.sleepAndRetry) :
    ((Impl.commandTick o w s).1 = Impl.TickBranch.startRec ↔ line = "StartRec") ∧
    ((Impl.commandTick o w s).1 = Impl.TickBranch.stopRec ↔ line = "StopRec") ∧
    (line ≠ "StartRec" → line ≠ "StopRec" →
      (Impl.commandTick o w s).1 = Impl.TickBranch.ignoredLine ∧
      (Impl.commandTick o w s).2.2 = s ∧
      (Impl.commandTick o w s).2.1.pr = w.pr ∧
      (Impl.commandTick o w s).1.breaks = false) ∧
    (∀ other ∈ ["startrec", "STARTREC", "Startrec", " StartRec", "StartRec ", "StartRec\r",
        "StartRec\t", "stoprec", "STOPREC", "StopRec ", "StopRec\r", "Stop Rec", ""],
      other ≠ "StartRec" ∧ other ≠ "StopRec") := by
  rcases Impl.commandTick_cases o w s with h | h | ⟨w2, hw2, _, h⟩
  · exact absurd (by rw [h]) hread.1
  · exact absurd (by rw [h]) hread.2
  · rw [h]
    have hne : ("StartRec" : String) ≠ "StopRec" := by decide
    refine ⟨?_, ?_, ?_, by decide⟩
    · rcases Impl.commandRead_cases o w2 s with c | c | c | ⟨⟨l, hl, hl1, hl2⟩, c⟩
      · rw [hline] at c
        simp at c
      · rw [hline] at c
        rw [c.2]
        simpa using c.1
      · rw [hline] at c
        rw [c.2]
        have : line = "StopRec" := by simpa using c.1
        simp [this]
      · rw [hline] at hl
        rw [c]
        have : line = l := by simpa using hl
        simp [this, hl1]
    · rcases Impl.commandRead_cases o w2 s with c | c | c | ⟨⟨l, hl, hl1, hl2⟩, c⟩
      · rw [hline] at c
        simp at c
      · rw [hline] at c
        rw [c.2]
        have : line = "StartRec" := by simpa using c.1
        simp [this]
      · rw [hline] at c
        rw [c.2]
        simpa using c.1
      · rw [hline] at hl
        rw [c]
        have : line = l := by simpa using hl
        simp [this, hl2]
    · intro h1 h2
      rcases Impl.commandRead_cases o w2 s with c | c | c | ⟨_, c⟩
      · rw [hline] at c
        simp at c
      · rw [hline] at c
        exact absurd (by simpa using c.1) h1
      · rw [hline] at c
        exact absurd (by simpa using c.1) h2
      · rw [c]
        exact ⟨rfl, rfl, hw2, rfl⟩

/-- Instance of claim C10: before any start, a changed command file whose
first line is StartRec followed by a carriage return is ignored. -/
theorem Impl.command_classification_witness :
    (Impl.commandTick
        { stCurrLocal := 1700000001, now := 1700000001250, line := some "StartRec\r" }
        { stLocal := 1700000000, pr := none, maxWaitTime := 0 }
        (Impl.new "config.json" : Impl Nat)).1 = Impl.TickBranch.ignoredLine :=
  ((Impl.command_classification
      { stCurrLocal := 1700000001, now := 1700000001250, line := some "StartRec\r" }
      { stLocal := 1700000000, pr := none, maxWaitTime := 0 }
      (Impl.new "config.json" : Impl Nat) "StartRec\r" rfl
      ⟨by decide, by decide⟩).2.2.1 (by decide) (by decide)).1

/-- Claim C11 (as stated, refuted). With the one-shot decision resolved to
start, `start()` returns false when `setupFFSessionInfo()` fails. -/
theorem Impl.start_false_on_setup_failure :
    Impl.start true false = { returned := false, launched := false } := by
  decide

/-- Claim C11 (amended). `start()` returns true exactly when the one-shot
decision is start and `setupFFSessionInfo()` succeeds; it returns false when
the decision is abort, whatever the outcome of the collaborators; the producer
and consumer loops are launched exactly when it returns true, hence only when
the decision is start. -/
theorem Impl.start_spec (recordingSet setupOk : Bool) :
    ((Impl.start recordingSet setupOk).returned = true ↔
        (recordingSet = true ∧ setupOk = true)) ∧
    (recordingSet = false →
        Impl.start recordingSet setupOk = { returned := false, launched := false }) ∧
    ((Impl.start recordingSet setupOk).launched = (Impl.start recordingSet setupOk).returned) ∧
    ((Impl.start recordingSet setupOk).launched = true → recordingSet = true) := by
  cases recordingSet <;> cases setupOk <;> decide

/-- Instance of the amended claim C11: decision abort, setup would succeed:
`start()` returns false and launches nothing. -/
theorem Impl.start_spec_witness :
    Impl.start false true = { returned := false, launched := false } :=
  (Impl.start_spec false true).2.1 rfl

/-- Claim C12. `isCaptureSessionRunning()` returns true if and only if the
recording state is not terminated: it is true for not-started, started and
about-to-stop and false for terminated; the member of the public class
returns the same value.  The member is `const`: in the embedding it is a
function of the controller to a Boolean and yields no new controller, and an
operation that only evaluates it, such as a consumer tick on an empty queue,
leaves the controller as it is. -/
theorem Impl.isCaptureSessionRunning_spec {Frame : Type} (s : Impl Frame) :
    (s.isCaptureSessionRunning = true ↔
        s.recordingState ≠ ScreenRecordingState.ScreenRecordingTerminated) ∧
    (s.recordingState = ScreenRecordingState.ScreenRecordingNotStarted →
        s.isCaptureSessionRunning = true) ∧
    (s.recordingState = ScreenRecordingState.ScreenRecordingStarted →
        s.isCaptureSessionRunning = true) ∧
    (s.recordingState = ScreenRecordingState.ScreenRecordingAboutToStop →
        s.isCaptureSessionRunning = true) ∧
    (s.recordingState = ScreenRecordingState.ScreenRecordingTerminated →
        s.isCaptureSessionRunning = false) ∧
    (ScreenCapture.isCaptureSessionRunning { impl := s } = s.isCaptureSessionRunning) ∧
    (s.screenDataList = [] → (s.consumerCallback).1 = s) := by
  refine ⟨?_, ?_, ?_, ?_, ?_, rfl, ?_⟩
  · simp [Impl.isCaptureSessionRunning]
  · intro h
    simp [Impl.isCaptureSessionRunning, h]
  · intro h
    simp [Impl.isCaptureSessionRunning, h]
  · intro h
    simp [Impl.isCaptureSessionRunning, h]
  · intro h
    simp [Impl.isCaptureSessionRunning, h]
  · intro hq
    unfold Impl.consumerCallback
    by_cases hr : s.isCaptureSessionRunning = true
    · simp [hr, hq]
    · simp [hr, hq]

/-- Instance of claim C12: a freshly constructed controller is running. -/
theorem Impl.isCaptureSessionRunning_spec_witness :
    (Impl.new "config.json" : Impl Nat).isCaptureSessionRunning = true :=
  (Impl.isCaptureSessionRunning_spec (Impl.new "config.json" : Impl Nat)).2.1 rfl

/-! ## Helper lemmas on the operations that assign the recording state -/

/-- No operation assigns not-started. -/
theorem StateWriter.notStarted_only_initially {Frame : Type} (op : StateWriter)
    (w : Impl.CommandProcessing) (s : Impl Frame)
    (h : (op.apply w s).2.recordingState = ScreenRecordingState.ScreenRecordingNotStarted) :
    s.recordingState = ScreenRecordingState.ScreenRecordingNotStarted := by
  cases op with
  | commandTick o =>
    change (Impl.commandTick o w s).2.2.recordingState = _ at h
    rw [Impl.commandTick_recordingState] at h
    cases hb : (Impl.commandTick o w s).1 <;> rw [hb] at h <;> simp at h
    · exact h
    · exact h
    · split at h
      · simp at h
      · exact h
    · exact h
  | commandExit =>
    change (Impl.setScreenSessionState false w s).2.recordingState = _ at h
    rw [Impl.setScreenSessionState_false_state] at h
    split at h
    · simp at h
    · exact h
  | stop => simp [StateWriter.apply, Impl.stop] at h
  | startScreenRecordingFinish =>
    simp [StateWriter.apply, Impl.startScreenRecordingFinish] at h

/-- Claim C13. From state started, a stop request moves the state to
about-to-stop and not to terminated: the public `stop()` yields about-to-stop,
a state different from the one before, and changes nothing of the controller but the recording state (frame queue
and configuration are as before) and nothing of the watcher locals, where the
one-shot decision lives; a watcher iteration that reads StopRec yields
about-to-stop, changes neither the frame queue nor the decision, and ends the
loop, after which the closing `setScreenSessionState(false)` leaves the state
about-to-stop. -/
theorem Impl.stop_request_from_started {Frame : Type} (s : Impl Frame)
    (h : s.recordingState = ScreenRecordingState.ScreenRecordingStarted)
    (w : Impl.CommandProcessing) (o : Impl.CommandFileObservation) :
    s.stop = { s with recordingState := ScreenRecordingState.ScreenRecordingAboutToStop } ∧
    s.stop.recordingState ≠ s.recordingState ∧
    s.stop.recordingState ≠ ScreenRecordingState.ScreenRecordingTerminated ∧
    s.stop.screenDataList = s.screenDataList ∧
    StateWriter.stop.apply w s = (w, s.stop) ∧
    (ScreenCapture.stop { impl := s }).impl = s.stop ∧
    ((Impl.commandTick o w s).1 = Impl.TickBranch.stopRec →
      (Impl.commandTick o w s).2.2
        = { s with recordingState := ScreenRecordingState.ScreenRecordingAboutToStop } ∧
      (Impl.commandTick o w s).2.1.pr = w.pr ∧
      (Impl.commandTick o w s).1.breaks = true ∧
      (∀ os, (Impl.commandLoop (o :: os) w s).map (fun r => r.2.recordingState)
        = some ScreenRecordingState.ScreenRecordingAboutToStop) ∧
      (Impl.setScreenSessionState false (Impl.commandTick o w s).2.1
          (Impl.commandTick o w s).2.2).2.recordingState
        = ScreenRecordingState.ScreenRecordingAboutToStop) := by
  refine ⟨rfl, by simp [Impl.stop, h], by simp [Impl.stop], rfl, rfl, rfl, ?_⟩
  intro hb
  have hstate : (Impl.commandTick o w s).2.2
      = { s with recordingState := ScreenRecordingState.ScreenRecordingAboutToStop } := by
    rcases Impl.commandTick_cases o w s with c | c | ⟨w2, _, _, c⟩
    · rw [c] at hb
      simp at hb
    · rw [c] at hb
      simp at hb
    · rw [c] at hb ⊢
      rcases Impl.commandRead_cases o w2 s with d | d | d | d
      · rw [d.2] at hb
        simp at hb
      · rw [d.2] at hb
        simp at hb
      · rw [d.2]
      · rw [d.2] at hb
        simp at hb
  have hpr : (Impl.commandTick o w s).2.1.pr = w.pr := by
    rw [Impl.commandTick_pr, hb]
    simp
  refine ⟨hstate, hpr, by rw [hb]; rfl, ?_, ?_⟩
  · intro os
    simp [Impl.commandLoop, hb, Impl.TickBranch.breaks, hstate]
  · rw [Impl.setScreenSessionState_false_state, hstate]
    simp

/-- Instance of claim C13: a started session with the decision resolved to
start reads StopRec from the changed command file. -/
theorem Impl.stop_request_from_started_witness :
    (Impl.commandTick
        { stCurrLocal := 1700000002, now := 1700000002250, line := some "StopRec" }
        { stLocal := 1700000000, pr := some true, maxWaitTime := 0 }
        (Impl.setScreenSessionState true
          { stLocal := 1700000000, pr := none, maxWaitTime := 0 }
          (Impl.new "config.json" : Impl Nat)).2).1.breaks = true :=
  ((Impl.stop_request_from_started
      (Impl.setScreenSessionState true
          { stLocal := 1700000000, pr := none, maxWaitTime := 0 }
          (Impl.new "config.json" : Impl Nat)).2 rfl
      { stLocal := 1700000000, pr := some true, maxWaitTime := 0 }
      { stCurrLocal := 1700000002, now := 1700000002250, line := some "StopRec" }).2.2.2.2.2.2
    (by decide)).2.2.1

/-- Claim C14 (as stated, refuted). The public `stop()` on a freshly
constructed controller, whose state is not-started, yields about-to-stop:
about-to-stop is entered from a state other than started. -/
theorem Impl.about_to_stop_from_not_started :
    (Impl.new "config.json" : Impl Nat).recordingState
        = ScreenRecordingState.ScreenRecordingNotStarted ∧
    (Impl.new "config.json" : Impl Nat).stop.recordingState
        = ScreenRecordingState.ScreenRecordingAboutToStop ∧
    (StateWriter.stop.apply
        (Impl.CommandProcessing.entry (Impl.new "config.json" : Impl Nat))
        (Impl.new "config.json" : Impl Nat)).2.recordingState
      ≠ (Impl.new "config.json" : Impl Nat).recordingState ∧
    (Impl.new "config.json" : Impl Nat).recordingState
        ≠ ScreenRecordingState.ScreenRecordingStarted := by
  decide

/-- Claim C14 (amended). About-to-stop is entered only through a stop request:
for every operation that assigns the recording state and every prior state, if
the state after the operation is about-to-stop and differs from the state
before, then the operation is the public `stop()` or a watcher iteration that
reads StopRec; and `stop()` enters about-to-stop from every prior state. -/
theorem StateWriter.about_to_stop_only_by_stop_request {Frame : Type} (op : StateWriter)
    (w : Impl.CommandProcessing) (s : Impl Frame)
    (hafter : (op.apply w s).2.recordingState
      = ScreenRecordingState.ScreenRecordingAboutToStop)
    (hdiff : (op.apply w s).2.recordingState ≠ s.recordingState) :
    (op = StateWriter.stop ∨
      ∃ o, op = StateWriter.commandTick o ∧
        (Impl.commandTick o w s).1 = Impl.TickBranch.stopRec) ∧
    (StateWriter.stop.apply w s).2.recordingState
      = ScreenRecordingState.ScreenRecordingAboutToStop := by
  refine ⟨?_, rfl⟩
  cases op with
  | commandTick o =>
    right
    refine ⟨o, rfl, ?_⟩
    change (Impl.commandTick o w s).2.2.recordingState = _ at hafter
    change (Impl.commandTick o w s).2.2.recordingState ≠ _ at hdiff
    rw [Impl.commandTick_recordingState] at hafter hdiff
    cases hb : (Impl.commandTick o w s).1 <;> rw [hb] at hafter hdiff <;> simp at hafter hdiff
    · split at hafter
      · simp at hafter
      · rename_i hpr
        simp [hpr] at hdiff
  | commandExit =>
    exfalso
    change (Impl.setScreenSessionState false w s).2.recordingState = _ at hafter
    change (Impl.setScreenSessionState false w s).2.recordingState ≠ _ at hdiff
    rw [Impl.setScreenSessionState_false_state] at hafter hdiff
    split at hafter
    · simp at hafter
    · rename_i hc
      simp [hc] at hdiff
  | stop => exact Or.inl rfl
  | startScreenRecordingFinish =>
    exfalso
    simp [StateWriter.apply, Impl.startScreenRecordingFinish] at hafter

/-- Instance of the amended claim C14: `stop()` on a fresh controller. -/
theorem StateWriter.about_to_stop_only_by_stop_request_witness :
    (StateWriter.stop.apply
        (Impl.CommandProcessing.entry (Impl.new "config.json" : Impl Nat))
        (Impl.new "config.json" : Impl Nat)).2.recordingState
      = ScreenRecordingState.ScreenRecordingAboutToStop :=
  (StateWriter.about_to_stop_only_by_stop_request StateWriter.stop
    (Impl.CommandProcessing.entry (Impl.new "config.json" : Impl Nat))
    (Impl.new "config.json" : Impl Nat) rfl (by decide)).2

/-! ## Helper lemmas on the session -/

/-- An operation never unsets the promise. -/
theorem StateWriter.pr_stable {Frame : Type} (op : StateWriter)
    (w : Impl.CommandProcessing) (s : Impl Frame) (v : Bool) (h : w.pr = some v) :
    (op.apply w s).1.pr = some v := by
  cases op with
  | commandTick o => exact Impl.commandTick_pr_stable o w s v h
  | commandExit =>
    show (Impl.setScreenSessionState false w s).1.pr = some v
    rw [Impl.setScreenSessionState_of_resolved false v w s h]
    exact h
  | stop => exact h
  | startScreenRecordingFinish => exact h

/-- An operation assigns started only by resolving an unresolved promise. -/
theorem StateWriter.started_entered {Frame : Type} (op : StateWriter)
    (w : Impl.CommandProcessing) (s : Impl Frame)
    (h : (op.apply w s).2.recordingState = ScreenRecordingState.ScreenRecordingStarted)
    (hs : s.recordingState ≠ ScreenRecordingState.ScreenRecordingStarted) :
    w.pr = none ∧ (op.apply w s).1.pr = some true := by
  cases op with
  | commandTick o =>
    change (Impl.commandTick o w s).2.2.recordingState = _ at h
    show w.pr = none ∧ (Impl.commandTick o w s).2.1.pr = some true
    rw [Impl.commandTick_recordingState] at h
    rw [Impl.commandTick_pr]
    cases hb : (Impl.commandTick o w s).1 <;> rw [hb] at h <;> simp at h
    · exact absurd h hs
    · exact absurd h hs
    · by_cases hpr : w.pr = none
      · simp [hpr]
      · simp [hpr] at h
        exact absurd h hs
    · exact absurd h hs
  | commandExit =>
    exfalso
    change (Impl.setScreenSessionState false w s).2.recordingState = _ at h
    rw [Impl.setScreenSessionState_false_state] at h
    split at h
    · simp at h
    · exact hs h
  | stop => simp [StateWriter.apply, Impl.stop] at h
  | startScreenRecordingFinish =>
    simp [StateWriter.apply, Impl.startScreenRecordingFinish] at h

namespace Pipeline

variable {Frame : Type}

theorem producerTick_recordingState (state : ScreenRecordingState) (src : Frame)
    (p : Pipeline Frame) :
    (p.producerTick state src).1.impl.recordingState = p.impl.recordingState := by
  simp only [producerTick, Impl.screenGrabAndEncodeFrame]
  split <;> rfl

theorem consumerTick_recordingState (p : Pipeline Frame) :
    p.consumerTick.1.impl.recordingState = p.impl.recordingState := by
  simp only [consumerTick, Impl.consumerCallback]
  split
  · split <;> rfl
  · rfl

end Pipeline

namespace Impl

variable {Frame : Type}

/-- A producer step assigns the recording state only as the step from the
control point after the extra run, and then assigns terminated. -/
theorem startScreenRecordingStep_recordingState (src : Frame) (timeDifference : Int)
    (ph : ProducerPhase) (p : Pipeline Frame) :
    (startScreenRecordingStep src timeDifference ph p).2.impl.recordingState =
      if ph = ProducerPhase.extraDone then ScreenRecordingState.ScreenRecordingTerminated
      else p.impl.recordingState := by
  cases ph with
  | notLaunched => rfl
  | entry => rfl
  | primary state =>
    simp only [startScreenRecordingStep, TimedMediaGrabber.callbackRoutine_snd,
      Pipeline.producerTick_recordingState]
    simp
  | primaryDone => rfl
  | extra state =>
    simp only [startScreenRecordingStep, TimedMediaGrabber.callbackRoutine_snd,
      Pipeline.producerTick_recordingState]
    simp
  | extraDone => rfl
  | finished => rfl

/-- A consumer step never assigns the recording state. -/
theorem produceSegmentedVideosStep_recordingState (timeDifference : Int) (ph : ConsumerPhase)
    (p : Pipeline Frame) :
    (produceSegmentedVideosStep timeDifference ph p).2.impl.recordingState
      = p.impl.recordingState := by
  cases ph with
  | notLaunched => rfl
  | running =>
    simp only [produceSegmentedVideosStep, TimedMediaGrabber.callbackRoutine_snd,
      Pipeline.consumerTick_recordingState]
  | finished => rfl

end Impl

namespace Session

variable {Frame : Type}

/-- A step of the thread inside `start()` touches neither the controller nor
the watcher locals. -/
theorem mainStep_frame (setupOk : Bool) (c : Session Frame) :
    (c.mainStep setupOk).pipeline = c.pipeline ∧ (c.mainStep setupOk).locals = c.locals ∧
    (c.mainStep setupOk).watcher = c.watcher := by
  unfold mainStep
  split
  · split
    · exact ⟨rfl, rfl, rfl⟩
    · split <;> exact ⟨rfl, rfl, rfl⟩
  · split <;> exact ⟨rfl, rfl, rfl⟩
  · exact ⟨rfl, rfl, rfl⟩

/-- Every event either leaves the watcher locals and the recording state as
they are or acts on them as one of the operations of `StateWriter`. -/
theorem step_writer (c : Session Frame) (e : SessionEvent Frame) :
    ((c.step e).locals = c.locals ∧
      (c.step e).pipeline.impl.recordingState = c.pipeline.impl.recordingState) ∨
    ∃ op : StateWriter,
      (c.step e).locals = (op.apply c.locals c.pipeline.impl).1 ∧
      (c.step e).pipeline.impl.recordingState
        = (op.apply c.locals c.pipeline.impl).2.recordingState := by
  cases e with
  | watcherStep o =>
    simp only [step, watcherStep]
    cases hw : c.watcher with
    | looping => exact Or.inr ⟨StateWriter.commandTick o, rfl, rfl⟩
    | exiting => exact Or.inr ⟨StateWriter.commandExit, rfl, rfl⟩
    | returned => exact Or.inl ⟨rfl, rfl⟩
  | stop => exact Or.inr ⟨StateWriter.stop, rfl, rfl⟩
  | mainStep setupOk =>
    left
    have h := mainStep_frame setupOk c
    exact ⟨h.2.1, by rw [show c.step (SessionEvent.mainStep setupOk) = c.mainStep setupOk from rfl,
      h.1]⟩
  | producerStep src timeDifference =>
    by_cases hph : c.producer = ProducerPhase.extraDone
    · right
      refine ⟨StateWriter.startScreenRecordingFinish, rfl, ?_⟩
      show (Impl.startScreenRecordingStep src timeDifference c.producer
        c.pipeline).2.impl.recordingState = _
      rw [Impl.startScreenRecordingStep_recordingState, if_pos hph]
      rfl
    · left
      refine ⟨rfl, ?_⟩
      show (Impl.startScreenRecordingStep src timeDifference c.producer
        c.pipeline).2.impl.recordingState = _
      rw [Impl.startScreenRecordingStep_recordingState, if_neg hph]
  | consumerStep timeDifference =>
    left
    refine ⟨rfl, ?_⟩
    show (Impl.produceSegmentedVideosStep timeDifference c.consumer
      c.pipeline).2.impl.recordingState = _
    rw [Impl.produceSegmentedVideosStep_recordingState]

/-- No event assigns not-started. -/
theorem step_notStarted (c : Session Frame) (e : SessionEvent Frame)
    (h : (c.step e).pipeline.impl.recordingState
      = ScreenRecordingState.ScreenRecordingNotStarted) :
    c.pipeline.impl.recordingState = ScreenRecordingState.ScreenRecordingNotStarted := by
  rcases step_writer c e with ⟨_, hs⟩ | ⟨op, _, hs⟩
  · rw [← hs]
    exact h
  · rw [hs] at h
    exact StateWriter.notStarted_only_initially op _ _ h

/-- No event unsets the promise. -/
theorem step_pr (c : Session Frame) (e : SessionEvent Frame) (v : Bool)
    (h : c.locals.pr = some v) : (c.step e).locals.pr = some v := by
  rcases step_writer c e with ⟨hl, _⟩ | ⟨op, hl, _⟩
  · rw [hl]
    exact h
  · rw [hl]
    exact StateWriter.pr_stable op _ _ v h

/-- An event enters started only by resolving the unresolved promise to
start. -/
theorem step_started (c : Session Frame) (e : SessionEvent Frame)
    (h : (c.step e).pipeline.impl.recordingState = ScreenRecordingState.ScreenRecordingStarted)
    (hs : c.pipeline.impl.recordingState ≠ ScreenRecordingState.ScreenRecordingStarted) :
    c.locals.pr = none ∧ (c.step e).locals.pr = some true := by
  rcases step_writer c e with ⟨_, hst⟩ | ⟨op, hl, hst⟩
  · rw [hst] at h
    exact absurd h hs
  · rw [hst] at h
    rw [hl]
    exact StateWriter.started_entered op _ _ h hs

theorem run_notStarted (evs : List (SessionEvent Frame)) (c : Session Frame)
    (h : c.pipeline.impl.recordingState ≠ ScreenRecordingState.ScreenRecordingNotStarted) :
    (c.run evs).pipeline.impl.recordingState
      ≠ ScreenRecordingState.ScreenRecordingNotStarted := by
  induction evs generalizing c with
  | nil => exact h
  | cons e evs ih => exact ih (c.step e) (fun hn => h (step_notStarted c e hn))

theorem run_pr (evs : List (SessionEvent Frame)) (c : Session Frame) (v : Bool)
    (h : c.locals.pr = some v) : (c.run evs).locals.pr = some v := by
  induction evs generalizing c with
  | nil => exact h
  | cons e evs ih => exact ih (c.step e) (step_pr c e v h)

/-- While the recording state is started the promise holds a value. -/
theorem run_started_resolved (evs : List (SessionEvent Frame)) (c : Session Frame)
    (h : c.pipeline.impl.recordingState = ScreenRecordingState.ScreenRecordingStarted →
      c.locals.pr ≠ none) :
    (c.run evs).pipeline.impl.recordingState = ScreenRecordingState.ScreenRecordingStarted →
      (c.run evs).locals.pr ≠ none := by
  induction evs generalizing c with
  | nil => exact h
  | cons e evs ih =>
    apply ih (c.step e)
    intro hst
    by_cases hs : c.pipeline.impl.recordingState = ScreenRecordingState.ScreenRecordingStarted
    · cases hpr : c.locals.pr with
      | none => exact absurd hpr (h hs)
      | some v => simp [step_pr c e v hpr]
    · simp [(step_started c e hst hs).2]

/-- Once the promise holds a value, started is not entered again. -/
theorem run_not_started_again (evs : List (SessionEvent Frame)) (c : Session Frame)
    (hpr : c.locals.pr ≠ none)
    (hs : c.pipeline.impl.recordingState ≠ ScreenRecordingState.ScreenRecordingStarted) :
    (c.run evs).pipeline.impl.recordingState
      ≠ ScreenRecordingState.ScreenRecordingStarted := by
  induction evs generalizing c with
  | nil => exact hs
  | cons e evs ih =>
    have h1 : (c.step e).pipeline.impl.recordingState
        ≠ ScreenRecordingState.ScreenRecordingStarted :=
      fun hst => hpr (step_started c e hst hs).1
    have h2 : (c.step e).locals.pr ≠ none := by
      cases hv : c.locals.pr with
      | none => exact absurd hv hpr
      | some v => simp [step_pr c e v hv]
    exact ih (c.step e) h2 h1

end Session

/-- Claim C15. Within one session, started from a controller in state
not-started, no event assigns not-started: once the state has left
not-started it never is not-started again; and started is entered at most
once: in every trace, after a moment at which the state is started and a
later moment at which it is not, the state is never started again. -/
theorem Session.no_reentry {Frame : Type} (s : Impl Frame)
    (hs : s.recordingState = ScreenRecordingState.ScreenRecordingNotStarted)
    (evs1 evs2 evs3 : List (SessionEvent Frame)) :
    (∀ (c : Session Frame) (e : SessionEvent Frame),
      (c.step e).pipeline.impl.recordingState
          = ScreenRecordingState.ScreenRecordingNotStarted →
        c.pipeline.impl.recordingState = ScreenRecordingState.ScreenRecordingNotStarted) ∧
    (((Session.init s).run evs1).pipeline.impl.recordingState
        ≠ ScreenRecordingState.ScreenRecordingNotStarted →
      (((Session.init s).run evs1).run evs2).pipeline.impl.recordingState
        ≠ ScreenRecordingState.ScreenRecordingNotStarted) ∧
    (((Session.init s).run evs1).pipeline.impl.recordingState
        = ScreenRecordingState.ScreenRecordingStarted →
      (((Session.init s).run evs1).run evs2).pipeline.impl.recordingState
        ≠ ScreenRecordingState.ScreenRecordingStarted →
      ((((Session.init s).run evs1).run evs2).run evs3).pipeline.impl.recordingState
        ≠ ScreenRecordingState.ScreenRecordingStarted) := by
  refine ⟨Session.step_notStarted, Session.run_notStarted evs2 _, ?_⟩
  intro h1 h2
  have h0 : (Session.init s).pipeline.impl.recordingState
      = ScreenRecordingState.ScreenRecordingStarted → (Session.init s).locals.pr ≠ none := by
    intro h
    simp [Session.init, Pipeline.init, hs] at h
  have hpr1 := Session.run_started_resolved evs1 (Session.init s) h0 h1
  have hpr2 : (((Session.init s).run evs1).run evs2).locals.pr ≠ none := by
    cases hv : ((Session.init s).run evs1).locals.pr with
    | none => exact absurd hv hpr1
    | some v => simp [Session.run_pr evs2 _ v hv]
  exact Session.run_not_started_again evs3 _ hpr2 h2

/-- Instance of claim C15: StartRec, then `stop()`, then StartRec again: the
state is not started again. -/
theorem Session.no_reentry_witness :
    ((((Session.init (Impl.new "config.json" : Impl Nat)).run
          [SessionEvent.watcherStep
            { stCurrLocal := 1700000000, now := 1700000000250, line := some "StartRec" }]).run
        [SessionEvent.stop]).run
      [SessionEvent.watcherStep
        { stCurrLocal := 1700000001, now := 1700000001250, line := some "StartRec" }]
      ).pipeline.impl.recordingState ≠ ScreenRecordingState.ScreenRecordingStarted :=
  (Session.no_reentry (Impl.new "config.json" : Impl Nat) rfl
    [SessionEvent.watcherStep
      { stCurrLocal := 1700000000, now := 1700000000250, line := some "StartRec" }]
    [SessionEvent.stop]
    [SessionEvent.watcherStep
      { stCurrLocal := 1700000001, now := 1700000001250, line := some "StartRec" }]).2.2
    (by decide) (by decide)

/-- Claim C16 (as stated, refuted). Keep-alive 2 s.  The session is started by
StartRec; the producer captures frame 11 and the consumer forwards it; the
command file then stays untouched for 7 s and the watchdog sets the state to
terminated; the consumer finds the state terminated and the queue empty and
returns; the producer leaves its primary run, takes terminated as snapshot of
the extra run and captures frames 12 and 13 until 2 s have elapsed, then
returns.  Both threads have returned and `start()` returns true, but frames 12
and 13 are still queued and were never forwarded. -/
theorem Session.frames_lost_after_watchdog :
    (fun c : Session Nat =>
        (c.main, c.producer, c.consumer, c.pipeline.impl.screenDataList,
          c.pipeline.captured, c.pipeline.forwarded))
      ((Session.init
          ({ (Impl.new "config.json" : Impl Nat) with keepaliveFrequencyInSeconds := 2 })).run
        [SessionEvent.watcherStep
          { stCurrLocal := 1700000000, now := 1700000000250, line := some "StartRec" },
         SessionEvent.mainStep true,
         SessionEvent.producerStep 11 0,
         SessionEvent.producerStep 11 33,
         SessionEvent.consumerStep 33,
         SessionEvent.watcherStep
          { stCurrLocal := 1700000000, now := 1700000007000, line := some "StartRec" },
         SessionEvent.consumerStep 66,
         SessionEvent.producerStep 12 66,
         SessionEvent.producerStep 12 0,
         SessionEvent.producerStep 12 33,
         SessionEvent.producerStep 13 2000,
         SessionEvent.producerStep 14 0,
         SessionEvent.mainStep true])
      = (MainPhase.returned true, ProducerPhase.finished, ConsumerPhase.finished,
          [12, 13], [11, 12, 13], [11]) := by
  decide

/-! ## Helper lemmas for the drain property -/

namespace Impl

variable {Frame : Type}

/-- Setting the session state changes nothing of the controller but the
recording state. -/
theorem setScreenSessionState_impl (state : Bool) (w : CommandProcessing) (s : Impl Frame) :
    (setScreenSessionState state w s).2
      = { s with recordingState := (setScreenSessionState state w s).2.recordingState } := by
  unfold setScreenSessionState
  cases w.pr with
  | some v => rfl
  | none =>
    cases state with
    | true => rfl
    | false =>
      by_cases h : s.recordingState = ScreenRecordingState.ScreenRecordingNotStarted
      · simp [h]
      · simp [h]

/-- The reading part changes nothing of the controller but the recording
state. -/
theorem commandRead_impl (o : CommandFileObservation) (w : CommandProcessing) (s : Impl Frame) :
    (commandRead o w s).2.2
      = { s with recordingState := (commandRead o w s).2.2.recordingState } := by
  rcases commandRead_cases o w s with h | h | h | h
  · rw [h.2]
  · rw [h.2]
    exact setScreenSessionState_impl true w s
  · rw [h.2]
  · rw [h.2]

/-- A watcher iteration changes nothing of the controller but the recording
state. -/
theorem commandTick_impl (o : CommandFileObservation) (w : CommandProcessing) (s : Impl Frame) :
    (commandTick o w s).2.2
      = { s with recordingState := (commandTick o w s).2.2.recordingState } := by
  rcases commandTick_cases o w s with h | h | ⟨w2, _, _, h⟩
  · rw [h]
  · rw [h]
  · rw [h]
    exact commandRead_impl o w2 s

/-- A watcher iteration that leaves the loop leaves it with the state
terminated or about-to-stop. -/
theorem commandTick_breaks_state (o : CommandFileObservation) (w : CommandProcessing)
    (s : Impl Frame) (h : (commandTick o w s).1.breaks = true) :
    (commandTick o w s).2.2.recordingState ≠ ScreenRecordingState.ScreenRecordingNotStarted := by
  rw [commandTick_recordingState]
  cases hb : (commandTick o w s).1 <;> rw [hb] at h <;> simp [TickBranch.breaks] at h ⊢

/-- A watcher iteration assigns terminated only on the watchdog path. -/
theorem commandTick_terminated (o : CommandFileObservation) (w : CommandProcessing)
    (s : Impl Frame)
    (h : (commandTick o w s).2.2.recordingState = ScreenRecordingState.ScreenRecordingTerminated) :
    (commandTick o w s).1 = TickBranch.watchdog ∨
      s.recordingState = ScreenRecordingState.ScreenRecordingTerminated := by
  rw [commandTick_recordingState] at h
  cases hb : (commandTick o w s).1 <;> rw [hb] at h <;> simp at h
  · exact Or.inl rfl
  · exact Or.inr h
  · exact Or.inr h
  · split at h
    · simp at h
    · exact Or.inr h
  · exact Or.inr h

/-- The grabber of the consumer is unbounded and not yet signalled. -/
theorem consumerGrabber_spec (s : Impl Frame) :
    (consumerGrabber s).mediaCaptureDurationInSeconds = 0 ∧
    (consumerGrabber s).doneEvent = false := by
  simp [consumerGrabber, TimedMediaGrabber.new, TimedMediaGrabber.start,
    TimedMediaGrabber.setupMultimediaTimer, TimedMediaGrabber.setMediaCallbackType]

/-- A step of the running consumer: either the tick returned false, on a
terminated controller with an empty queue, and the consumer returns leaving
the pipeline as it is; or the tick returned true and the consumer keeps
running. -/
theorem produceSegmentedVideosStep_running (timeDifference : Int) (p : Pipeline Frame) :
    (produceSegmentedVideosStep timeDifference ConsumerPhase.running p
        = (ConsumerPhase.finished, p) ∧
      p.impl.recordingState = ScreenRecordingState.ScreenRecordingTerminated ∧
      p.impl.screenDataList = []) ∨
    produceSegmentedVideosStep timeDifference ConsumerPhase.running p
      = (ConsumerPhase.running, p.consumerTick.1) := by
  have hg := consumerGrabber_spec p.impl
  by_cases hr : p.consumerTick.2 = true
  · right
    simp [produceSegmentedVideosStep, TimedMediaGrabber.callbackRoutine, hr, hg.1, hg.2]
  · left
    have hr2 : (p.impl.consumerCallback).2.2 = false := by
      simpa [Pipeline.consumerTick] using hr
    have hq : p.impl.recordingState = ScreenRecordingState.ScreenRecordingTerminated ∧
        p.impl.screenDataList = [] := by
      revert hr2
      unfold consumerCallback isCaptureSessionRunning
      cases hq : p.impl.screenDataList with
      | nil =>
        by_cases hs : p.impl.recordingState = ScreenRecordingState.ScreenRecordingTerminated
        · simp [hs]
        · simp [hs]
      | cons src rest => simp
    refine ⟨?_, hq.1, hq.2⟩
    have hsame : p.consumerTick.1 = p := by
      simp [Pipeline.consumerTick, consumerCallback, isCaptureSessionRunning, hq.1, hq.2]
    have hr3 : p.consumerTick.2 = false := by simpa using hr
    simp [produceSegmentedVideosStep, TimedMediaGrabber.callbackRoutine, hr3, hsame,
      TimedMediaGrabber.signalCompletion]

/-- What a producer step does to the pipeline and to the control point. -/
theorem startScreenRecordingStep_cases (src : Frame) (timeDifference : Int)
    (ph : ProducerPhase) (p : Pipeline Frame) :
    ((ph = ProducerPhase.notLaunched ∨ ph = ProducerPhase.finished) ∧
      startScreenRecordingStep src timeDifference ph p = (ph, p)) ∨
    (ph = ProducerPhase.extraDone ∧
      startScreenRecordingStep src timeDifference ph p
        = (ProducerPhase.finished, { p with impl := p.impl.startScreenRecordingFinish })) ∨
    (ph ≠ ProducerPhase.notLaunched ∧ ph ≠ ProducerPhase.finished ∧
      ph ≠ ProducerPhase.extraDone ∧
      (startScreenRecordingStep src timeDifference ph p).1 ≠ ProducerPhase.notLaunched ∧
      (startScreenRecordingStep src timeDifference ph p).1 ≠ ProducerPhase.finished ∧
      ((startScreenRecordingStep src timeDifference ph p).2 = p ∨
        ∃ state, (startScreenRecordingStep src timeDifference ph p).2
          = (p.producerTick state src).1)) := by
  cases ph with
  | notLaunched => exact Or.inl ⟨Or.inl rfl, rfl⟩
  | finished => exact Or.inl ⟨Or.inr rfl, rfl⟩
  | extraDone => exact Or.inr (Or.inl ⟨rfl, rfl⟩)
  | entry =>
    refine Or.inr (Or.inr ⟨by simp, by simp, by simp, ?_, ?_, Or.inl rfl⟩) <;>
      simp [startScreenRecordingStep]
  | primaryDone =>
    refine Or.inr (Or.inr ⟨by simp, by simp, by simp, ?_, ?_, Or.inl rfl⟩) <;>
      simp [startScreenRecordingStep]
  | primary state =>
    refine Or.inr (Or.inr ⟨by simp, by simp, by simp, ?_, ?_, Or.inr ⟨state, ?_⟩⟩)
    · simp only [startScreenRecordingStep]
      split <;> simp
    · simp only [startScreenRecordingStep]
      split <;> simp
    · simp only [startScreenRecordingStep, TimedMediaGrabber.callbackRoutine_snd]
  | extra state =>
    refine Or.inr (Or.inr ⟨by simp, by simp, by simp, ?_, ?_, Or.inr ⟨state, ?_⟩⟩)
    · simp only [startScreenRecordingStep]
      split <;> simp
    · simp only [startScreenRecordingStep]
      split <;> simp
    · simp only [startScreenRecordingStep, TimedMediaGrabber.callbackRoutine_snd]

end Impl

namespace Session

variable {Frame : Type}

theorem safe_init (s : Impl Frame)
    (hs : s.recordingState ≠ ScreenRecordingState.ScreenRecordingTerminated)
    (hq : s.screenDataList = []) :
    Safe (Impl.CommandProcessing.entry s).maxWaitTime (init s) := by
  refine ⟨?_, rfl, ?_, ?_, ?_, ?_, ?_⟩
  · simp [Pipeline.Fifo, init, Pipeline.init, hq]
  · intro h
    simp [init] at h
  · intro h
    exact absurd h hs
  · intro h
    simp [init] at h
  · intro _
    exact ⟨rfl, rfl⟩
  · intro h
    simp [init] at h

theorem safe_watcherStep (maxWaitTime : Int) (c : Session Frame)
    (o : Impl.CommandFileObservation) (h : Safe maxWaitTime c)
    (hw : ¬ (maxWaitTime > 0 ∧
      Impl.shouldCaptureSessionContinue maxWaitTime o.now o.stCurrLocal = false)) :
    Safe maxWaitTime (c.watcherStep o) := by
  obtain ⟨h1, h2, h3, h4, h5, h6, h7⟩ := h
  unfold watcherStep
  cases hph : c.watcher with
  | returned => exact ⟨h1, h2, h3, h4, h5, h6, h7⟩
  | looping =>
    have himpl := Impl.commandTick_impl o c.locals c.pipeline.impl
    have hq : (Impl.commandTick o c.locals c.pipeline.impl).2.2.screenDataList
        = c.pipeline.impl.screenDataList := by
      rw [himpl]
    refine ⟨?_, ?_, ?_, ?_, ?_, h6, h7⟩
    · show c.pipeline.forwarded ++
        (Impl.commandTick o c.locals c.pipeline.impl).2.2.screenDataList = c.pipeline.captured
      rw [hq]
      exact h1
    · exact (Impl.commandTick_maxWaitTime o c.locals c.pipeline.impl).trans h2
    · intro hne
      have hb : (Impl.commandTick o c.locals c.pipeline.impl).1.breaks = true := by
        by_contra hc
        simp [hc] at hne
      exact Impl.commandTick_breaks_state o c.locals c.pipeline.impl hb
    · intro ht
      rcases Impl.commandTick_terminated o c.locals c.pipeline.impl ht with hb | hb
      · exfalso
        apply hw
        have := (Impl.commandTick_watchdog_iff o c.locals c.pipeline.impl).1 hb
        rw [h2] at this
        exact this
      · exact h4 hb
    · intro hc
      refine ⟨(h5 hc).1, ?_⟩
      show (Impl.commandTick o c.locals c.pipeline.impl).2.2.screenDataList = []
      rw [hq]
      exact (h5 hc).2
  | exiting =>
    have hne : c.pipeline.impl.recordingState
        ≠ ScreenRecordingState.ScreenRecordingNotStarted := h3 (by simp [hph])
    have hst : (Impl.setScreenSessionState false c.locals c.pipeline.impl).2.recordingState
        = c.pipeline.impl.recordingState := by
      rw [Impl.setScreenSessionState_false_state]
      simp [hne]
    have himpl : (Impl.setScreenSessionState false c.locals c.pipeline.impl).2
        = c.pipeline.impl := by
      rw [Impl.setScreenSessionState_impl, hst]
    refine ⟨?_, ?_, ?_, ?_, ?_, h6, h7⟩
    · show c.pipeline.forwarded ++
        (Impl.setScreenSessionState false c.locals c.pipeline.impl).2.screenDataList
          = c.pipeline.captured
      rw [himpl]
      exact h1
    · exact (Impl.setScreenSessionState_maxWaitTime false c.locals c.pipeline.impl).trans h2
    · intro _
      show (Impl.setScreenSessionState false c.locals c.pipeline.impl).2.recordingState ≠ _
      rw [hst]
      exact hne
    · intro ht
      apply h4
      rw [← hst]
      exact ht
    · intro hc
      refine ⟨(h5 hc).1, ?_⟩
      show (Impl.setScreenSessionState false c.locals c.pipeline.impl).2.screenDataList = []
      rw [himpl]
      exact (h5 hc).2

theorem safe_stop (maxWaitTime : Int) (c : Session Frame) (h : Safe maxWaitTime c) :
    Safe maxWaitTime (c.step SessionEvent.stop) := by
  obtain ⟨h1, h2, h3, h4, h5, h6, h7⟩ := h
  refine ⟨h1, h2, ?_, ?_, h5, h6, h7⟩
  · intro _
    simp [step, Impl.stop]
  · intro ht
    simp [step, Impl.stop] at ht

theorem safe_mainStep (maxWaitTime : Int) (c : Session Frame) (setupOk : Bool)
    (h : Safe maxWaitTime c) : Safe maxWaitTime (c.mainStep setupOk) := by
  obtain ⟨h1, h2, h3, h4, h5, h6, h7⟩ := h
  unfold mainStep
  cases hm : c.main with
  | returned b =>
    exact ⟨h1, h2, h3, h4, h5, h6, h7⟩
  | joining =>
    by_cases hj : c.producer = ProducerPhase.finished ∧ c.consumer = ConsumerPhase.finished
    · simp only [if_pos hj]
      refine ⟨h1, h2, h3, h4, h5, ?_, ?_⟩
      · intro hc
        simp at hc
      · intro _
        exact hj.2
    · simp only [if_neg hj]
      exact ⟨h1, h2, h3, h4, h5, h6, h7⟩
  | waiting =>
    have hnl := h6 hm
    cases hpr : c.locals.pr with
    | none => exact ⟨h1, h2, h3, h4, h5, h6, h7⟩
    | some recordingSet =>
      simp only
      by_cases hl : (Impl.start recordingSet setupOk).launched = true
      · simp only [hl, if_true]
        refine ⟨h1, h2, h3, ?_, ?_, ?_, ?_⟩
        · intro ht
          have := h4 ht
          rw [hnl.1] at this
          simp at this
        · intro hc
          simp at hc
        · intro hc
          simp at hc
        · intro hc
          simp at hc
      · simp only [hl, if_false]
        refine ⟨h1, h2, h3, h4, h5, ?_, ?_⟩
        · intro hc
          simp at hc
        · intro hc
          exfalso
          have hret : (Impl.start recordingSet setupOk).returned = true := by
            simpa using hc
          revert hl hret
          cases recordingSet <;> cases setupOk <;> decide

theorem safe_producerStep (maxWaitTime : Int) (c : Session Frame) (src : Frame)
    (timeDifference : Int) (h : Safe maxWaitTime c) :
    Safe maxWaitTime (c.step (SessionEvent.producerStep src timeDifference)) := by
  obtain ⟨h1, h2, h3, h4, h5, h6, h7⟩ := h
  simp only [step]
  rcases Impl.startScreenRecordingStep_cases src timeDifference c.producer c.pipeline with
    ⟨_, hr⟩ | ⟨hph, hr⟩ | ⟨hn1, hn2, hn3, hr1, hr2, hr3⟩
  · rw [hr]
    exact ⟨h1, h2, h3, h4, h5, h6, h7⟩
  · rw [hr]
    have hcons : c.consumer ≠ ConsumerPhase.finished := by
      intro hc
      have := (h5 hc).1
      rw [hph] at this
      simp at this
    refine ⟨h1, h2, ?_, ?_, ?_, ?_, ?_⟩
    · intro _
      simp [Impl.startScreenRecordingFinish]
    · intro _
      rfl
    · intro hc
      exact absurd hc hcons
    · intro hm
      have := (h6 hm).1
      rw [hph] at this
      simp at this
    · intro hm
      exact absurd (h7 hm) hcons
  · have hcons : c.consumer ≠ ConsumerPhase.finished := fun hc => hn2 (h5 hc).1
    have hstate : (Impl.startScreenRecordingStep src timeDifference c.producer
        c.pipeline).2.impl.recordingState = c.pipeline.impl.recordingState := by
      rw [Impl.startScreenRecordingStep_recordingState, if_neg hn3]
    refine ⟨?_, h2, ?_, ?_, ?_, ?_, ?_⟩
    · rcases hr3 with hr3 | ⟨state, hr3⟩
      · rw [hr3]
        exact h1
      · rw [hr3]
        exact Pipeline.fifo_step c.pipeline (PipelineEvent.producerTick state src) h1
    · intro hne
      show (Impl.startScreenRecordingStep src timeDifference c.producer
        c.pipeline).2.impl.recordingState ≠ _
      rw [hstate]
      exact h3 hne
    · intro ht
      exfalso
      have ht2 : (Impl.startScreenRecordingStep src timeDifference c.producer
          c.pipeline).2.impl.recordingState
            = ScreenRecordingState.ScreenRecordingTerminated := ht
      rw [hstate] at ht2
      exact hn2 (h4 ht2)
    · intro hc
      exact absurd hc hcons
    · intro hm
      exact absurd (h6 hm).1 hn1
    · intro hm
      exact absurd (h7 hm) hcons

theorem safe_consumerStep (maxWaitTime : Int) (c : Session Frame) (timeDifference : Int)
    (h : Safe maxWaitTime c) :
    Safe maxWaitTime (c.step (SessionEvent.consumerStep timeDifference)) := by
  obtain ⟨h1, h2, h3, h4, h5, h6, h7⟩ := h
  simp only [step]
  cases hph : c.consumer with
  | notLaunched =>
    have hr : Impl.produceSegmentedVideosStep timeDifference ConsumerPhase.notLaunched
        c.pipeline = (ConsumerPhase.notLaunched, c.pipeline) := rfl
    rw [hr]
    refine ⟨h1, h2, h3, h4, ?_, ?_, ?_⟩
    · intro hc
      simp at hc
    · intro hm
      exact ⟨(h6 hm).1, rfl⟩
    · intro hm
      have := h7 hm
      rw [hph] at this
      simp at this
  | finished =>
    have hr : Impl.produceSegmentedVideosStep timeDifference ConsumerPhase.finished
        c.pipeline = (ConsumerPhase.finished, c.pipeline) := rfl
    rw [hr]
    refine ⟨h1, h2, h3, h4, ?_, ?_, ?_⟩
    · intro _
      exact h5 hph
    · intro hm
      have := (h6 hm).2
      rw [hph] at this
      simp at this
    · intro _
      rfl
  | running =>
    have hmain : c.main ≠ MainPhase.waiting := by
      intro hm
      have := (h6 hm).2
      rw [hph] at this
      simp at this
    have hmain2 : c.main ≠ MainPhase.returned true := by
      intro hm
      have := h7 hm
      rw [hph] at this
      simp at this
    rcases Impl.produceSegmentedVideosStep_running timeDifference c.pipeline with
      ⟨hr, hst, hq⟩ | hr
    · rw [hr]
      refine ⟨h1, h2, h3, h4, ?_, ?_, ?_⟩
      · intro _
        exact ⟨h4 hst, hq⟩
      · intro hm
        exact absurd hm hmain
      · intro _
        rfl
    · rw [hr]
      refine ⟨?_, h2, ?_, ?_, ?_, ?_, ?_⟩
      · exact Pipeline.fifo_step c.pipeline PipelineEvent.consumerTick h1
      · intro hne
        show c.pipeline.consumerTick.1.impl.recordingState ≠ _
        rw [Pipeline.consumerTick_recordingState]
        exact h3 hne
      · intro ht
        apply h4
        rw [← Pipeline.consumerTick_recordingState]
        exact ht
      · intro hc
        simp at hc
      · intro hm
        exact absurd hm hmain
      · intro hm
        exact absurd hm hmain2

/-- The invariant is kept by every event on which the watchdog does not
fire. -/
theorem safe_step (maxWaitTime : Int) (c : Session Frame) (e : SessionEvent Frame)
    (h : Safe maxWaitTime c) (hw : NoWatchdog maxWaitTime e) :
    Safe maxWaitTime (c.step e) := by
  cases e with
  | watcherStep o => exact safe_watcherStep maxWaitTime c o h hw
  | stop => exact safe_stop maxWaitTime c h
  | mainStep setupOk => exact safe_mainStep maxWaitTime c setupOk h
  | producerStep src timeDifference => exact safe_producerStep maxWaitTime c src timeDifference h
  | consumerStep timeDifference => exact safe_consumerStep maxWaitTime c timeDifference h

theorem safe_run (maxWaitTime : Int) (evs : List (SessionEvent Frame)) (c : Session Frame)
    (h : Safe maxWaitTime c) (hw : ∀ e ∈ evs, NoWatchdog maxWaitTime e) :
    Safe maxWaitTime (c.run evs) := by
  induction evs generalizing c with
  | nil => exact h
  | cons e evs ih =>
    exact ih (c.step e) (safe_step maxWaitTime c e h (hw e (List.mem_cons_self _ _)))
      (fun e2 he2 => hw e2 (List.mem_cons_of_mem _ he2))

end Session

/-- With `maxWaitTime ≤ 0` the watchdog fires on no event. -/
theorem Session.noWatchdog_of_disabled {Frame : Type} (maxWaitTime : Int)
    (h : maxWaitTime ≤ 0) (e : SessionEvent Frame) : Session.NoWatchdog maxWaitTime e := by
  cases e with
  | watcherStep o =>
    simp only [Session.NoWatchdog]
    intro hc
    omega
  | stop => trivial
  | mainStep setupOk => trivial
  | producerStep src timeDifference => trivial
  | consumerStep timeDifference => trivial

/-- Claim C16 (amended). No captured frame is lost at shutdown when the
watchdog does not fire: in every execution of a session, started on a
controller that is not terminated and has an empty queue, in which the
watchdog is disabled (keep-alive 0) or fires on no step of the watcher, once
the consumer loop has finished the producer routine has finished, the frame
queue is empty and the frames forwarded to the sink are exactly the frames the
producer appended, in order; this holds in particular once `start()` has
returned true, which happens only after both have finished. -/
theorem Session.no_frame_lost {Frame : Type} (s : Impl Frame)
    (hs : s.recordingState ≠ ScreenRecordingState.ScreenRecordingTerminated)
    (hq : s.screenDataList = []) (evs : List (SessionEvent Frame))
    (hw : s.keepaliveFrequencyInSeconds = 0 ∨
      ∀ e ∈ evs, Session.NoWatchdog (Impl.CommandProcessing.entry s).maxWaitTime e) :
    (((Session.init s).run evs).consumer = ConsumerPhase.finished →
      ((Session.init s).run evs).producer = ProducerPhase.finished ∧
      ((Session.init s).run evs).pipeline.impl.screenDataList = [] ∧
      ((Session.init s).run evs).pipeline.forwarded
        = ((Session.init s).run evs).pipeline.captured) ∧
    (((Session.init s).run evs).main = MainPhase.returned true →
      ((Session.init s).run evs).producer = ProducerPhase.finished ∧
      ((Session.init s).run evs).consumer = ConsumerPhase.finished ∧
      ((Session.init s).run evs).pipeline.impl.screenDataList = [] ∧
      ((Session.init s).run evs).pipeline.forwarded
        = ((Session.init s).run evs).pipeline.captured) := by
  have hw2 : ∀ e ∈ evs, Session.NoWatchdog (Impl.CommandProcessing.entry s).maxWaitTime e := by
    rcases hw with hk | hw
    · intro e _
      apply Session.noWatchdog_of_disabled
      simp [Impl.CommandProcessing.entry, hk, wrapInt32]
    · exact hw
  obtain ⟨h1, _, _, _, h5, _, h7⟩ :=
    Session.safe_run _ evs (Session.init s) (Session.safe_init s hs hq) hw2
  have hcons : ((Session.init s).run evs).consumer = ConsumerPhase.finished →
      ((Session.init s).run evs).producer = ProducerPhase.finished ∧
      ((Session.init s).run evs).pipeline.impl.screenDataList = [] ∧
      ((Session.init s).run evs).pipeline.forwarded
        = ((Session.init s).run evs).pipeline.captured := by
    intro hc
    obtain ⟨hp, hq2⟩ := h5 hc
    refine ⟨hp, hq2, ?_⟩
    unfold Pipeline.Fifo at h1
    rw [hq2] at h1
    simpa using h1
  refine ⟨hcons, ?_⟩
  intro hm
  have hc := h7 hm
  obtain ⟨hp, hq2, hf⟩ := hcons hc
  exact ⟨hp, hc, hq2, hf⟩

/-- Instance of the amended claim C16: keep-alive 0, StartRec, three frames
captured around a StopRec, the last two in the extra run; when `start()`
returns true, all three have been forwarded. -/
theorem Session.no_frame_lost_witness :
    ((Session.init (Impl.new "config.json" : Impl Nat)).run
        [SessionEvent.watcherStep
          { stCurrLocal := 1700000000, now := 1700000000250, line := some "StartRec" },
         SessionEvent.mainStep true,
         SessionEvent.producerStep 11 0,
         SessionEvent.producerStep 11 33,
         SessionEvent.watcherStep
          { stCurrLocal := 1700000002, now := 1700000002250, line := some "StopRec" },
         SessionEvent.producerStep 12 66,
         SessionEvent.producerStep 12 0,
         SessionEvent.producerStep 12 33,
         SessionEvent.consumerStep 33,
         SessionEvent.producerStep 13 2000,
         SessionEvent.producerStep 14 0,
         SessionEvent.consumerStep 66,
         SessionEvent.consumerStep 99,
         SessionEvent.consumerStep 132,
         SessionEvent.mainStep true]).pipeline.forwarded
      = ((Session.init (Impl.new "config.json" : Impl Nat)).run
        [SessionEvent.watcherStep
          { stCurrLocal := 1700000000, now := 1700000000250, line := some "StartRec" },
         SessionEvent.mainStep true,
         SessionEvent.producerStep 11 0,
         SessionEvent.producerStep 11 33,
         SessionEvent.watcherStep
          { stCurrLocal := 1700000002, now := 1700000002250, line := some "StopRec" },
         SessionEvent.producerStep 12 66,
         SessionEvent.producerStep 12 0,
         SessionEvent.producerStep 12 33,
         SessionEvent.consumerStep 33,
         SessionEvent.producerStep 13 2000,
         SessionEvent.producerStep 14 0,
         SessionEvent.consumerStep 66,
         SessionEvent.consumerStep 99,
         SessionEvent.consumerStep 132,
         SessionEvent.mainStep true]).pipeline.captured :=
  ((Session.no_frame_lost (Impl.new "config.json" : Impl Nat) (by decide) rfl _
      (Or.inl rfl)).2 (by decide)).2.2.2

/-! ## Helper lemmas on the producer routine -/

namespace Impl

variable {Frame : Type}

/-- The grabber of the extra run is bounded by `kExtraCaptureDuration` and not
yet signalled. -/
theorem extraGrabber_spec (s : Impl Frame) :
    (extraGrabber s).mediaCaptureDurationInSeconds = kExtraCaptureDuration ∧
    (extraGrabber s).doneEvent = false := by
  simp [extraGrabber, TimedMediaGrabber.new, TimedMediaGrabber.start,
    TimedMediaGrabber.setupMultimediaTimer]

/-- The grabber of the primary run is unbounded and not yet signalled. -/
theorem primaryGrabber_spec (s : Impl Frame) :
    (primaryGrabber s).mediaCaptureDurationInSeconds = 0 ∧
    (primaryGrabber s).doneEvent = false := by
  simp [primaryGrabber, TimedMediaGrabber.new, TimedMediaGrabber.start,
    TimedMediaGrabber.setupMultimediaTimer]

/-- Signalling completion sets the done event. -/
theorem signalCompletion_doneEvent (g : TimedMediaGrabber) :
    g.signalCompletion.doneEvent = true := by
  simp [TimedMediaGrabber.signalCompletion]

/-- An invocation on the extra grabber after `kExtraCaptureDuration` seconds
signals completion whatever the callback returns. -/
theorem extra_run_bounded (state : ScreenRecordingState) (src : Frame) (timeDifference : Int)
    (p : Pipeline Frame) (h : timeDifference ≥ kExtraCaptureDuration * 1000) :
    (TimedMediaGrabber.callbackRoutine (Pipeline.producerTick state src) timeDifference
      (extraGrabber p.impl) p).1.doneEvent = true := by
  have hg := extraGrabber_spec p.impl
  have hk : wrapInt32 (kExtraCaptureDuration * 1000) = kExtraCaptureDuration * 1000 := by
    decide
  simp only [TimedMediaGrabber.callbackRoutine]
  by_cases h1 : (!(p.producerTick state src).2) = true
  · rw [if_pos h1]
    exact signalCompletion_doneEvent _
  · rw [if_neg h1, hg.1, if_pos (by decide), hk, if_pos h]
    exact signalCompletion_doneEvent _

/-- An invocation on the primary grabber signals completion exactly when the
producer tick returns false. -/
theorem primary_run_done (state : ScreenRecordingState) (src : Frame) (timeDifference : Int)
    (p : Pipeline Frame) :
    (TimedMediaGrabber.callbackRoutine (Pipeline.producerTick state src) timeDifference
      (primaryGrabber p.impl) p).1.doneEvent = !(p.producerTick state src).2 := by
  have hg := primaryGrabber_spec p.impl
  simp only [TimedMediaGrabber.callbackRoutine]
  by_cases h1 : (!(p.producerTick state src).2) = true
  · rw [if_pos h1, signalCompletion_doneEvent, h1]
  · rw [if_neg h1, hg.1, if_neg (by decide), hg.2]
    simpa using h1

/-- The routine returns only in state terminated. -/
theorem startScreenRecording_terminated
    (items : List (Option ScreenRecordingState × Frame × Int)) (ph : ProducerPhase)
    (p : Pipeline Frame)
    (hfin : ph = ProducerPhase.finished →
      p.impl.recordingState = ScreenRecordingState.ScreenRecordingTerminated)
    (r : Pipeline Frame) (hr : startScreenRecording items ph p = some r) :
    r.impl.recordingState = ScreenRecordingState.ScreenRecordingTerminated := by
  induction items generalizing ph p with
  | nil =>
    simp only [startScreenRecording] at hr
    split at hr
    · rename_i hph
      cases hr
      exact hfin hph
    · simp at hr
  | cons item rest ih =>
    simp only [startScreenRecording] at hr
    split at hr
    · rename_i hph
      cases hr
      exact hfin hph
    · rename_i hph
      apply ih _ _ _ hr
      intro hnext
      rw [startScreenRecordingStep_recordingState]
      rcases startScreenRecordingStep_cases item.2.1 item.2.2 ph
          (match item.1 with
            | some st => { p with impl := { p.impl with recordingState := st } }
            | none => p) with
        ⟨hc, _⟩ | ⟨hc, _⟩ | ⟨_, _, _, _, hc, _⟩
      · rcases hc with hc | hc
        · rw [hc] at hnext
          simp [startScreenRecordingStep] at hnext
        · exact absurd hc hph
      · rw [if_pos hc]
      · exact absurd hnext hc

/-- A primary tick on a state that differs from the snapshot ends the primary
run and leaves the pipeline as it is. -/
theorem startScreenRecordingStep_primary_diverged (state : ScreenRecordingState) (src : Frame)
    (timeDifference : Int) (p : Pipeline Frame) (h : p.impl.recordingState ≠ state) :
    startScreenRecordingStep src timeDifference (ProducerPhase.primary state) p
      = (ProducerPhase.primaryDone, p) := by
  have ht : p.producerTick state src = (p, false) := by
    simp [Pipeline.producerTick, screenGrabAndEncodeFrame, h]
  simp only [startScreenRecordingStep, primary_run_done, TimedMediaGrabber.callbackRoutine_snd,
    ht]
  simp

/-- An extra tick after the bound ends the extra run. -/
theorem startScreenRecordingStep_extra_elapsed (state : ScreenRecordingState) (src : Frame)
    (timeDifference : Int) (p : Pipeline Frame)
    (h : timeDifference ≥ kExtraCaptureDuration * 1000) :
    startScreenRecordingStep src timeDifference (ProducerPhase.extra state) p
      = (ProducerPhase.extraDone, (p.producerTick state src).1) := by
  simp only [startScreenRecordingStep, extra_run_bounded state src timeDifference p h,
    TimedMediaGrabber.callbackRoutine_snd]
  simp

/-- Unfolding of the routine on a schedule item without a foreign write. -/
theorem startScreenRecording_cons_none (src : Frame) (timeDifference : Int)
    (rest : List (Option ScreenRecordingState × Frame × Int)) (ph : ProducerPhase)
    (p : Pipeline Frame) (h : ph ≠ ProducerPhase.finished) :
    startScreenRecording ((none, src, timeDifference) :: rest) ph p
      = startScreenRecording rest (startScreenRecordingStep src timeDifference ph p).1
          (startScreenRecordingStep src timeDifference ph p).2 := by
  simp [startScreenRecording, h]

/-- Unfolding of the routine on a schedule item with a foreign write. -/
theorem startScreenRecording_cons_some (st : ScreenRecordingState) (src : Frame)
    (timeDifference : Int) (rest : List (Option ScreenRecordingState × Frame × Int))
    (ph : ProducerPhase) (p : Pipeline Frame) (h : ph ≠ ProducerPhase.finished) :
    startScreenRecording ((some st, src, timeDifference) :: rest) ph p
      = startScreenRecording rest
          (startScreenRecordingStep src timeDifference ph
            { p with impl := { p.impl with recordingState := st } }).1
          (startScreenRecordingStep src timeDifference ph
            { p with impl := { p.impl with recordingState := st } }).2 := by
  simp [startScreenRecording, h]

end Impl

/-- Claim C17. Shutdown compensation ordering in `startScreenRecording`: a
step of the producer routine changes the recording state only as its last
action, the step after the extra scheduler run has completed, and that step
assigns terminated and nothing else; the routine reaches that point only from
the extra run, the extra run starts only from the point after the primary run
has completed, with the state read at that moment as snapshot; the extra
grabber is constructed with `kExtraCaptureDuration = 2` seconds and completes
at the latest on the first invocation 2000 ms after its start; once returned,
the routine does nothing more.  Whenever the routine returns, the state is
terminated, and for every entry state it does return on a schedule in which
another thread changes the state during the primary run. -/
theorem Impl.startScreenRecording_ordering {Frame : Type} (src : Frame)
    (timeDifference : Int) (ph : ProducerPhase) (p : Pipeline Frame) :
    ((Impl.startScreenRecordingStep src timeDifference ph p).2.impl.recordingState
        ≠ p.impl.recordingState → ph = ProducerPhase.extraDone) ∧
    (ph = ProducerPhase.extraDone →
      Impl.startScreenRecordingStep src timeDifference ph p
        = (ProducerPhase.finished,
            { p with impl := { p.impl with
                recordingState := ScreenRecordingState.ScreenRecordingTerminated } })) ∧
    ((Impl.startScreenRecordingStep src timeDifference ph p).1 = ProducerPhase.finished →
      ph = ProducerPhase.extraDone ∨ ph = ProducerPhase.finished) ∧
    ((Impl.startScreenRecordingStep src timeDifference ph p).1 = ProducerPhase.extraDone →
      ∃ state, ph = ProducerPhase.extra state) ∧
    (∀ state, (Impl.startScreenRecordingStep src timeDifference ph p).1
        = ProducerPhase.extra state →
      (ph = ProducerPhase.primaryDone ∧ state = p.impl.recordingState) ∨
        ph = ProducerPhase.extra state) ∧
    ((Impl.startScreenRecordingStep src timeDifference ph p).1 = ProducerPhase.primaryDone →
      ∃ state, ph = ProducerPhase.primary state) ∧
    ((Impl.extraGrabber p.impl).mediaCaptureDurationInSeconds = 2 ∧
      ∀ state, ph = ProducerPhase.extra state → timeDifference ≥ 2 * 1000 →
        (Impl.startScreenRecordingStep src timeDifference ph p).1 = ProducerPhase.extraDone) ∧
    (ph = ProducerPhase.finished →
      Impl.startScreenRecordingStep src timeDifference ph p = (ProducerPhase.finished, p)) ∧
    (∀ items r, Impl.startScreenRecording items ProducerPhase.entry p = some r →
      r.impl.recordingState = ScreenRecordingState.ScreenRecordingTerminated) ∧
    (∀ st, st ≠ p.impl.recordingState →
      (Impl.startScreenRecording
          [(none, src, 0), (some st, src, 33), (none, src, 0), (none, src, 2000),
            (none, src, 0)] ProducerPhase.entry p).map
        (fun r => (r.impl.recordingState, r.captured, r.impl.screenDataList))
        = some (ScreenRecordingState.ScreenRecordingTerminated, p.captured ++ [src],
            p.impl.screenDataList ++ [src])) := by
  refine ⟨?_, ?_, ?_, ?_, ?_, ?_, ⟨(Impl.extraGrabber_spec p.impl).1, ?_⟩, ?_, ?_, ?_⟩
  · intro h
    by_contra hc
    rw [Impl.startScreenRecordingStep_recordingState, if_neg hc] at h
    exact h rfl
  · intro h
    subst h
    rfl
  · intro h
    cases ph with
    | extraDone => exact Or.inl rfl
    | finished => exact Or.inr rfl
    | notLaunched => simp [Impl.startScreenRecordingStep] at h
    | entry => simp [Impl.startScreenRecordingStep] at h
    | primaryDone => simp [Impl.startScreenRecordingStep] at h
    | primary state =>
      simp only [Impl.startScreenRecordingStep] at h
      split at h <;> simp at h
    | extra state =>
      simp only [Impl.startScreenRecordingStep] at h
      split at h <;> simp at h
  · intro h
    cases ph with
    | extra state => exact ⟨state, rfl⟩
    | extraDone => simp [Impl.startScreenRecordingStep] at h
    | finished => simp [Impl.startScreenRecordingStep] at h
    | notLaunched => simp [Impl.startScreenRecordingStep] at h
    | entry => simp [Impl.startScreenRecordingStep] at h
    | primaryDone => simp [Impl.startScreenRecordingStep] at h
    | primary state =>
      simp only [Impl.startScreenRecordingStep] at h
      split at h <;> simp at h
  · intro state h
    cases ph with
    | extra state2 =>
      right
      simp only [Impl.startScreenRecordingStep] at h
      split at h
      · simp at h
      · simpa using h
    | primaryDone =>
      left
      simp only [Impl.startScreenRecordingStep] at h
      refine ⟨rfl, ?_⟩
      simpa using h.symm
    | extraDone => simp [Impl.startScreenRecordingStep] at h
    | finished => simp [Impl.startScreenRecordingStep] at h
    | notLaunched => simp [Impl.startScreenRecordingStep] at h
    | entry => simp [Impl.startScreenRecordingStep] at h
    | primary state2 =>
      simp only [Impl.startScreenRecordingStep] at h
      split at h <;> simp at h
  · intro h
    cases ph with
    | primary state => exact ⟨state, rfl⟩
    | extraDone => simp [Impl.startScreenRecordingStep] at h
    | finished => simp [Impl.startScreenRecordingStep] at h
    | notLaunched => simp [Impl.startScreenRecordingStep] at h
    | entry => simp [Impl.startScreenRecordingStep] at h
    | primaryDone => simp [Impl.startScreenRecordingStep] at h
    | extra state =>
      simp only [Impl.startScreenRecordingStep] at h
      split at h <;> simp at h
  · intro state hph htd
    subst hph
    simp only [Impl.startScreenRecordingStep]
    rw [Impl.extra_run_bounded state src timeDifference p (by
      simpa [kExtraCaptureDuration] using htd)]
    rfl
  · intro h
    subst h
    rfl
  · intro items r hr
    exact Impl.startScreenRecording_terminated items ProducerPhase.entry p (by simp) r hr
  · intro st hst
    rw [Impl.startScreenRecording_cons_none src 0 _ _ p (by simp)]
    have e1 : Impl.startScreenRecordingStep src 0 ProducerPhase.entry p
        = (ProducerPhase.primary p.impl.recordingState, p) := rfl
    rw [e1, Impl.startScreenRecording_cons_some st src 33 _ _ p (by simp),
      Impl.startScreenRecordingStep_primary_diverged p.impl.recordingState src 33 _ hst,
      Impl.startScreenRecording_cons_none src 0 _ _ _ (by simp)]
    have e3 : Impl.startScreenRecordingStep src 0 ProducerPhase.primaryDone
        ({ p with impl := { p.impl with recordingState := st } } : Pipeline Frame)
        = (ProducerPhase.extra st, { p with impl := { p.impl with recordingState := st } }) :=
      rfl
    rw [e3, Impl.startScreenRecording_cons_none src 2000 _ _ _ (by simp),
      Impl.startScreenRecordingStep_extra_elapsed st src 2000 _ (by decide),
      Impl.startScreenRecording_cons_none src 0 _ _ _ (by simp)]
    simp [Impl.startScreenRecording, Impl.startScreenRecordingStep, Pipeline.producerTick,
      Impl.screenGrabAndEncodeFrame, Impl.startScreenRecordingFinish]

/-- Instance of claim C17: the routine entered in state not-started, with a
`stop()` landing during the primary run, captures frame 7 in the extra run and
returns in state terminated. -/
theorem Impl.startScreenRecording_ordering_witness :
    (Impl.startScreenRecording
        [(none, 7, 0), (some ScreenRecordingState.ScreenRecordingAboutToStop, 7, 33),
          (none, 7, 0), (none, 7, 2000), (none, 7, 0)]
        ProducerPhase.entry (Pipeline.init (Impl.new "config.json" : Impl Nat))).map
      (fun r => (r.impl.recordingState, r.captured, r.impl.screenDataList))
      = some (ScreenRecordingState.ScreenRecordingTerminated,
          (Pipeline.init (Impl.new "config.json" : Impl Nat)).captured ++ [7],
          (Pipeline.init (Impl.new "config.json" : Impl Nat)).impl.screenDataList ++ [7]) :=
  (Impl.startScreenRecording_ordering 7 0 ProducerPhase.entry
    (Pipeline.init (Impl.new "config.json" : Impl Nat))).2.2.2.2.2.2.2.2.2
    ScreenRecordingState.ScreenRecordingAboutToStop (by decide)

/-- Claim C18 (as stated, refuted). Keep-alive 2 s, command file missing: the
stat fails, `getLastWriteTime` returns 0, the file cannot be opened.  The
iteration takes the watchdog path, sets the state to terminated and leaves the
loop, and the closing call resolves the decision to false. -/
theorem Impl.missing_command_file_is_fatal :
    (Impl.commandTick { stCurrLocal := 0, now := 1700000000250, line := none }
        (Impl.CommandProcessing.entry
          ({ (Impl.new "config.json" : Impl Nat) with keepaliveFrequencyInSeconds := 2 }))
        ({ (Impl.new "config.json" : Impl Nat) with keepaliveFrequencyInSeconds := 2 })).1
      = Impl.TickBranch.watchdog ∧
    (Impl.startCommandProcessing [{ stCurrLocal := 0, now := 1700000000250, line := none }]
        ({ (Impl.new "config.json" : Impl Nat) with keepaliveFrequencyInSeconds := 2 })).map
      (fun r => (r.1.pr, r.2.recordingState))
      = some (some false, ScreenRecordingState.ScreenRecordingTerminated) := by
  decide

/-- Claim C18 (amended). For every keep-alive frequency and every watcher
state, an iteration that passes the watchdog test and on which the command
file cannot be opened, or on which it cannot be stat-ed and has never been
seen, leaves the controller (so the recording state) and the one-shot decision
unchanged and stays in the loop; with the watchdog disabled
(`maxWaitTime ≤ 0`, as with keep-alive 0) every such iteration passes the
watchdog test. -/
theorem Impl.unreadable_command_file {Frame : Type} (o : Impl.CommandFileObservation)
    (w : Impl.CommandProcessing) (s : Impl Frame)
    (hunreadable : o.line = none ∨ (o.stCurrLocal = 0 ∧ w.stLocal = 0)) :
    ((Impl.commandTick o w s).1 ≠ Impl.TickBranch.watchdog →
      (Impl.commandTick o w s).2.2 = s ∧
      (Impl.commandTick o w s).2.1.pr = w.pr ∧
      (Impl.commandTick o w s).1.breaks = false) ∧
    (w.maxWaitTime ≤ 0 → (Impl.commandTick o w s).1 ≠ Impl.TickBranch.watchdog) ∧
    (∀ s0 : Impl Frame, s0.keepaliveFrequencyInSeconds = 0 →
      (Impl.CommandProcessing.entry s0).maxWaitTime ≤ 0) := by
  refine ⟨?_, ?_, ?_⟩
  · intro hnw
    have hgen : ∀ w2 : Impl.CommandProcessing, w2.pr = w.pr → o.line = none →
        (Impl.commandRead o w2 s).2.2 = s ∧ (Impl.commandRead o w2 s).2.1.pr = w.pr ∧
        (Impl.commandRead o w2 s).1.breaks = false := by
      intro w2 hw2 hl
      simp [Impl.commandRead, hl, hw2, Impl.TickBranch.breaks]
    unfold Impl.commandTick at hnw ⊢
    split
    · rename_i hc
      rw [if_pos hc] at hnw
      exact absurd rfl hnw
    · split
      · rename_i hc
        rcases hunreadable with hl | ⟨h0, _⟩
        · exact hgen _ rfl hl
        · exact absurd h0 hc.1
      · split
        · exact ⟨rfl, rfl, rfl⟩
        · rename_i hc1 hc2
          rcases hunreadable with hl | ⟨h0, h1⟩
          · exact hgen _ rfl hl
          · exfalso
            apply hc2
            rw [h0, h1]
  · intro hm hb
    have := ((Impl.commandTick_watchdog_iff o w s).1 hb).1
    omega
  · intro s0 hk
    simp [Impl.CommandProcessing.entry, hk, wrapInt32]

/-- Instance of the amended claim C18: keep-alive 0, the command file seen
before has disappeared: the iteration fails to open it and carries on. -/
theorem Impl.unreadable_command_file_witness :
    (Impl.commandTick { stCurrLocal := 0, now := 1700000000250, line := none }
        { stLocal := 1600000000, pr := none, maxWaitTime := 0 }
        (Impl.new "config.json" : Impl Nat)).1.breaks = false :=
  ((Impl.unreadable_command_file
      { stCurrLocal := 0, now := 1700000000250, line := none }
      { stLocal := 1600000000, pr := none, maxWaitTime := 0 }
      (Impl.new "config.json" : Impl Nat) (Or.inl rfl)).1 (by decide)).2.2

/-- Claim C19 (evaluation of the code). Keep-alive 0; the watcher observes the
modification times 1700000000, 1700000001 and again 1700000001.  The third
iteration sees the same time as the second, yet it does not sleep: it opens
and reads the file again, as every iteration does once the time differs from
the first one seen, because `stLocal` keeps the first time seen. -/
theorem Impl.unchanged_timestamp_is_read_again :
    Impl.commandBranches
        [{ stCurrLocal := 1700000000, now := 1700000000250, line := some "StartRec" },
         { stCurrLocal := 1700000001, now := 1700000001250, line := some "StartRec" },
         { stCurrLocal := 1700000001, now := 1700000001350, line := some "StartRec" }]
        (Impl.CommandProcessing.entry (Impl.new "config.json" : Impl Nat))
        (Impl.new "config.json" : Impl Nat)
      = [Impl.TickBranch.startRec, Impl.TickBranch.startRec, Impl.TickBranch.startRec] ∧
    (Impl.commandTick
        { stCurrLocal := 1700000001, now := 1700000001250, line := some "StartRec" }
        { stLocal := 1700000000, pr := some true, maxWaitTime := 0 }
        (Impl.new "config.json" : Impl Nat)).2.1.stLocal = 1700000000 := by
  decide

/-! ## Helper lemmas on the configuration -/

namespace Impl

variable {Frame : Type}

/-- The parsing section leaves the command-file name, the output path, the
keep-alive frequency, the recording state and the frame queue as they are. -/
theorem parseConfigValues_frame (atoi : String → Int) (doc : JsonValue) (s s1 : Impl Frame)
    (h : parseConfigValues atoi doc s = some s1) :
    s1.commandFileName = s.commandFileName ∧ s1.outputFilePath = s.outputFilePath ∧
    s1.keepaliveFrequencyInSeconds = s.keepaliveFrequencyInSeconds ∧
    s1.recordingState = s.recordingState ∧ s1.screenDataList = s.screenDataList := by
  simp only [parseConfigValues, Option.bind_eq_bind, Option.bind_eq_some, Option.pure_def,
    Option.some.injEq] at h
  obtain ⟨_, _, _, _, _, _, _, _, _, _, _, _, _, _, _, _, _, _, _, _, _, _, h⟩ := h
  subst h
  exact ⟨rfl, rfl, rfl, rfl, rfl⟩

/-- When `parseConfigFile` returns false it has changed nothing. -/
theorem parseConfigFile_false (atoi : String → Int) (cfg : ConfigFileRead) (s s1 : Impl Frame)
    (h : parseConfigFile atoi cfg s = some (s1, false)) : s1 = s := by
  unfold parseConfigFile at h
  cases cfg with
  | cannotOpen =>
    simp at h
    exact h.symm
  | parsed doc =>
    simp only at h
    cases hv : validateConfig doc with
    | none => simp [hv] at h
    | some b =>
      cases b with
      | false =>
        simp [hv] at h
        exact h.symm
      | true =>
        simp [hv] at h

/-- When `parseConfigFile` returns true, the document passed the validation
section and every lookup of the parsing section succeeded. -/
theorem parseConfigFile_true (atoi : String → Int) (cfg : ConfigFileRead) (s s1 : Impl Frame) :
    parseConfigFile atoi cfg s = some (s1, true) ↔
      ∃ doc, cfg = ConfigFileRead.parsed doc ∧ validateConfig doc = some true ∧
        parseConfigValues atoi doc s = some s1 := by
  unfold parseConfigFile
  cases cfg with
  | cannotOpen => simp
  | parsed doc =>
    cases hv : validateConfig doc with
    | none => simp [hv]
    | some b =>
      cases b with
      | false => simp [hv]
      | true => simp [hv]

end Impl

/-- What `init` returns, relative to `parseConfigFile()`: it returns true if
and only if `parseConfigFile()` returns true, that is, the configuration file
opens, its document passes the validation section and the parsing section
completes; on success the stored output path, command-file name and keep-alive
frequency are exactly the three arguments; it returns false exactly when
`parseConfigFile()` returns false, and then the controller is unchanged; it
does not return exactly when `parseConfigFile()` does not. -/
theorem Impl.init_spec {Frame : Type} (atoi : String → Int) (cfg : ConfigFileRead)
    (outFilePath commandFile : String) (keepAliveFrequency : Int) (s : Impl Frame) :
    (∀ s1, Impl.init atoi cfg outFilePath commandFile keepAliveFrequency s = some (s1, true) ↔
      ∃ s0, Impl.parseConfigFile atoi cfg s = some (s0, true) ∧
        s1 = { s0 with
                commandFileName := commandFile
                outputFilePath := outFilePath
                keepaliveFrequencyInSeconds := keepAliveFrequency }) ∧
    ((∃ s1, Impl.init atoi cfg outFilePath commandFile keepAliveFrequency s = some (s1, true)) ↔
      ∃ doc, cfg = ConfigFileRead.parsed doc ∧ Impl.validateConfig doc = some true ∧
        (Impl.parseConfigValues atoi doc s).isSome = true) ∧
    (∀ s1, Impl.init atoi cfg outFilePath commandFile keepAliveFrequency s = some (s1, true) →
      s1.outputFilePath = outFilePath ∧ s1.commandFileName = commandFile ∧
      s1.keepaliveFrequencyInSeconds = keepAliveFrequency) ∧
    (∀ s1, Impl.init atoi cfg outFilePath commandFile keepAliveFrequency s = some (s1, false) ↔
      Impl.parseConfigFile atoi cfg s = some (s1, false)) ∧
    (∀ s1, Impl.init atoi cfg outFilePath commandFile keepAliveFrequency s = some (s1, false) →
      s1 = s) ∧
    (Impl.init atoi cfg outFilePath commandFile keepAliveFrequency s = none ↔
      Impl.parseConfigFile atoi cfg s = none) := by
  have htrue : ∀ s1,
      Impl.init atoi cfg outFilePath commandFile keepAliveFrequency s = some (s1, true) ↔
      ∃ s0, Impl.parseConfigFile atoi cfg s = some (s0, true) ∧
        s1 = { s0 with
                commandFileName := commandFile
                outputFilePath := outFilePath
                keepaliveFrequencyInSeconds := keepAliveFrequency } := by
    intro s1
    unfold Impl.init
    cases hp : Impl.parseConfigFile atoi cfg s with
    | none => simp
    | some r =>
      obtain ⟨s0, b⟩ := r
      cases b with
      | false => simp
      | true =>
        simp only [Option.some.injEq, Prod.mk.injEq, and_true]
        constructor
        · intro h
          exact ⟨s0, rfl, h.symm⟩
        · rintro ⟨s2, h2, h3⟩
          rw [h3, h2]
  have hfalse : ∀ s1,
      Impl.init atoi cfg outFilePath commandFile keepAliveFrequency s = some (s1, false) ↔
      Impl.parseConfigFile atoi cfg s = some (s1, false) := by
    intro s1
    unfold Impl.init
    cases hp : Impl.parseConfigFile atoi cfg s with
    | none => simp
    | some r =>
      obtain ⟨s0, b⟩ := r
      cases b with
      | false => simp
      | true => simp
  refine ⟨htrue, ?_, ?_, hfalse, ?_, ?_⟩
  · constructor
    · rintro ⟨s1, h⟩
      obtain ⟨s0, h0, _⟩ := (htrue s1).1 h
      obtain ⟨doc, hd, hv, hp⟩ := (Impl.parseConfigFile_true atoi cfg s s0).1 h0
      exact ⟨doc, hd, hv, by simp [hp]⟩
    · rintro ⟨doc, hd, hv, hp⟩
      obtain ⟨s0, hs0⟩ := Option.isSome_iff_exists.1 hp
      exact ⟨_, (htrue _).2 ⟨s0, (Impl.parseConfigFile_true atoi cfg s s0).2 ⟨doc, hd, hv, hs0⟩,
        rfl⟩⟩
  · intro s1 h
    obtain ⟨s0, _, h1⟩ := (htrue s1).1 h
    subst h1
    exact ⟨rfl, rfl, rfl⟩
  · intro s1 h
    exact Impl.parseConfigFile_false atoi cfg s s1 ((hfalse s1).1 h)
  · unfold Impl.init
    cases hp : Impl.parseConfigFile atoi cfg s with
    | none => simp
    | some r =>
      obtain ⟨s0, b⟩ := r
      cases b <;> simp

/-- Instance of `init_spec`: `init` on a well-formed configuration document
returns true and stores the three arguments, next to the parsed frame rate. -/
theorem Impl.init_spec_witness :
    (Impl.init atoiDigits (ConfigFileRead.parsed sampleConfig) "out" "command.txt" 5
        (Impl.new "config.json" : Impl Nat)).map
      (fun r => (r.2, r.1.outputFilePath, r.1.commandFileName,
        r.1.keepaliveFrequencyInSeconds, r.1.ffScreenSessionInfo.fps))
      = some (true, "out", "command.txt", 5, 25) ∧
    ∃ s1, Impl.init atoiDigits (ConfigFileRead.parsed sampleConfig) "out" "command.txt" 5
        (Impl.new "config.json" : Impl Nat) = some (s1, true) :=
  ⟨by decide,
   (Impl.init_spec atoiDigits (ConfigFileRead.parsed sampleConfig) "out" "command.txt" 5
      (Impl.new "config.json" : Impl Nat)).2.1.2 ⟨sampleConfig, rfl, by decide, by decide⟩⟩

/-- The failures `init` detects: when the configuration file cannot be opened,
or when its document is rejected by the validation section, `init` returns
false and leaves the controller unchanged. -/
theorem Impl.init_false_on_detected_failure {Frame : Type} (atoi : String → Int)
    (outFilePath commandFile : String) (keepAliveFrequency : Int) (s : Impl Frame) :
    Impl.init atoi ConfigFileRead.cannotOpen outFilePath commandFile keepAliveFrequency s
      = some (s, false) ∧
    (∀ doc, Impl.validateConfig doc = some false →
      Impl.init atoi (ConfigFileRead.parsed doc) outFilePath commandFile keepAliveFrequency s
        = some (s, false)) := by
  refine ⟨rfl, ?_⟩
  intro doc hv
  simp [Impl.init, Impl.parseConfigFile, hv]

/-- Claim C20 (evaluation of the code). `init("out", "command.txt", 5)` on a
fresh controller whose configuration document has every member the validation
section asks for but no member `crf`: the document passes the validation
section, the parsing section fails the library assertion on the lookup of
`crf`, and `init` returns neither true nor false.  The same holds for a
document that is not an object, as a text that is not JSON leaves it: the
first `HasMember` fails the assertion.  On the failures the code does detect
(the file cannot be opened, a member the validation asks for is missing)
`init` returns false and the stored command-file name, output path and
keep-alive frequency are unchanged; on the document with `crf` it returns true
and stores the three arguments. -/
theorem Impl.init_does_not_return_without_crf :
    Impl.validateConfig sampleConfigWithoutCrf = some true ∧
    (Impl.init atoiDigits (ConfigFileRead.parsed sampleConfigWithoutCrf) "out" "command.txt" 5
      (Impl.new "config.json" : Impl Nat)).map (fun r => r.2) = none ∧
    (Impl.init atoiDigits (ConfigFileRead.parsed JsonValue.null) "out" "command.txt" 5
      (Impl.new "config.json" : Impl Nat)).map (fun r => r.2) = none ∧
    (Impl.init atoiDigits ConfigFileRead.cannotOpen "out" "command.txt" 5
        (Impl.new "config.json" : Impl Nat)).map
      (fun r => (r.2, r.1.outputFilePath, r.1.commandFileName, r.1.keepaliveFrequencyInSeconds))
      = some (false, "", "", 0) ∧
    (Impl.init atoiDigits (ConfigFileRead.parsed (JsonValue.object [])) "out" "command.txt" 5
        (Impl.new "config.json" : Impl Nat)).map
      (fun r => (r.2, r.1.outputFilePath, r.1.commandFileName, r.1.keepaliveFrequencyInSeconds))
      = some (false, "", "", 0) ∧
    (Impl.init atoiDigits (ConfigFileRead.parsed sampleConfig) "out" "command.txt" 5
        (Impl.new "config.json" : Impl Nat)).map
      (fun r => (r.2, r.1.outputFilePath, r.1.commandFileName, r.1.keepaliveFrequencyInSeconds))
      = some (true, "out", "command.txt", 5) := by
  decide

/-- Claim C21. First Start command: when an iteration of the watcher reads
the line StartRec while the one-shot decision is unresolved, then from every
recording state the state becomes started and the decision resolves to start
(true), nothing else of the controller changes, the iteration does not leave
the loop, and the loop goes on with the next observation. -/
theorem Impl.first_start_command {Frame : Type} (o : Impl.CommandFileObservation)
    (w : Impl.CommandProcessing) (s : Impl Frame)
    (hline : o.line = some "StartRec")
    (hread : (Impl.commandTick o w s).1 ≠ Impl.TickBranch.watchdog ∧
      (Impl.commandTick o w s).1 ≠ Impl.TickBranch.sleepAndRetry)
    (hpr : w.pr = none) :
    (Impl.commandTick o w s).1 = Impl.TickBranch.startRec ∧
    (Impl.commandTick o w s).2.2
      = { s with recordingState := ScreenRecordingState.ScreenRecordingStarted } ∧
    (Impl.commandTick o w s).2.1.pr = some true ∧
    (Impl.commandTick o w s).1.breaks = false ∧
    (∀ os, Impl.commandLoop (o :: os) w s
      = Impl.commandLoop os (Impl.commandTick o w s).2.1 (Impl.commandTick o w s).2.2) := by
  have hb : (Impl.commandTick o w s).1 = Impl.TickBranch.startRec := by
    rcases Impl.commandTick_cases o w s with c | c | ⟨w2, _, _, c⟩
    · exact absurd (by rw [c]) hread.1
    · exact absurd (by rw [c]) hread.2
    · rw [c]
      simp [Impl.commandRead, hline]
  have hstate : (Impl.commandTick o w s).2.2.recordingState
      = ScreenRecordingState.ScreenRecordingStarted := by
    rw [Impl.commandTick_recordingState, hb]
    simp [hpr]
  refine ⟨hb, ?_, ?_, ?_, ?_⟩
  · rw [Impl.commandTick_impl, hstate]
  · rw [Impl.commandTick_pr, hb]
    simp [hpr]
  · rw [hb]
    rfl
  · intro os
    simp [Impl.commandLoop, hb, Impl.TickBranch.breaks]

/-- Instance of claim C21: the first iteration of a fresh session reads
StartRec. -/
theorem Impl.first_start_command_witness :
    (Impl.commandTick
        { stCurrLocal := 1700000000, now := 1700000000250, line := some "StartRec" }
        (Impl.CommandProcessing.entry (Impl.new "config.json" : Impl Nat))
        (Impl.new "config.json" : Impl Nat)).2.1.pr = some true :=
  (Impl.first_start_command
    { stCurrLocal := 1700000000, now := 1700000000250, line := some "StartRec" }
    (Impl.CommandProcessing.entry (Impl.new "config.json" : Impl Nat))
    (Impl.new "config.json" : Impl Nat) rfl ⟨by decide, by decide⟩ rfl).2.2.1

/-- Claim C22 (as stated, refuted). With duration 2147484 s the `int` product
`mediaCaptureDurationInSeconds * 1000` wraps to a negative number: an
invocation whose callback returns true signals completion with 0 ms elapsed.
With duration 2 s, an invocation whose callback returns true at a millisecond
count of exactly 2000 signals completion although the count does not exceed
2 * 1000: the comparison is `>=`. -/
theorem TimedMediaGrabber.callbackRoutine_bound_not_strict :
    (TimedMediaGrabber.callbackRoutine (fun n : Nat => (n, true)) 0
        ((TimedMediaGrabber.new 30 2147484 1).start true true true).1 0).1.doneEvent = true ∧
    ¬ ((0 : Int) > 2147484 * 1000) ∧
    (TimedMediaGrabber.callbackRoutine (fun n : Nat => (n, true)) 2000
        ((TimedMediaGrabber.new 30 2 1).start true true true).1 0).1.doneEvent = true ∧
    ¬ ((2000 : Int) > 2 * 1000) := by
  decide

/-- Claim C22 (amended). Each invocation of `callbackRoutine` applies the user
callback exactly once: the client state after the invocation is the state the
callback left.  For a duration of at most 2147483 seconds, the range in which
`duration * 1000` fits an `int`, on a grabber not yet signalled the invocation
signals completion, clearing the run flag and setting the done event, if and
only if the callback returned false, or the callback returned true, the
duration `d` is positive and the milliseconds elapsed since `start()` have
reached `d * 1000`; otherwise it leaves the grabber as it is; with duration 0
an invocation whose callback returns true never signals completion, whatever
the elapsed time. -/
theorem TimedMediaGrabber.callbackRoutine_spec {σ : Type} (timerCallback : σ → σ × Bool)
    (timeDifference : Int) (g : TimedMediaGrabber) (s : σ)
    (hnew : g.doneEvent = false)
    (hd : g.mediaCaptureDurationInSeconds ≤ 2147483) :
    (TimedMediaGrabber.callbackRoutine timerCallback timeDifference g s).2
      = (timerCallback s).1 ∧
    ((TimedMediaGrabber.callbackRoutine timerCallback timeDifference g s).1.doneEvent = true ↔
      ((timerCallback s).2 = false ∨
        ((timerCallback s).2 = true ∧ g.mediaCaptureDurationInSeconds > 0 ∧
          timeDifference ≥ g.mediaCaptureDurationInSeconds * 1000))) ∧
    ((TimedMediaGrabber.callbackRoutine timerCallback timeDifference g s).1.doneEvent = true →
      (TimedMediaGrabber.callbackRoutine timerCallback timeDifference g s).1
        = g.signalCompletion ∧
      (TimedMediaGrabber.callbackRoutine timerCallback timeDifference g s).1.timerRunState
        = false) ∧
    ((TimedMediaGrabber.callbackRoutine timerCallback timeDifference g s).1.doneEvent = false →
      (TimedMediaGrabber.callbackRoutine timerCallback timeDifference g s).1 = g) ∧
    (g.mediaCaptureDurationInSeconds = 0 → (timerCallback s).2 = true →
      (TimedMediaGrabber.callbackRoutine timerCallback timeDifference g s).1 = g) := by
  have hsig : g.signalCompletion.doneEvent = true ∧ g.signalCompletion.timerRunState = false := by
    simp [TimedMediaGrabber.signalCompletion]
  have hwrap : g.mediaCaptureDurationInSeconds > 0 →
      wrapInt32 (g.mediaCaptureDurationInSeconds * 1000)
        = g.mediaCaptureDurationInSeconds * 1000 := by
    intro hpos
    unfold wrapInt32
    omega
  refine ⟨TimedMediaGrabber.callbackRoutine_snd timerCallback timeDifference g s, ?_⟩
  simp only [TimedMediaGrabber.callbackRoutine]
  cases hcb : (timerCallback s).2 with
  | false =>
    simp [hsig.1, hsig.2]
  | true =>
    by_cases hpos : g.mediaCaptureDurationInSeconds > 0
    · rw [hwrap hpos]
      by_cases hreach : timeDifference ≥ g.mediaCaptureDurationInSeconds * 1000
      · simp [hpos, hreach, hsig.1, hsig.2]
        intro h0
        omega
      · simp [hpos, hreach, hnew]
    · simp [hpos, hnew]

/-- Instance of the amended claim C22: the extra grabber of the producer
(duration 2 s), 2500 ms after its start, callback returning true. -/
theorem TimedMediaGrabber.callbackRoutine_spec_witness :
    (TimedMediaGrabber.callbackRoutine (fun n : Nat => (n, true)) 2500
        ((TimedMediaGrabber.new 30 2 1).start true true true).1 0).1
      = (((TimedMediaGrabber.new 30 2 1).start true true true).1).signalCompletion :=
  ((TimedMediaGrabber.callbackRoutine_spec (fun n : Nat => (n, true)) 2500
      ((TimedMediaGrabber.new 30 2 1).start true true true).1 0 (by decide) (by decide)).2.2.1
    (by decide)).1

/-- Claim C23 (evaluation of the code). The consumer constructs its grabber,
calls `start()` while the callback type is still the multimedia timer, which
creates the timer, and only then switches the type to the sleep-based one.
After an invocation whose callback returns false, completion is signalled and
the run flag is false, but the timer handle is still set: `callbackRoutine`
deletes the timer only when the type is the multimedia timer.  Without the
switch the same invocation deletes the timer. -/
theorem TimedMediaGrabber.timer_left_armed_after_stop :
    (TimedMediaGrabber.callbackRoutine (fun n : Nat => (n, false)) 33
        ((((TimedMediaGrabber.new 30 0 1).start true true true).1).setMediaCallbackType
          MediaCallbackType.SYSTEM_SLEEP) 0).1
      = { frequency := 33
          mediaCaptureDurationInSeconds := 0
          mediaCallbackType := MediaCallbackType.SYSTEM_SLEEP
          newTimer := true
          timerRunState := false
          doneEvent := true } ∧
    (TimedMediaGrabber.callbackRoutine Pipeline.consumerTick 33
        (Impl.consumerGrabber (Impl.new "config.json" : Impl Nat).startScreenRecordingFinish)
        (Pipeline.init (Impl.new "config.json" : Impl Nat).startScreenRecordingFinish)).1
      = { frequency := 33
          mediaCaptureDurationInSeconds := 0
          mediaCallbackType := MediaCallbackType.SYSTEM_SLEEP
          newTimer := true
          timerRunState := false
          doneEvent := true } ∧
    (TimedMediaGrabber.callbackRoutine (fun n : Nat => (n, false)) 33
        ((TimedMediaGrabber.new 30 0 1).start true true true).1 0).1.newTimer = false := by
  decide

/-- Claim C24. Producer tick: for every snapshot, live state and queue, if the
live recording state equals the snapshot the tick appends the captured frame
at the back of the queue, so that the queue is one longer and starts with its
previous contents in the same order, and returns true, and the frame is the
one logged as captured; otherwise it returns false and leaves the controller,
so the queue, unchanged; the tick never changes the recording state, nor
anything but the queue. -/
theorem Impl.screenGrabAndEncodeFrame_spec {Frame : Type} (state : ScreenRecordingState)
    (src : Frame) (s : Impl Frame) :
    (s.recordingState = state →
      s.screenGrabAndEncodeFrame state src
        = ({ s with screenDataList := s.screenDataList ++ [src] }, true) ∧
      (s.screenGrabAndEncodeFrame state src).1.screenDataList.length
        = s.screenDataList.length + 1 ∧
      (s.screenGrabAndEncodeFrame state src).1.screenDataList.take s.screenDataList.length
        = s.screenDataList ∧
      ∀ captured forwarded,
        ((Pipeline.mk s captured forwarded).producerTick state src).1.captured
          = captured ++ [src]) ∧
    (s.recordingState ≠ state →
      s.screenGrabAndEncodeFrame state src = (s, false) ∧
      ∀ captured forwarded,
        ((Pipeline.mk s captured forwarded).producerTick state src).1
          = Pipeline.mk s captured forwarded) ∧
    (s.screenGrabAndEncodeFrame state src).1.recordingState = s.recordingState ∧
    (s.screenGrabAndEncodeFrame state src).1
      = { s with screenDataList := (s.screenGrabAndEncodeFrame state src).1.screenDataList } := by
  by_cases h : s.recordingState = state
  · refine ⟨fun _ => ?_, fun hn => absurd h hn, ?_, ?_⟩
    · simp [Impl.screenGrabAndEncodeFrame, Pipeline.producerTick, h]
    · simp [Impl.screenGrabAndEncodeFrame, h]
    · simp [Impl.screenGrabAndEncodeFrame, h]
  · refine ⟨fun hy => absurd hy h, fun _ => ?_, ?_, ?_⟩
    · simp [Impl.screenGrabAndEncodeFrame, Pipeline.producerTick, h]
    · simp [Impl.screenGrabAndEncodeFrame, h]
    · simp [Impl.screenGrabAndEncodeFrame, h]

/-- Instance of claim C24: a tick with snapshot not-started on a fresh
controller appends frame 5 to the empty queue. -/
theorem Impl.screenGrabAndEncodeFrame_spec_witness :
    (Impl.new "config.json" : Impl Nat).screenGrabAndEncodeFrame
        ScreenRecordingState.ScreenRecordingNotStarted 5
      = ({ (Impl.new "config.json" : Impl Nat) with
            screenDataList := (Impl.new "config.json" : Impl Nat).screenDataList ++ [5] },
          true) :=
  ((Impl.screenGrabAndEncodeFrame_spec ScreenRecordingState.ScreenRecordingNotStarted 5
    (Impl.new "config.json" : Impl Nat)).1 rfl).1

/-- Claim C25 (as stated, refuted). StartRec resolves the decision, then
`stop()` lands before the producer thread reads the state: the routine is
entered in state about-to-stop and takes it as snapshot.  The tick of the
primary run that follows returns true and appends frame 11 although the live
state is past started, and the primary run goes on. -/
theorem Session.primary_run_captures_past_started :
    (fun c : Session Nat =>
        (c.pipeline.impl.recordingState, c.producer, c.pipeline.impl.screenDataList))
      ((Session.init (Impl.new "config.json" : Impl Nat)).run
        [SessionEvent.watcherStep
          { stCurrLocal := 1700000000, now := 1700000000250, line := some "StartRec" },
         SessionEvent.stop,
         SessionEvent.mainStep true,
         SessionEvent.producerStep 11 0,
         SessionEvent.producerStep 11 33])
      = (ScreenRecordingState.ScreenRecordingAboutToStop,
          ProducerPhase.primary ScreenRecordingState.ScreenRecordingAboutToStop, [11]) := by
  decide

/-- Claim C25 (amended). The primary producer run captures only while the live
recording state equals the snapshot taken at entry: the routine takes the
state it is entered in as snapshot; while the live state equals the snapshot
a tick of the primary run captures and the run goes on; once the live state
differs from the snapshot every tick of the primary run returns false,
appends no frame and ends that run; so when the routine is entered in state
started, this is the case once the state is about-to-stop or terminated. -/
theorem Impl.primary_run_follows_snapshot {Frame : Type} (src : Frame) (timeDifference : Int)
    (state : ScreenRecordingState) (p : Pipeline Frame) :
    Impl.startScreenRecordingStep src timeDifference ProducerPhase.entry p
      = (ProducerPhase.primary p.impl.recordingState, p) ∧
    (p.impl.recordingState = state →
      (p.producerTick state src).2 = true ∧
      Impl.startScreenRecordingStep src timeDifference (ProducerPhase.primary state) p
        = (ProducerPhase.primary state, (p.producerTick state src).1)) ∧
    (p.impl.recordingState ≠ state →
      p.producerTick state src = (p, false) ∧
      Impl.startScreenRecordingStep src timeDifference (ProducerPhase.primary state) p
        = (ProducerPhase.primaryDone, p)) ∧
    (state = ScreenRecordingState.ScreenRecordingStarted →
      (p.impl.recordingState = ScreenRecordingState.ScreenRecordingAboutToStop ∨
        p.impl.recordingState = ScreenRecordingState.ScreenRecordingTerminated) →
      p.producerTick state src = (p, false) ∧
      Impl.startScreenRecordingStep src timeDifference (ProducerPhase.primary state) p
        = (ProducerPhase.primaryDone, p)) := by
  have hdiff : p.impl.recordingState ≠ state →
      p.producerTick state src = (p, false) ∧
      Impl.startScreenRecordingStep src timeDifference (ProducerPhase.primary state) p
        = (ProducerPhase.primaryDone, p) := by
    intro h
    refine ⟨?_, Impl.startScreenRecordingStep_primary_diverged state src timeDifference p h⟩
    simp [Pipeline.producerTick, Impl.screenGrabAndEncodeFrame, h]
  refine ⟨rfl, ?_, hdiff, ?_⟩
  · intro h
    have ht : (p.producerTick state src).2 = true := by
      simp [Pipeline.producerTick, Impl.screenGrabAndEncodeFrame, h]
    refine ⟨ht, ?_⟩
    simp only [Impl.startScreenRecordingStep, Impl.primary_run_done,
      TimedMediaGrabber.callbackRoutine_snd, ht]
    simp
  · intro hs hp
    apply hdiff
    rw [hs]
    rcases hp with hp | hp <;> rw [hp] <;> decide

/-- Instance of the amended claim C25: entered in started, the state now
about-to-stop: the tick ends the primary run. -/
theorem Impl.primary_run_follows_snapshot_witness :
    Impl.startScreenRecordingStep 11 33
        (ProducerPhase.primary ScreenRecordingState.ScreenRecordingStarted)
        (Pipeline.init (Impl.new "config.json" : Impl Nat).stop)
      = (ProducerPhase.primaryDone, Pipeline.init (Impl.new "config.json" : Impl Nat).stop) :=
  ((Impl.primary_run_follows_snapshot 11 33 ScreenRecordingState.ScreenRecordingStarted
      (Pipeline.init (Impl.new "config.json" : Impl Nat).stop)).2.2.2 rfl (Or.inl rfl)).2

/-! ## Helper lemmas for the loop exit, the stored configuration and the period -/

/-- After a call of `setScreenSessionState` the promise holds the value it
held before, or the argument if it held none. -/
theorem Impl.setScreenSessionState_pr {Frame : Type} (state : Bool)
    (w : Impl.CommandProcessing) (s : Impl Frame) :
    (Impl.setScreenSessionState state w s).1.pr = some (w.pr.getD state) := by
  unfold Impl.setScreenSessionState
  cases hpr : w.pr with
  | none => simp
  | some v => simp [hpr]

/-- What the parsing section stores as crf and as output bitrate. -/
theorem Impl.parseConfigValues_stored {Frame : Type} (atoi : String → Int) (doc : JsonValue)
    (s s1 : Impl Frame) (h : Impl.parseConfigValues atoi doc s = some s1) :
    ∃ crf bitrate,
      doc.stringAt ["ScreenRecord", "crf"] = some crf ∧
      doc.stringAt ["ScreenRecord", "outputBitrateInMB"] = some bitrate ∧
      s1.ffScreenSessionInfo.crf = Impl.validateCrf (atoi crf) ∧
      s1.ffScreenSessionInfo.outputBitrateInMB = Impl.limitOutputBitrate (atoi bitrate) := by
  simp only [Impl.parseConfigValues, Option.bind_eq_bind, Option.bind_eq_some, Option.pure_def,
    Option.some.injEq] at h
  obtain ⟨_, _, _, _, _, _, _, _, _, _, _, _, _, _, crf, hcrf, bitrate, hbitrate, _, _, _, _, h⟩ :=
    h
  subst h
  exact ⟨crf, bitrate, hcrf, hbitrate, rfl, rfl⟩

/-- Signalling completion and invoking the callback leave the period as it
is. -/
theorem TimedMediaGrabber.callbackRoutine_frequency {σ : Type} (timerCallback : σ → σ × Bool)
    (timeDifference : Int) (g : TimedMediaGrabber) (s : σ) :
    (TimedMediaGrabber.callbackRoutine timerCallback timeDifference g s).1.frequency
      = g.frequency := by
  have hsig : g.signalCompletion.frequency = g.frequency := by
    simp only [TimedMediaGrabber.signalCompletion, TimedMediaGrabber.deleteTimer]
    split
    · split <;> rfl
    · rfl
  simp only [TimedMediaGrabber.callbackRoutine]
  by_cases h1 : (!(timerCallback s).2) = true
  · rw [if_pos h1]
    exact hsig
  · rw [if_neg h1]
    by_cases h2 : g.mediaCaptureDurationInSeconds > 0
    · rw [if_pos h2]
      by_cases h3 : timeDifference ≥ wrapInt32 (g.mediaCaptureDurationInSeconds * 1000)
      · rw [if_pos h3]
        exact hsig
      · rw [if_neg h3]
    · rw [if_neg h2]

/-- Every duration slept by the sleep-based loop is the period of the
grabber it was started on. -/
theorem TimedMediaGrabber.runSleepBasedCallback_sleeps {σ : Type}
    (timerCallback : σ → σ × Bool) (readings : List Int) (g : TimedMediaGrabber) (s : σ) :
    ∀ x ∈ (TimedMediaGrabber.runSleepBasedCallback timerCallback readings g s).1,
      x = g.frequency := by
  induction readings generalizing g s with
  | nil => simp [TimedMediaGrabber.runSleepBasedCallback]
  | cons timeDifference rest ih =>
    intro x hx
    simp only [TimedMediaGrabber.runSleepBasedCallback] at hx
    split at hx
    · simp only [List.mem_cons] at hx
      rcases hx with hx | hx
      · exact hx
      · rw [ih _ _ x hx]
        exact TimedMediaGrabber.callbackRoutine_frequency timerCallback timeDifference g s
    · simp at hx

/-- The divisor of the period computation lies in `(0, 1000]`. -/
theorem TimedMediaGrabber.factoredFps_range (fps grabFactor : Int) :
    0 < TimedMediaGrabber.factoredFps fps grabFactor ∧
    TimedMediaGrabber.factoredFps fps grabFactor ≤ 1000 := by
  simp only [TimedMediaGrabber.factoredFps]
  split
  · rename_i h
    exact ⟨h.1, h.2⟩
  · decide

/-- The short-circuit conjunction yields true exactly when both queries do. -/
theorem andThen_eq_some_true (a b : Option Bool) :
    andThen a b = some true ↔ a = some true ∧ b = some true := by
  unfold andThen
  cases a with
  | none => simp
  | some v => cases v <;> simp

/-- A document that passes the validation section has every member the
section asks for. -/
theorem Impl.validateConfig_present (doc : JsonValue)
    (h : Impl.validateConfig doc = some true) :
    doc.HasMember "ScreenRecord" = some true ∧
    doc.hasMemberAt ["ScreenRecord"] "ScreenDimensions" = some true ∧
    doc.hasMemberAt ["ScreenRecord"] "Resolution" = some true ∧
    doc.hasMemberAt ["ScreenRecord"] "fps" = some true ∧
    doc.hasMemberAt ["ScreenRecord"] "outputBitrateInMB" = some true ∧
    doc.hasMemberAt ["ScreenRecord"] "Recording" = some true ∧
    doc.hasMemberAt ["ScreenRecord", "ScreenDimensions"] "topX1" = some true ∧
    doc.hasMemberAt ["ScreenRecord", "ScreenDimensions"] "topY1" = some true ∧
    doc.hasMemberAt ["ScreenRecord", "ScreenDimensions"] "bottomX2" = some true ∧
    doc.hasMemberAt ["ScreenRecord", "ScreenDimensions"] "bottomY2" = some true ∧
    doc.hasMemberAt ["ScreenRecord", "Resolution"] "resWidth" = some true ∧
    doc.hasMemberAt ["ScreenRecord", "Resolution"] "resHeight" = some true ∧
    doc.hasMemberAt ["ScreenRecord", "Recording"] "segmentDuration" = some true ∧
    doc.hasMemberAt ["ScreenRecord", "Recording"] "fileName" = some true := by
  unfold Impl.validateConfig at h
  split at h
  · simp at h
  · simp at h
  · rename_i h0
    split at h
    · simp at h
    · simp at h
    · rename_i h1
      split at h
      · simp at h
      · simp at h
      · rename_i h2
        simp only [andAll, andThen_eq_some_true, and_true] at h h1 h2
        obtain ⟨a1, a2, a3, a4, a5⟩ := h1
        obtain ⟨b1, b2, b3, b4, b5, b6⟩ := h2
        exact ⟨h0, a1, a2, a3, a4, a5, b1, b2, b3, b4, b5, b6, h.1, h.2⟩

/-- Claim C26 (as stated, refuted). A started session with the decision
resolved to start and keep-alive 2 s, the command file untouched for 7 s: the
iteration fires the watchdog and the loop ends, although the iteration
processes no Stop command and the decision is not resolved to abort: it stays
resolved to start through the closing call. -/
theorem Impl.loop_exit_on_watchdog_after_start :
    (fun r : Impl.TickBranch × Impl.CommandProcessing × Impl Nat =>
        (r.1, r.1.breaks, r.2.1.pr,
          (Impl.setScreenSessionState false r.2.1 r.2.2).1.pr))
      (Impl.commandTick
        { stCurrLocal := 1700000000, now := 1700000007000, line := some "StartRec" }
        { stLocal := 1700000000, pr := some true, maxWaitTime := 6 }
        (Impl.setScreenSessionState true
          { stLocal := 1700000000, pr := none, maxWaitTime := 6 }
          (Impl.new "config.json" : Impl Nat)).2)
      = (Impl.TickBranch.watchdog, true, some true, some true) := by
  decide

/-- Claim C26 (amended). Watcher loop exit: the loop ends on an iteration if
and only if that iteration fires the watchdog or reads StopRec, whether the
decision is resolved or not; an iteration that ends the loop does not touch
the decision, and the closing call then resolves an unresolved decision to
abort and leaves a resolved one as it is; whenever `startCommandProcessing`
returns, the decision has been resolved. -/
theorem Impl.watcher_loop_exit {Frame : Type} (o : Impl.CommandFileObservation)
    (w : Impl.CommandProcessing) (s : Impl Frame) :
    ((Impl.commandTick o w s).1.breaks = true ↔
      ((w.maxWaitTime > 0 ∧
          Impl.shouldCaptureSessionContinue w.maxWaitTime o.now o.stCurrLocal = false) ∨
        (Impl.commandTick o w s).1 = Impl.TickBranch.stopRec)) ∧
    (∀ os, Impl.commandLoop (o :: os) w s =
      if (Impl.commandTick o w s).1.breaks = true then some (Impl.commandTick o w s).2
      else Impl.commandLoop os (Impl.commandTick o w s).2.1 (Impl.commandTick o w s).2.2) ∧
    ((Impl.commandTick o w s).1.breaks = true →
      (Impl.commandTick o w s).2.1.pr = w.pr ∧
      (Impl.setScreenSessionState false (Impl.commandTick o w s).2.1
          (Impl.commandTick o w s).2.2).1.pr = some (w.pr.getD false)) ∧
    (∀ obs r, Impl.startCommandProcessing obs s = some r → ∃ v, r.1.pr = some v) := by
  have hiff : (Impl.commandTick o w s).1.breaks = true ↔
      ((Impl.commandTick o w s).1 = Impl.TickBranch.watchdog ∨
        (Impl.commandTick o w s).1 = Impl.TickBranch.stopRec) := by
    cases (Impl.commandTick o w s).1 <;> simp [Impl.TickBranch.breaks]
  refine ⟨?_, ?_, ?_, ?_⟩
  · rw [hiff, Impl.commandTick_watchdog_iff]
  · intro os
    simp only [Impl.commandLoop]
  · intro hb
    have hpr : (Impl.commandTick o w s).2.1.pr = w.pr := by
      rw [Impl.commandTick_pr]
      rcases hiff.1 hb with h | h <;> rw [h] <;> simp
    refine ⟨hpr, ?_⟩
    rw [Impl.setScreenSessionState_pr, hpr]
  · intro obs r hr
    unfold Impl.startCommandProcessing at hr
    cases hl : Impl.commandLoop obs (Impl.CommandProcessing.entry s) s with
    | none => simp [hl] at hr
    | some r1 =>
      simp only [hl, Option.map_some] at hr
      cases hr
      exact ⟨_, Impl.setScreenSessionState_pr false r1.1 r1.2⟩

/-- Instance of the amended claim C26: StopRec read before any start ends the
loop, and the closing call resolves the decision to abort. -/
theorem Impl.watcher_loop_exit_witness :
    (Impl.setScreenSessionState false
        (Impl.commandTick
          { stCurrLocal := 1700000000, now := 1700000000250, line := some "StopRec" }
          (Impl.CommandProcessing.entry (Impl.new "config.json" : Impl Nat))
          (Impl.new "config.json" : Impl Nat)).2.1
        (Impl.commandTick
          { stCurrLocal := 1700000000, now := 1700000000250, line := some "StopRec" }
          (Impl.CommandProcessing.entry (Impl.new "config.json" : Impl Nat))
          (Impl.new "config.json" : Impl Nat)).2.2).1.pr
      = some ((Impl.CommandProcessing.entry (Impl.new "config.json" : Impl Nat)).pr.getD false) :=
  ((Impl.watcher_loop_exit
      { stCurrLocal := 1700000000, now := 1700000000250, line := some "StopRec" }
      (Impl.CommandProcessing.entry (Impl.new "config.json" : Impl Nat))
      (Impl.new "config.json" : Impl Nat)).2.2.1 (by decide)).2

/-- Claim C27. Output bitrate normalisation in `parseConfigFile`: for every
parsed integer `b`, the normalised value is `b` when `1 ≤ b ≤ 100` and 0
otherwise, so it lies in `[0, 100]` and normalising again changes nothing;
the value `parseConfigFile` stores as `outputBitrateInMB` is the normalised
`atoi` of the configured string; and for a stored value the `int` product
that `setupFFSessionInfo` assigns as bit rate does not overflow. -/
theorem Impl.limitOutputBitrate_spec {Frame : Type} (b : Int) :
    (1 ≤ b ∧ b ≤ 100 → Impl.limitOutputBitrate b = b) ∧
    (¬ (1 ≤ b ∧ b ≤ 100) → Impl.limitOutputBitrate b = 0) ∧
    0 ≤ Impl.limitOutputBitrate b ∧ Impl.limitOutputBitrate b ≤ 100 ∧
    Impl.limitOutputBitrate (Impl.limitOutputBitrate b) = Impl.limitOutputBitrate b ∧
    (∀ (atoi : String → Int) (doc : JsonValue) (s s1 : Impl Frame),
      Impl.parseConfigValues atoi doc s = some s1 →
      ∃ str, doc.stringAt ["ScreenRecord", "outputBitrateInMB"] = some str ∧
        s1.ffScreenSessionInfo.outputBitrateInMB = Impl.limitOutputBitrate (atoi str)) ∧
    (Impl.limitOutputBitrate b ≠ 0 →
      Impl.setupBitRate (Impl.limitOutputBitrate b)
        = some (Impl.limitOutputBitrate b * 1000 * 1000)) := by
  have hcases : (1 ≤ b ∧ b ≤ 100 ∧ Impl.limitOutputBitrate b = b) ∨
      (¬ (1 ≤ b ∧ b ≤ 100) ∧ Impl.limitOutputBitrate b = 0) := by
    unfold Impl.limitOutputBitrate
    by_cases h : b ≤ 0 ∨ b > 100
    · right
      refine ⟨by omega, ?_⟩
      rw [if_pos h]
    · left
      refine ⟨by omega, by omega, ?_⟩
      rw [if_neg h]
  have hzero : Impl.limitOutputBitrate 0 = 0 := by decide
  refine ⟨?_, ?_, ?_, ?_, ?_, ?_, ?_⟩
  · intro h
    rcases hcases with c | c
    · exact c.2.2
    · exact absurd h c.1
  · intro h
    rcases hcases with c | c
    · exact absurd ⟨c.1, c.2.1⟩ h
    · exact c.2
  · rcases hcases with c | c <;> omega
  · rcases hcases with c | c <;> omega
  · rcases hcases with c | c
    · rw [c.2.2, c.2.2]
    · rw [c.2, hzero]
  · intro atoi doc s s1 h
    obtain ⟨_, bitrate, _, hb, _, hstored⟩ := Impl.parseConfigValues_stored atoi doc s s1 h
    exact ⟨bitrate, hb, hstored⟩
  · intro hne
    rcases hcases with c | c
    · rw [c.2.2]
      unfold Impl.setupBitRate wrapInt32
      rw [if_pos (by omega)]
      congr 1
      omega
    · exact absurd c.2 hne

/-- Instance of claim C27: a configured bitrate of 8 is stored as 8 and gives
a bit rate of 8000000; a configured 250 is stored as 0. -/
theorem Impl.limitOutputBitrate_spec_witness :
    Impl.limitOutputBitrate 8 = 8 ∧ Impl.limitOutputBitrate 250 = 0 ∧
    Impl.setupBitRate (Impl.limitOutputBitrate 8) = some (Impl.limitOutputBitrate 8 * 1000 * 1000) :=
  ⟨(@Impl.limitOutputBitrate_spec Nat 8).1 (by decide),
   (@Impl.limitOutputBitrate_spec Nat 250).2.1 (by decide),
   (@Impl.limitOutputBitrate_spec Nat 8).2.2.2.2.2.2 (by decide)⟩

/-- Claim C28. CRF validation in `parseConfigFile`: for every parsed integer
`c`, the validated value is `c` when `0 ≤ c ≤ 51` and the default 23
otherwise, so it lies in `[0, 51]`; the value `parseConfigFile` stores as
`crf` is the validated `atoi` of the configured string. -/
theorem Impl.validateCrf_spec {Frame : Type} (c : Int) :
    (0 ≤ c ∧ c ≤ 51 → Impl.validateCrf c = c) ∧
    (¬ (0 ≤ c ∧ c ≤ 51) → Impl.validateCrf c = 23) ∧
    0 ≤ Impl.validateCrf c ∧ Impl.validateCrf c ≤ 51 ∧
    (∀ (atoi : String → Int) (doc : JsonValue) (s s1 : Impl Frame),
      Impl.parseConfigValues atoi doc s = some s1 →
      ∃ str, doc.stringAt ["ScreenRecord", "crf"] = some str ∧
        s1.ffScreenSessionInfo.crf = Impl.validateCrf (atoi str)) := by
  have hcases : (0 ≤ c ∧ c ≤ 51 ∧ Impl.validateCrf c = c) ∨
      (¬ (0 ≤ c ∧ c ≤ 51) ∧ Impl.validateCrf c = 23) := by
    unfold Impl.validateCrf
    by_cases h : c ≤ 51 ∧ c ≥ 0
    · left
      refine ⟨by omega, by omega, ?_⟩
      rw [if_pos h]
    · right
      refine ⟨by omega, ?_⟩
      rw [if_neg h]
  refine ⟨?_, ?_, ?_, ?_, ?_⟩
  · intro h
    rcases hcases with k | k
    · exact k.2.2
    · exact absurd h k.1
  · intro h
    rcases hcases with k | k
    · exact absurd ⟨k.1, k.2.1⟩ h
    · exact k.2
  · rcases hcases with k | k <;> omega
  · rcases hcases with k | k <;> omega
  · intro atoi doc s s1 h
    obtain ⟨crf, _, hc, _, hstored, _⟩ := Impl.parseConfigValues_stored atoi doc s s1 h
    exact ⟨crf, hc, hstored⟩

/-- Instance of claim C28: a configured crf of 28 is kept, 52 and -1 give
23. -/
theorem Impl.validateCrf_spec_witness :
    Impl.validateCrf 28 = 28 ∧ Impl.validateCrf 52 = 23 ∧ Impl.validateCrf (-1) = 23 :=
  ⟨(@Impl.validateCrf_spec Nat 28).1 (by decide),
   (@Impl.validateCrf_spec Nat 52).2.1 (by decide),
   (@Impl.validateCrf_spec Nat (-1)).2.1 (by decide)⟩

/-- Claim C29 (evaluation of the code). A configuration document that has
every member the validation section asks for, but no member `crf`, passes the
validation section; the parsing section then looks up the missing member
`crf`, on which the library assertion fails, and `parseConfigFile` does not
return false.  The same document with the member `crf` is parsed. -/
theorem Impl.validation_misses_crf :
    Impl.validateConfig sampleConfigWithoutCrf = some true ∧
    sampleConfigWithoutCrf.hasMemberAt ["ScreenRecord"] "crf" = some false ∧
    (sampleConfigWithoutCrf.stringAt ["ScreenRecord", "crf"]).isNone = true ∧
    (Impl.parseConfigFile atoiDigits (ConfigFileRead.parsed sampleConfigWithoutCrf)
      (Impl.new "config.json" : Impl Nat)).isNone = true ∧
    (Impl.parseConfigFile atoiDigits (ConfigFileRead.parsed sampleConfig)
      (Impl.new "config.json" : Impl Nat)).map (fun r => (r.2, r.1.ffScreenSessionInfo))
      = some (true, { fps := 25, crf := 28, outputBitrateInMB := 8 }) := by
  decide

/-- Claim C30. The scheduler period is always usable: for every `int` fps and
grab factor, with the product wrapped to 32 bits, the divisor `factoredFps`
lies in `(0, 1000]`, so it is not 0 at the division, and the period satisfies
`1 ≤ getFrequency() ≤ 1000`; every duration the sleep-based loop sleeps is
that period, whatever the callback does, so it is never 0 ms and never more
than one second. -/
theorem TimedMediaGrabber.period_usable {σ : Type} (fps timeDuration grabFactor : Int) :
    TimedMediaGrabber.factoredFps fps grabFactor ≠ 0 ∧
    1 ≤ (TimedMediaGrabber.new fps timeDuration grabFactor).getFrequency ∧
    (TimedMediaGrabber.new fps timeDuration grabFactor).getFrequency ≤ 1000 ∧
    (∀ (timerCallback : σ → σ × Bool) (readings : List Int) (g : TimedMediaGrabber) (s : σ),
      g.frequency = (TimedMediaGrabber.new fps timeDuration grabFactor).frequency →
      ∀ x ∈ (TimedMediaGrabber.runSleepBasedCallback timerCallback readings g s).1,
        1 ≤ x ∧ x ≤ 1000) := by
  obtain ⟨hpos, hle⟩ := TimedMediaGrabber.factoredFps_range fps grabFactor
  have hfreq : (TimedMediaGrabber.new fps timeDuration grabFactor).frequency
      = 1000 / TimedMediaGrabber.factoredFps fps grabFactor := by
    simp only [TimedMediaGrabber.new]
    exact Int.tdiv_eq_ediv (by norm_num) (le_of_lt hpos)
  have h1 : 1 ≤ (1000 : Int) / TimedMediaGrabber.factoredFps fps grabFactor :=
    Int.le_ediv_of_mul_le hpos (by omega)
  have h2 : (1000 : Int) / TimedMediaGrabber.factoredFps fps grabFactor ≤ 1000 :=
    Int.ediv_le_self _ (by norm_num)
  refine ⟨by omega, ?_, ?_, ?_⟩
  · rw [TimedMediaGrabber.getFrequency, hfreq]
    exact h1
  · rw [TimedMediaGrabber.getFrequency, hfreq]
    exact h2
  · intro timerCallback readings g s hg x hx
    rw [TimedMediaGrabber.runSleepBasedCallback_sleeps timerCallback readings g s x hx, hg, hfreq]
    exact ⟨h1, h2⟩

/-- Instance of claim C30: the sleep-based loop on a grabber at 30 fps, run
for two iterations, sleeps 33 ms each time. -/
theorem TimedMediaGrabber.period_usable_witness :
    (TimedMediaGrabber.runSleepBasedCallback (fun n : Nat => (n + 1, true)) [33, 66]
        (((TimedMediaGrabber.new 30 0 1).setMediaCallbackType
          MediaCallbackType.SYSTEM_SLEEP).start true true true).1 0).1 = [33, 33] ∧
    ((1 : Int) ≤ 33 ∧ (33 : Int) ≤ 1000) :=
  ⟨by decide,
   (@TimedMediaGrabber.period_usable Nat 30 0 1).2.2.2 (fun n : Nat => (n + 1, true))
    [33, 66]
    (((TimedMediaGrabber.new 30 0 1).setMediaCallbackType
      MediaCallbackType.SYSTEM_SLEEP).start true true true).1 0 rfl 33 (by decide)⟩

end CapUtils
